import Mathlib

/-!
Verification of the geo-survey geometric core: a shallow embedding of the
constraint solver, the alignment/join engine and the connectivity engine
(src/utils/geometry.ts, src/context/SurveyContext.tsx), with theorems about
the behaviour the specification describes.  JavaScript numbers are modelled
as real numbers; `Math.atan2`, `Math.sqrt`, `Math.cos`, `Math.sin` are
modelled by their mathematical counterparts.
-/

set_option maxHeartbeats 1600000

namespace GeoSurvey

open Real

/-! ## Data model (src/types.ts) -/

/-- A 2D coordinate in world units (types.ts `Point`). -/
structure Point where
  x : ℝ
  y : ℝ

theorem Point.ext_xy : ∀ {p q : Point}, p.x = q.x → p.y = q.y → p = q
  | ⟨_, _⟩, ⟨_, _⟩, rfl, rfl => rfl

/-- types.ts `Vertex`; the optional `solved` flag is modelled as a `Bool`
(JavaScript treats an absent flag as false). -/
structure Vertex where
  id : String
  x : ℝ
  y : ℝ
  label : String
  solved : Bool
  fixedAngle : Option ℝ := none

/-- The position of a vertex as a `Point`. -/
def Vertex.pos (v : Vertex) : Point := ⟨v.x, v.y⟩

/-- types.ts `EdgeType`. -/
inductive EdgeType where
  | PERIMETER
  | DIAGONAL
deriving DecidableEq

/-- types.ts `Edge`.  `length` is in meters; optional fields are `Option`s. -/
structure Edge where
  id : String
  startVertexId : String
  endVertexId : String
  length : ℝ
  type : EdgeType
  thickness : Option ℝ := none
  linkedEdgeId : Option String := none
  alignmentOffset : Option ℝ := none

/-- types.ts `Polygon`.  The optional `isLocked` is modelled as a `Bool`. -/
structure Polygon where
  id : String
  name : String
  vertices : List Vertex
  edges : List Edge
  centroid : Point
  isClosed : Bool := true
  area : Option ℝ := none
  isLocked : Bool := false
  groupId : Option String := none

/-- geometry.ts `PIXELS_PER_METER`: the scale S, world units per meter. -/
noncomputable def PIXELS_PER_METER : ℝ := 100

/-! ## Basic math (src/utils/geometry.ts) -/

/-- geometry.ts `distance`. -/
noncomputable def distance (p1 p2 : Point) : ℝ :=
  Real.sqrt ((p2.x - p1.x) ^ 2 + (p2.y - p1.y) ^ 2)

/-- geometry.ts `midPoint`. -/
noncomputable def midPoint (p1 p2 : Point) : Point :=
  ⟨(p1.x + p2.x) / 2, (p1.y + p2.y) / 2⟩

/-- geometry.ts `calculateCentroid` (arithmetic mean of the vertices; the
empty list gives the origin). -/
noncomputable def calculateCentroid (vertices : List Vertex) : Point :=
  if vertices.length = 0 then ⟨0, 0⟩
  else
    let sum := vertices.foldl (fun acc v => (acc.1 + v.x, acc.2 + v.y)) ((0 : ℝ), (0 : ℝ))
    ⟨sum.1 / vertices.length, sum.2 / vertices.length⟩

/-- geometry.ts `rotatePoint`: rotate `p` about `center` by `angle`. -/
noncomputable def rotatePoint (p center : Point) (angle : ℝ) : Point :=
  ⟨center.x + ((p.x - center.x) * Real.cos angle - (p.y - center.y) * Real.sin angle),
   center.y + ((p.x - center.x) * Real.sin angle + (p.y - center.y) * Real.cos angle)⟩

/-- `Math.atan2 y x` of JavaScript, as a real function: the angle of the
vector (x, y), in (-pi, pi]. -/
noncomputable def mathAtan2 (y x : ℝ) : ℝ :=
  if 0 < x then Real.arctan (y / x)
  else if x < 0 then
    (if y < 0 then Real.arctan (y / x) - Real.pi else Real.arctan (y / x) + Real.pi)
  else
    (if 0 < y then Real.pi / 2 else if y < 0 then -(Real.pi / 2) else 0)

/-- SurveyContext.tsx `getPolygonSignedArea` (shoelace formula; in the
screen's y-down coordinates a positive area means clockwise winding). -/
noncomputable def getPolygonSignedArea (vertices : List Vertex) : ℝ :=
  let n := vertices.length
  (List.range n).foldl
    (fun area i =>
      match vertices.get? i, vertices.get? ((i + 1) % n) with
      | some vi, some vj => area + (vi.x * vj.y) - (vj.x * vi.y)
      | _, _ => area)
    0 / 2

/-! ## Two-circle intersection (SurveyContext.tsx `findIntersection`) -/

/-- SurveyContext.tsx `EPSILON`: 10 world units of tolerance. -/
noncomputable def EPSILON : ℝ := 10

/-- The two failure codes of `findIntersection`. -/
inductive CircleCode where
  | SEPARATED
  | CONTAINED
deriving DecidableEq

/-- The result of `findIntersection`: success carries the point and the
`approximated` flag (absent in the source on the exact branch = false). -/
inductive CircleResult where
  | success (point : Point) (approximated : Bool)
  | error (code : CircleCode)

/-- SurveyContext.tsx `findIntersection` (lines 1546-1603): intersect the
circle of radius `r1` about `p1` with the circle of radius `r2` about `p2`,
with tolerance `EPSILON`, tie-breaking by distance to `originalP3`. -/
noncomputable def findIntersection (p1 : Point) (r1 : ℝ) (p2 : Point) (r2 : ℝ)
    (originalP3 : Point) : CircleResult :=
  let d := distance p1 p2
  if d = 0 then .error .CONTAINED
  else if d > r1 + r2 then
    (if d ≤ r1 + r2 + EPSILON then
      .success ⟨p1.x + (p2.x - p1.x) * (r1 / (r1 + r2)),
                p1.y + (p2.y - p1.y) * (r1 / (r1 + r2))⟩ true
     else .error .SEPARATED)
  else if d < |r1 - r2| then
    (if d ≥ |r1 - r2| - EPSILON then
      (if r1 > r2 then
        .success ⟨p1.x + (p2.x - p1.x) * (r1 / d), p1.y + (p2.y - p1.y) * (r1 / d)⟩ true
       else
        .success ⟨p2.x + (p1.x - p2.x) * (r2 / d), p2.y + (p1.y - p2.y) * (r2 / d)⟩ true)
     else .error .CONTAINED)
  else
    let a := (r1 * r1 - r2 * r2 + d * d) / (2 * d)
    let h := Real.sqrt (max 0 (r1 * r1 - a * a))
    let x2 := p1.x + a * (p2.x - p1.x) / d
    let y2 := p1.y + a * (p2.y - p1.y) / d
    let i1 : Point := ⟨x2 + h * (p2.y - p1.y) / d, y2 - h * (p2.x - p1.x) / d⟩
    let i2 : Point := ⟨x2 - h * (p2.y - p1.y) / d, y2 + h * (p2.x - p1.x) / d⟩
    if distance i1 originalP3 < distance i2 originalP3 then .success i1 false
    else .success i2 false

/-- The specification's case analysis for `findIntersection` (spec section
4.1 item 4 and claim C1), with tolerance 10 world units, as an ordered case
analysis (each case below the first applies when the earlier guards fail;
the earlier-guard negations that are not already implied by the listed
guards for nonnegative radii are written explicitly). -/
noncomputable def findIntersectionSpec (p1 : Point) (r1 : ℝ) (p2 : Point) (r2 : ℝ)
    (originalP3 : Point) : Prop :=
  let d := distance p1 p2
  (d = 0 → findIntersection p1 r1 p2 r2 originalP3 = .error .CONTAINED)
  ∧ (d > r1 + r2 → d ≤ r1 + r2 + 10 →
      findIntersection p1 r1 p2 r2 originalP3 =
        .success ⟨p1.x + (p2.x - p1.x) * (r1 / (r1 + r2)),
                  p1.y + (p2.y - p1.y) * (r1 / (r1 + r2))⟩ true)
  ∧ (d > r1 + r2 + 10 → findIntersection p1 r1 p2 r2 originalP3 = .error .SEPARATED)
  ∧ (d ≠ 0 → d < |r1 - r2| → d ≥ |r1 - r2| - 10 →
      findIntersection p1 r1 p2 r2 originalP3 =
        (if r1 > r2 then
          .success ⟨p1.x + (p2.x - p1.x) * (r1 / d), p1.y + (p2.y - p1.y) * (r1 / d)⟩ true
         else
          .success ⟨p2.x + (p1.x - p2.x) * (r2 / d), p2.y + (p1.y - p2.y) * (r2 / d)⟩ true))
  ∧ (d < |r1 - r2| - 10 → findIntersection p1 r1 p2 r2 originalP3 = .error .CONTAINED)
  ∧ (d ≠ 0 → ¬ d > r1 + r2 → ¬ d < |r1 - r2| →
      findIntersection p1 r1 p2 r2 originalP3 =
        (let a := (r1 * r1 - r2 * r2 + d * d) / (2 * d)
         let h := Real.sqrt (max 0 (r1 * r1 - a * a))
         let x2 := p1.x + a * (p2.x - p1.x) / d
         let y2 := p1.y + a * (p2.y - p1.y) / d
         let i1 : Point := ⟨x2 + h * (p2.y - p1.y) / d, y2 - h * (p2.x - p1.x) / d⟩
         let i2 : Point := ⟨x2 - h * (p2.y - p1.y) / d, y2 + h * (p2.x - p1.x) / d⟩
         if distance i1 originalP3 < distance i2 originalP3 then .success i1 false
         else .success i2 false))

/-! ## Transformation logic (SurveyContext.tsx lines 1274-1482) -/

/-- Translation of a single point by (dx, dy). -/
noncomputable def translatePt (p : Point) (dx dy : ℝ) : Point := ⟨p.x + dx, p.y + dy⟩

/-- SurveyContext.tsx `rotatePolygon`: rotate every vertex about `center`,
recomputing the centroid. -/
noncomputable def rotatePolygon (poly : Polygon) (center : Point) (angle : ℝ) : Polygon :=
  let newVertices := poly.vertices.map (fun v =>
    let rotated := rotatePoint v.pos center angle
    { v with x := rotated.x, y := rotated.y })
  { poly with vertices := newVertices, centroid := calculateCentroid newVertices }

/-- SurveyContext.tsx `translatePolygon`. -/
noncomputable def translatePolygon (poly : Polygon) (dx dy : ℝ) : Polygon :=
  let newVertices := poly.vertices.map (fun v => { v with x := v.x + dx, y := v.y + dy })
  { poly with vertices := newVertices, centroid := calculateCentroid newVertices }

/-- Look a vertex up by id, as `poly.vertices.find(v => v.id === vid)`. -/
def findVertex (poly : Polygon) (vid : String) : Option Vertex :=
  poly.vertices.find? (fun v => v.id == vid)

/-- The record returned by `calculateAlignmentTransform`. -/
structure AlignTransform where
  rotation : ℝ
  dx : ℝ
  dy : ℝ

/-- SurveyContext.tsx `calculateAlignmentTransform` (lines 1363-1431):
winding-aware rotation plus translation snapping the source edge to the
target edge with a perpendicular gap and a sliding offset (both in meters).
Where the source would crash on a missing vertex (the non-null assertions),
the model returns the zero transform; the claims only concern inputs where
every lookup succeeds. -/
noncomputable def calculateAlignmentTransform (sourcePoly : Polygon) (sourceEdgeId : String)
    (targetPoly : Polygon) (targetEdgeId : String) (offset perpendicularDist : ℝ) :
    AlignTransform :=
  match sourcePoly.edges.find? (fun e => e.id == sourceEdgeId),
        targetPoly.edges.find? (fun e => e.id == targetEdgeId) with
  | some sEdge, some tEdge =>
    match findVertex sourcePoly sEdge.startVertexId, findVertex sourcePoly sEdge.endVertexId,
          findVertex targetPoly tEdge.startVertexId, findVertex targetPoly tEdge.endVertexId with
    | some sV1, some sV2, some tV1, some tV2 =>
      let sArea := getPolygonSignedArea sourcePoly.vertices
      let tArea := getPolygonSignedArea targetPoly.vertices
      let angleSource := mathAtan2 (sV2.y - sV1.y) (sV2.x - sV1.x)
      let angleTarget := mathAtan2 (tV2.y - tV1.y) (tV2.x - tV1.x)
      let sNormalAngleRel := if 0 < sArea then Real.pi / 2 else -(Real.pi / 2)
      let tNormalAngleRel := if 0 < tArea then Real.pi / 2 else -(Real.pi / 2)
      let sNormalAngle := angleSource + sNormalAngleRel
      let tNormalAngle := angleTarget + tNormalAngleRel
      let rotationNeeded := tNormalAngle + Real.pi - sNormalAngle
      let sMid : Point := ⟨(sV1.x + sV2.x) / 2, (sV1.y + sV2.y) / 2⟩
      let rotatedSMid := rotatePoint sMid sourcePoly.centroid rotationNeeded
      let tMid : Point := ⟨(tV1.x + tV2.x) / 2, (tV1.y + tV2.y) / 2⟩
      let tOutAngle := tNormalAngle + Real.pi
      let nx := Real.cos tOutAngle
      let ny := Real.sin tOutAngle
      let tLen := distance tV1.pos tV2.pos
      let ux := (tV2.x - tV1.x) / tLen
      let uy := (tV2.y - tV1.y) / tLen
      let distPx := perpendicularDist * PIXELS_PER_METER
      let offsetPx := offset * PIXELS_PER_METER
      let targetX := tMid.x + nx * distPx + ux * offsetPx
      let targetY := tMid.y + ny * distPx + uy * offsetPx
      ⟨rotationNeeded, targetX - rotatedSMid.x, targetY - rotatedSMid.y⟩
    | _, _, _, _ => ⟨0, 0, 0⟩
  | _, _ => ⟨0, 0, 0⟩

/-- SurveyContext.tsx `calculateProjectedOffset`: the slide offset (meters)
reproducing the current relative placement of two edges. -/
noncomputable def calculateProjectedOffset (sV1 sV2 tV1 tV2 : Vertex) : ℝ :=
  let sMid : Point := ⟨(sV1.x + sV2.x) / 2, (sV1.y + sV2.y) / 2⟩
  let tMid : Point := ⟨(tV1.x + tV2.x) / 2, (tV1.y + tV2.y) / 2⟩
  let dx := tV2.x - tV1.x
  let dy := tV2.y - tV1.y
  let len := Real.sqrt (dx * dx + dy * dy)
  if len = 0 then 0
  else ((sMid.x - tMid.x) * (dx / len) + (sMid.y - tMid.y) * (dy / len)) / PIXELS_PER_METER

/-- SurveyContext.tsx `alignPolygonToEdge`: apply the alignment transform,
rotating about the source centroid and then translating. -/
noncomputable def alignPolygonToEdge (sourcePoly : Polygon) (sourceEdgeId : String)
    (targetPoly : Polygon) (targetEdgeId : String) (offset perpendicularDist : ℝ) : Polygon :=
  let transform := calculateAlignmentTransform sourcePoly sourceEdgeId targetPoly targetEdgeId
    offset perpendicularDist
  translatePolygon (rotatePolygon sourcePoly sourcePoly.centroid transform.rotation)
    transform.dx transform.dy

/-! ## Concrete fixtures for the alignment counterexamples

Two clockwise (in y-down screen coordinates) unit squares at scale 100.
The target's joined edge is its top edge T0-T1; the source's joined edge is
its bottom edge A2-A3 (direction angle pi), so the required rotation is 0. -/

/-- The target square for the alignment counterexample. -/
def tgtSquare : Polygon :=
  { id := "T", name := "T",
    vertices := [⟨"T0", 0, 0, "A", true, none⟩, ⟨"T1", 100, 0, "B", true, none⟩,
                 ⟨"T2", 100, 100, "C", true, none⟩, ⟨"T3", 0, 100, "D", true, none⟩],
    edges := [⟨"te0", "T0", "T1", 1, .PERIMETER, some 10, none, none⟩,
              ⟨"te1", "T1", "T2", 1, .PERIMETER, some 10, none, none⟩,
              ⟨"te2", "T2", "T3", 1, .PERIMETER, some 10, none, none⟩,
              ⟨"te3", "T3", "T0", 1, .PERIMETER, some 10, none, none⟩],
    centroid := ⟨50, 50⟩, isClosed := true, area := none, isLocked := true, groupId := none }

/-- The source square for the alignment counterexample. -/
def srcSquare : Polygon :=
  { id := "A", name := "A",
    vertices := [⟨"A0", 0, 0, "A", true, none⟩, ⟨"A1", 100, 0, "B", true, none⟩,
                 ⟨"A2", 100, 100, "C", true, none⟩, ⟨"A3", 0, 100, "D", true, none⟩],
    edges := [⟨"ae0", "A0", "A1", 1, .PERIMETER, some 10, none, none⟩,
              ⟨"ae1", "A1", "A2", 1, .PERIMETER, some 10, none, none⟩,
              ⟨"ae2", "A2", "A3", 1, .PERIMETER, some 10, none, none⟩,
              ⟨"ae3", "A3", "A0", 1, .PERIMETER, some 10, none, none⟩],
    centroid := ⟨50, 50⟩, isClosed := true, area := none, isLocked := true, groupId := none }

/-! ## Connectivity engine (SurveyContext.tsx lines 1200-1269) -/

instance : Inhabited Vertex := ⟨⟨"", 0, 0, "", false, none⟩⟩

instance : Inhabited Edge := ⟨⟨"", "", "", 0, .PERIMETER, none, none, none⟩⟩

instance : Inhabited Polygon := ⟨⟨"", "", [], [], ⟨0, 0⟩, false, none, false, none⟩⟩

/-- The polygon owning an edge id: `polygons.find(p => p.edges.some(e => e.id === eid))`. -/
def findPolygonWithEdge (ps : List Polygon) (eid : String) : Option Polygon :=
  ps.find? (fun p => p.edges.any (fun e => e.id == eid))

/-- The body of the `forEach` over the current polygon's edges in
`getConnectedPolygonGroup`: for every linked edge resolve the neighbour
polygon and, unless it is excluded or already in the group, add it to the
group and the queue. -/
def bfsProcessEdges (allPolygons : List Polygon) (excludePolyId : Option String)
    (edges : List Edge) (gq : List String × List String) : List String × List String :=
  edges.foldl
    (fun gq e =>
      match e.linkedEdgeId with
      | none => gq
      | some le =>
        match findPolygonWithEdge allPolygons le with
        | none => gq
        | some neighbor =>
          if (match excludePolyId with | some ex => neighbor.id == ex | none => false) then gq
          else if neighbor.id ∈ gq.1 then gq
          else (gq.1 ++ [neighbor.id], gq.2 ++ [neighbor.id]))
    gq

/-- The `while (queue.length > 0)` loop of `getConnectedPolygonGroup`,
with explicit fuel (the source loop pops one queue entry per iteration and
every push adds a new polygon to the group, so `allPolygons.length + 1`
iterations always suffice; the termination theorem below proves the fuel
is never exhausted). -/
def getConnectedAux (allPolygons : List Polygon) (excludePolyId : Option String) :
    ℕ → List String → List String → List String
  | 0, _, group => group
  | _ + 1, [], group => group
  | fuel + 1, currentId :: queue, group =>
    match allPolygons.find? (fun p => p.id == currentId) with
    | none => getConnectedAux allPolygons excludePolyId fuel queue group
    | some currentPoly =>
      let gq := bfsProcessEdges allPolygons excludePolyId currentPoly.edges (group, queue)
      getConnectedAux allPolygons excludePolyId fuel gq.2 gq.1

/-- SurveyContext.tsx `getConnectedPolygonGroup`: breadth-first traversal
of the linked-edge graph from `startPolyId`, optionally refusing to step
into `excludePolyId`.  The JS `Set` is modelled as a duplicate-free list. -/
def getConnectedPolygonGroup (startPolyId : String) (allPolygons : List Polygon)
    (excludePolyId : Option String) : List String :=
  getConnectedAux allPolygons excludePolyId (allPolygons.length + 1) [startPolyId] [startPolyId]

/-- The loop of SurveyContext.tsx `recalculateGroups`, iterating over the
polygon ids (the source iterates the array itself, but reads only the
stable `id` field of each entry), carrying the visited set, the component
counter for minting and the polygon list being updated.  The source mints
each fresh group id as "group-" + timestamp + random suffix; the model
takes the supply as `mint k` for the k-th component processed.  The
per-component assignment (`findIndex` + replace per member id) is written
as the equivalent map over the list (ids are unique in a well-formed
document). -/
def recalcAux (mint : ℕ → String) : List String → List String → ℕ → List Polygon → List Polygon
  | [], _, _, ps => ps
  | pid :: rest, visited, k, ps =>
    if pid ∈ visited then recalcAux mint rest visited k ps
    else
      let comp := getConnectedPolygonGroup pid ps none
      if 1 < comp.length then
        recalcAux mint rest (visited ++ comp) (k + 1)
          (ps.map (fun p => if p.id ∈ comp then { p with groupId := some (mint k) } else p))
      else
        recalcAux mint rest (visited ++ comp) k
          (ps.map (fun p => if p.id == pid then { p with groupId := none } else p))

/-- SurveyContext.tsx `recalculateGroups`: recompute all connected
components; components of more than one polygon get one freshly minted
group id, singleton components lose theirs. -/
def recalculateGroups (polygons : List Polygon) (mint : ℕ → String) : List Polygon :=
  recalcAux mint (polygons.map Polygon.id) [] 0 polygons

/-! ## The reducer state and the join orchestrator (src/unnamed/part_000)

The model keeps the fields of `AppState` that the embedded reducer cases
read or write; presentation-only fields (theme, pan/zoom, drawing state,
context menu) are omitted. -/

/-- types.ts `HistoryEntry`. -/
structure HistoryEntry where
  polygons : List Polygon
  selectedPolygonIds : List String
  selectedEdgeIds : List String
  selectedVertexIds : List String

/-- The join-conflict record of `AppState`. -/
structure JoinConflict where
  sourcePolyId : String
  targetPolyId : String
  sourceEdgeId : String
  targetEdgeId : String
  sourceThickness : ℝ
  targetThickness : ℝ
  initialOffset : ℝ

/-- A solver/join result message: `isError` distinguishes the source's
'error' from 'success'. -/
structure SolverMsg where
  isError : Bool
  text : String

/-- The domain part of types.ts `AppState`. -/
structure AppState where
  polygons : List Polygon
  selectedPolygonIds : List String
  selectedEdgeIds : List String
  selectedVertexIds : List String
  solverMsg : Option SolverMsg
  isJoinMode : Bool
  joinSourceEdgeId : Option String
  joinConflict : Option JoinConflict
  past : List HistoryEntry
  future : List HistoryEntry

/-- part_000 `createSnapshot`. -/
def createSnapshot (state : AppState) : HistoryEntry :=
  ⟨state.polygons, state.selectedPolygonIds, state.selectedEdgeIds, state.selectedVertexIds⟩

/-- part_000 `withHistory`: push a snapshot, keep the last 50, clear the
redo stack. -/
def withHistory (state : AppState) : AppState :=
  let l := state.past ++ [createSnapshot state]
  { state with past := l.drop (l.length - 50), future := [] }

/-- The JS idiom `edge.thickness || 10`: an absent (or zero, `||` being
falsy on 0) thickness defaults to 10. -/
noncomputable def thicknessOrDefault (t : Option ℝ) : ℝ :=
  match t with
  | none => 10
  | some v => if v = 0 then 10 else v

/-- The `alreadyLinked` scan shared by the COMPLETE_JOIN and
JOIN_SELECTED_EDGES cases: does any edge of `src` hold a `linkedEdgeId`
resolving into `tgt`? -/
def alreadyLinkedTo (ps : List Polygon) (src tgt : Polygon) : Bool :=
  src.edges.any (fun e =>
    match e.linkedEdgeId with
    | none => false
    | some le =>
      match findPolygonWithEdge ps le with
      | some linkedPoly => linkedPoly.id == tgt.id
      | none => false)

/-- The per-polygon update `state.polygons.map(...)` of part_000
`executeJoin` (lines 113-128), factored out of the inline lambda: the
source polygon is replaced by its aligned version, the target by its
link-updated version, prior peers of the source's group are translated by
(dx, dy) and re-grouped, prior peers of the target's group only
re-grouped. -/
noncomputable def joinMapFn (finalSourcePoly finalTargetPoly : Polygon)
    (oldSourceGroupId oldTargetGroupId : Option String) (dx dy : ℝ) (finalGroupId : String)
    (p : Polygon) : Polygon :=
  if p.id == finalSourcePoly.id then finalSourcePoly
  else if p.id == finalTargetPoly.id then finalTargetPoly
  else if oldSourceGroupId.isSome && p.groupId == oldSourceGroupId then
    { translatePolygon p dx dy with groupId := some finalGroupId }
  else if oldTargetGroupId.isSome && p.groupId == oldTargetGroupId then
    { p with groupId := some finalGroupId }
  else p

/-- The data part_000 `executeJoin` computes before mapping over the
polygon list (lines 53-111), factored into a record: the aligned source
polygon and link-updated target polygon, the positional delta (dx, dy) the
alignment induced on the source polygon's first vertex, and the merged
group id. -/
structure JoinParts where
  finalSourcePoly : Polygon
  finalTargetPoly : Polygon
  dx : ℝ
  dy : ℝ
  finalGroupId : String

/-- part_000 `executeJoin` lines 53-111: thickness updates, alignment with
gap = thickness/100 meters, the first-vertex delta, the merged group id and
the two finalized polygons.  `vertices[0]` is modelled with `headI` (the
source would crash on an empty vertex list); the freshly minted
`group-${Date.now()}` is the parameter `freshGroupId`. -/
noncomputable def joinParts (sourcePoly targetPoly : Polygon)
    (sourceEdgeId targetEdgeId : String) (thickness initialOffset : ℝ)
    (freshGroupId : String) : JoinParts :=
  let updatedSourceEdges := sourcePoly.edges.map (fun e =>
    if e.id == sourceEdgeId then { e with thickness := some thickness } else e)
  let updatedTargetEdges := targetPoly.edges.map (fun e =>
    if e.id == targetEdgeId then { e with thickness := some thickness } else e)
  let offset := initialOffset
  let gapMeters := thickness / 100
  let tempSource := { sourcePoly with edges := updatedSourceEdges }
  let tempTarget := { targetPoly with edges := updatedTargetEdges }
  let alignedSourcePoly :=
    alignPolygonToEdge tempSource sourceEdgeId tempTarget targetEdgeId offset gapMeters
  let dx := alignedSourcePoly.vertices.headI.x - tempSource.vertices.headI.x
  let dy := alignedSourcePoly.vertices.headI.y - tempSource.vertices.headI.y
  let finalGroupId :=
    match sourcePoly.groupId, targetPoly.groupId with
    | some g, some _ => g
    | some g, none => g
    | none, some g => g
    | none, none => freshGroupId
  let finalSourcePoly :=
    { alignedSourcePoly with
      groupId := some finalGroupId,
      edges := alignedSourcePoly.edges.map (fun e =>
        if e.id == sourceEdgeId then
          { e with linkedEdgeId := some targetEdgeId, alignmentOffset := some offset }
        else e) }
  let finalTargetPoly :=
    { tempTarget with
      groupId := some finalGroupId,
      edges := tempTarget.edges.map (fun e =>
        if e.id == targetEdgeId then { e with linkedEdgeId := some sourceEdgeId } else e) }
  ⟨finalSourcePoly, finalTargetPoly, dx, dy, finalGroupId⟩

/-- part_000 `executeJoin` (lines 47-140), assembled from `joinParts` and
`joinMapFn`. -/
noncomputable def executeJoin (state : AppState) (sourceEdgeId targetEdgeId : String)
    (thickness initialOffset : ℝ) (freshGroupId : String) : AppState :=
  match findPolygonWithEdge state.polygons sourceEdgeId,
        findPolygonWithEdge state.polygons targetEdgeId with
  | some sourcePoly, some targetPoly =>
    let parts := joinParts sourcePoly targetPoly sourceEdgeId targetEdgeId thickness
      initialOffset freshGroupId
    let newPolygons := state.polygons.map (joinMapFn parts.finalSourcePoly
      parts.finalTargetPoly sourcePoly.groupId targetPoly.groupId parts.dx parts.dy
      parts.finalGroupId)
    { withHistory state with
      polygons := newPolygons,
      isJoinMode := false,
      joinSourceEdgeId := none,
      joinConflict := none,
      solverMsg := some ⟨false, "Polygons joined and grouped."⟩,
      selectedPolygonIds := [parts.finalSourcePoly.id],
      selectedEdgeIds := [sourceEdgeId] }
  | _, _ => state

/-- part_000 `surveyReducer` case COMPLETE_JOIN (lines 684-749). -/
noncomputable def completeJoin (state : AppState) (targetEdgeId : String)
    (freshGroupId : String) : AppState :=
  match state.joinSourceEdgeId with
  | none => { state with isJoinMode := false, joinSourceEdgeId := none }
  | some sourceEdgeId =>
    match findPolygonWithEdge state.polygons sourceEdgeId,
          findPolygonWithEdge state.polygons targetEdgeId with
    | some sourcePoly, some targetPoly =>
      if sourcePoly.id == targetPoly.id then
        { state with
          isJoinMode := false, joinSourceEdgeId := none,
          solverMsg := some ⟨true, "Cannot join a polygon to itself."⟩ }
      else if !targetPoly.isLocked then
        { state with
          solverMsg := some ⟨true, "Target polygon is not solved (locked). Solve it first."⟩ }
      else if alreadyLinkedTo state.polygons sourcePoly targetPoly then
        { state with
          isJoinMode := false, joinSourceEdgeId := none,
          solverMsg := some ⟨true,
            "Polygons are already joined by another edge. Only one join allowed."⟩ }
      else
        let sEdge := (sourcePoly.edges.find? (fun e => e.id == sourceEdgeId)).getD default
        let tEdge := (targetPoly.edges.find? (fun e => e.id == targetEdgeId)).getD default
        let sThick := thicknessOrDefault sEdge.thickness
        let tThick := thicknessOrDefault tEdge.thickness
        if sThick ≠ tThick then
          { state with
            joinConflict :=
              some ⟨sourcePoly.id, targetPoly.id, sourceEdgeId, targetEdgeId, sThick, tThick, 0⟩ }
        else executeJoin state sourceEdgeId targetEdgeId sThick 0 freshGroupId
    | _, _ => { state with isJoinMode := false, joinSourceEdgeId := none }

/-- part_000 `surveyReducer` case JOIN_SELECTED_EDGES (lines 751-812). -/
noncomputable def joinSelectedEdges (state : AppState) (freshGroupId : String) : AppState :=
  match state.selectedEdgeIds with
  | [edge1Id, edge2Id] =>
    match findPolygonWithEdge state.polygons edge1Id,
          findPolygonWithEdge state.polygons edge2Id with
    | some poly1, some poly2 =>
      if poly1.id == poly2.id then
        { state with
          solverMsg := some ⟨true, "Must select edges from two DIFFERENT polygons."⟩ }
      else if !poly1.isLocked || !poly2.isLocked then
        { state with
          solverMsg := some ⟨true, "Both polygons must be locked (solved) to join."⟩ }
      else if alreadyLinkedTo state.polygons poly1 poly2 then
        { state with solverMsg := some ⟨true, "Polygons are already joined."⟩ }
      else
        let edge1 := (poly1.edges.find? (fun e => e.id == edge1Id)).getD default
        let edge2 := (poly2.edges.find? (fun e => e.id == edge2Id)).getD default
        let sV1 := (findVertex poly1 edge1.startVertexId).getD default
        let sV2 := (findVertex poly1 edge1.endVertexId).getD default
        let tV1 := (findVertex poly2 edge2.startVertexId).getD default
        let tV2 := (findVertex poly2 edge2.endVertexId).getD default
        let projectedOffset := calculateProjectedOffset sV1 sV2 tV1 tV2
        let t1 := thicknessOrDefault edge1.thickness
        let t2 := thicknessOrDefault edge2.thickness
        if t1 ≠ t2 then
          { state with
            joinConflict :=
              some ⟨poly1.id, poly2.id, edge1Id, edge2Id, t1, t2, projectedOffset⟩ }
        else executeJoin state edge1Id edge2Id t1 projectedOffset freshGroupId
    | _, _ =>
      { state with solverMsg := some ⟨true, "Must select edges from two DIFFERENT polygons."⟩ }
  | _ => state

/-- part_000 `surveyReducer` case RESOLVE_JOIN_CONFLICT (lines 814-821). -/
noncomputable def resolveJoinConflict (state : AppState) (thickness : ℝ)
    (freshGroupId : String) : AppState :=
  match state.joinConflict with
  | none => state
  | some conflict =>
    executeJoin state conflict.sourceEdgeId conflict.targetEdgeId thickness
      conflict.initialOffset freshGroupId

/-- part_000 `surveyReducer` case UNLINK_EDGE (lines 831-869). -/
noncomputable def unlinkEdge (state : AppState) (edgeId : String) (mint : ℕ → String) :
    AppState :=
  match findPolygonWithEdge state.polygons edgeId with
  | none => state
  | some poly =>
    match poly.edges.find? (fun e => e.id == edgeId) with
    | none => state
    | some edge =>
      match edge.linkedEdgeId with
      | none => state
      | some linkedId =>
        let targetPolyId := (findPolygonWithEdge state.polygons linkedId).map Polygon.id
        let newPolygons := state.polygons.map (fun p =>
          if p.id == poly.id then
            { p with edges := p.edges.map (fun e =>
                if e.id == edgeId then { e with linkedEdgeId := none, alignmentOffset := none }
                else e) }
          else if (match targetPolyId with | some tid => p.id == tid | none => false) then
            { p with edges := p.edges.map (fun e =>
                if e.id == linkedId then { e with linkedEdgeId := none } else e) }
          else p)
        let newPolygons2 :=
          if poly.groupId.isSome then recalculateGroups newPolygons mint else newPolygons
        { withHistory state with
          polygons := newPolygons2,
          solverMsg := some ⟨false, "Edges unlinked. Groups updated."⟩ }

/-- part_000 `surveyReducer` case DELETE_POLYGON (lines 1291-1310). -/
noncomputable def deletePolygon (state : AppState) (pid : String) (mint : ℕ → String) :
    AppState :=
  let isSelected := pid ∈ state.selectedPolygonIds
  let polyToDelete := state.polygons.find? (fun p => p.id == pid)
  let updatedPolygons := state.polygons.filter (fun p => !(p.id == pid))
  let updatedPolygons2 :=
    match polyToDelete with
    | some p => if p.groupId.isSome then recalculateGroups updatedPolygons mint
                else updatedPolygons
    | none => updatedPolygons
  { withHistory state with
    polygons := updatedPolygons2,
    selectedPolygonIds := state.selectedPolygonIds.filter (fun i => !(i == pid)),
    selectedEdgeIds := if isSelected then [] else state.selectedEdgeIds,
    solverMsg := none }

/-- A concrete state for the C5 counterexample: the source polygon is NOT
locked, the target is, join mode is armed on the source's edge "ae2". -/
def unlockedSrcSquare : Polygon := { srcSquare with isLocked := false }

/-- The C5 counterexample state. -/
def c5State : AppState :=
  { polygons := [unlockedSrcSquare, tgtSquare],
    selectedPolygonIds := [], selectedEdgeIds := [], selectedVertexIds := [],
    solverMsg := none, isJoinMode := true, joinSourceEdgeId := some "ae2",
    joinConflict := none, past := [], future := [] }

/-! ## Fixtures for the C6 counterexample: three polygons already in one
rigid group G, chained A - B - C by links, where A is then joined directly
to C. -/

/-- The join-source polygon A of the C6 counterexample: the src square's
vertices, edges aj0..aj3, already linked to B through aj0, group G. -/
def polyA2 : Polygon :=
  { id := "A", name := "A",
    vertices := srcSquare.vertices,
    edges := [⟨"aj0", "A0", "A1", 1, .PERIMETER, some 10, some "bj0", none⟩,
              ⟨"aj1", "A1", "A2", 1, .PERIMETER, some 10, none, none⟩,
              ⟨"aj2", "A2", "A3", 1, .PERIMETER, some 10, none, none⟩,
              ⟨"aj3", "A3", "A0", 1, .PERIMETER, some 10, none, none⟩],
    centroid := ⟨50, 50⟩, isClosed := true, area := none, isLocked := true,
    groupId := some "G" }

/-- The bridge polygon B of the C6 counterexample, linked to A and C,
group G, far away at (1000, 1000). -/
def polyB : Polygon :=
  { id := "B", name := "B",
    vertices := [⟨"B0", 1000, 1000, "A", true, none⟩, ⟨"B1", 1100, 1000, "B", true, none⟩,
                 ⟨"B2", 1100, 1100, "C", true, none⟩],
    edges := [⟨"bj0", "B0", "B1", 1, .PERIMETER, some 10, some "aj0", none⟩,
              ⟨"bj1", "B1", "B2", 1, .PERIMETER, some 10, some "cj1", none⟩,
              ⟨"bj2", "B2", "B0", 1, .PERIMETER, some 10, none, none⟩],
    centroid := ⟨1066, 1066⟩, isClosed := true, area := none, isLocked := true,
    groupId := some "G" }

/-- The join-target polygon C of the C6 counterexample: the tgt square's
vertices, edges cj0..cj3, already linked to B through cj1, group G. -/
def polyC : Polygon :=
  { id := "C", name := "C",
    vertices := tgtSquare.vertices,
    edges := [⟨"cj0", "T0", "T1", 1, .PERIMETER, some 10, none, none⟩,
              ⟨"cj1", "T1", "T2", 1, .PERIMETER, some 10, some "bj1", none⟩,
              ⟨"cj2", "T2", "T3", 1, .PERIMETER, some 10, none, none⟩,
              ⟨"cj3", "T3", "T0", 1, .PERIMETER, some 10, none, none⟩],
    centroid := ⟨50, 50⟩, isClosed := true, area := none, isLocked := true,
    groupId := some "G" }

/-- The C6 counterexample state: join mode armed on A's free edge aj2. -/
def c6State : AppState :=
  { polygons := [polyA2, polyB, polyC],
    selectedPolygonIds := [], selectedEdgeIds := [], selectedVertexIds := [],
    solverMsg := none, isJoinMode := true, joinSourceEdgeId := some "aj2",
    joinConflict := none, past := [], future := [] }

/-! ## The geometric solver (SurveyContext.tsx lines 1605-1763) -/

/-- SurveyContext.tsx `calculateSASDistance` (law of cosines). -/
noncomputable def calculateSASDistance (lenA lenB angleDeg : ℝ) : ℝ :=
  let angleRad := angleDeg * Real.pi / 180
  Real.sqrt (lenA ^ 2 + lenB ^ 2 - 2 * lenA * lenB * Real.cos angleRad)

/-- SurveyContext.tsx `calculatePolygonArea`. -/
noncomputable def calculatePolygonArea (vertices : List Vertex) : ℝ :=
  if vertices.length < 3 then 0
  else |getPolygonSignedArea vertices| / (PIXELS_PER_METER * PIXELS_PER_METER)

/-- `parseFloat(x.toFixed(4))`: rounding to 4 decimal places (round to
nearest, modelled with Mathlib's `round`). -/
noncomputable def round4 (x : ℝ) : ℝ := ((round (x * 10000) : ℤ) : ℝ) / 10000

/-- One step of the solver's angle-substitution phase (SurveyContext.tsx
lines 1622-1651): for a vertex with a `fixedAngle` and exactly two incident
PERIMETER edges in the polygon's original edge list, drop every effective
edge running between the two far neighbours and push a virtual DIAGONAL
edge whose length is the rounded law-of-cosines chord. -/
noncomputable def substituteStep (allEdges : List Edge) (effectiveEdges : List Edge)
    (v : Vertex) : List Edge :=
  match v.fixedAngle with
  | none => effectiveEdges
  | some theta =>
    let connected := allEdges.filter (fun e =>
      (e.startVertexId == v.id || e.endVertexId == v.id) && e.type == EdgeType.PERIMETER)
    match connected with
    | [e1, e2] =>
      let n1Id := if e1.startVertexId == v.id then e1.endVertexId else e1.startVertexId
      let n2Id := if e2.startVertexId == v.id then e2.endVertexId else e2.startVertexId
      let virtualLen := calculateSASDistance e1.length e2.length theta
      (effectiveEdges.filter (fun e =>
        !((e.startVertexId == n1Id && e.endVertexId == n2Id) ||
          (e.startVertexId == n2Id && e.endVertexId == n1Id)))) ++
      [{ id := "virtual-" ++ v.id, startVertexId := n1Id, endVertexId := n2Id,
         length := round4 virtualLen, type := EdgeType.DIAGONAL }]
    | _ => effectiveEdges

/-- The effective edge set after the angle-substitution `forEach`
(SurveyContext.tsx lines 1618-1651). -/
noncomputable def substituteAngles (polygon : Polygon) : List Edge :=
  polygon.vertices.foldl (substituteStep polygon.edges) polygon.edges

/-- The solver's `vertexMap` lookup.  The map is modelled as an association
list consulted front-first: `Map.set` is consing, and the initial
`vertices.forEach(v => map.set(v.id, v))` is the reversed vertex list, so
that later duplicates win exactly as in a JS Map. -/
def vmapGet (m : List Vertex) (vid : String) : Option Vertex :=
  m.find? (fun v => v.id == vid)

/-- The mutable state of the solver's wavefront loop. -/
structure PropState where
  vertices : List Vertex
  vmap : List Vertex
  solved : List String
  metricError : Option String
  isApproximated : Bool
  progress : Bool

/-- The body of the `for (const vTarget of vertices)` pass
(SurveyContext.tsx lines 1700-1740) at index `j`.  The JS non-null
assertion `vertexMap.get(p1Id)!` is modelled by a default value (the solver
only looks up ids already in the solved set, which are all in the map). -/
noncomputable def passStep (effectiveEdges : List Edge) (st : PropState) (j : ℕ) :
    PropState :=
  let vTarget := st.vertices.getD j default
  if st.solved.contains vTarget.id then st
  else
    let connected := effectiveEdges.filter (fun e =>
      (e.startVertexId == vTarget.id && st.solved.contains e.endVertexId) ||
      (e.endVertexId == vTarget.id && st.solved.contains e.startVertexId))
    match connected with
    | e1 :: e2 :: _ =>
      let p1Id := if e1.startVertexId == vTarget.id then e1.endVertexId else e1.startVertexId
      let p2Id := if e2.startVertexId == vTarget.id then e2.endVertexId else e2.startVertexId
      let p1 := (vmapGet st.vmap p1Id).getD default
      let p2 := (vmapGet st.vmap p2Id).getD default
      let r1 := e1.length * PIXELS_PER_METER
      let r2 := e2.length * PIXELS_PER_METER
      match findIntersection p1.pos r1 p2.pos r2 vTarget.pos with
      | .success pt approx =>
        let newV := { vTarget with x := pt.x, y := pt.y, solved := true }
        { st with
          vertices := st.vertices.set (st.vertices.findIdx (fun v => v.id == vTarget.id)) newV,
          vmap := newV :: st.vmap,
          solved := vTarget.id :: st.solved,
          isApproximated := st.isApproximated || approx,
          progress := true }
      | .error code =>
        (if st.metricError.isSome then st
         else
           match code with
           | .SEPARATED =>
             { st with metricError := some ("Geometric conflict: Edge lengths around "
                 ++ vTarget.label ++ " are too short to connect.") }
           | .CONTAINED =>
             { st with metricError := some ("Geometric conflict: Edge lengths around "
                 ++ vTarget.label ++ " are impossible (one contained in other).") })
    | _ => st

/-- One full pass of the wavefront loop over the (live) vertex array; the
array's length is invariant, so iterating `range` of the entry length is
the JS `for..of`. -/
noncomputable def runPass (effectiveEdges : List Edge) (st : PropState) : PropState :=
  (List.range st.vertices.length).foldl (passStep effectiveEdges) st

/-- The `while (progress)` loop (SurveyContext.tsx lines 1697-1741), with
explicit fuel.  Claim C8 shows each productive pass solves at least one new
vertex, so `vertices.length + 1` passes always reach the fixpoint at which
the JS loop stops. -/
noncomputable def runLoop (effectiveEdges : List Edge) : ℕ → PropState → PropState
  | 0, st => st
  | fuel + 1, st =>
    if st.progress then
      runLoop effectiveEdges fuel (runPass effectiveEdges { st with progress := false })
    else st

/-- The result record of `solveGeometry`; `metricError` and `approximated`
are absent (`none`) on the early returns. -/
structure SolveResult where
  polygon : Polygon
  metricError : Option String
  approximated : Option Bool

/-- The seed repositioning (SurveyContext.tsx lines 1683-1690): `v1` is
snapped to lie at the measured start-edge length from `v0` along the
original `v0`-to-`v1` direction. -/
noncomputable def seedVertex (v0 v1 : Vertex) (se : Edge) : Vertex :=
  { v1 with
    x := v0.x + Real.cos (mathAtan2 (v1.y - v0.y) (v1.x - v0.x)) *
      (se.length * PIXELS_PER_METER),
    y := v0.y + Real.sin (mathAtan2 (v1.y - v0.y) (v1.x - v0.x)) *
      (se.length * PIXELS_PER_METER) }

/-- The propagation state entering the wavefront loop, after seeding
(SurveyContext.tsx lines 1680-1695). -/
noncomputable def seedState (p : Polygon) (se : Edge) (v0 v1 : Vertex) : PropState :=
  { vertices := p.vertices.map (fun v => if v.id == v1.id then seedVertex v0 v1 se else v),
    vmap := seedVertex v0 v1 se :: p.vertices.reverse,
    solved := [v1.id, v0.id],
    metricError := none, isApproximated := false, progress := true }

/-- The seed phase and wavefront loop of a `solveGeometry` run that gets
past the early returns (SurveyContext.tsx lines 1659-1741): the start edge,
the two seed vertices, and the propagation state after the loop. -/
noncomputable def solveCore (polygon : Polygon) :
    Option (Edge × Vertex × Vertex × PropState) :=
  let effectiveEdges := substituteAngles polygon
  let vmap0 := polygon.vertices.reverse
  match effectiveEdges.find? (fun e =>
      (vmapGet vmap0 e.startVertexId).isSome && (vmapGet vmap0 e.endVertexId).isSome) with
  | none => none
  | some startEdge =>
    let v0 := (vmapGet vmap0 startEdge.startVertexId).getD default
    let v1 := (vmapGet vmap0 startEdge.endVertexId).getD default
    some (startEdge, v0, v1,
      runLoop effectiveEdges (polygon.vertices.length + 1) (seedState polygon startEdge v0 v1))

/-- SurveyContext.tsx `solveGeometry` (lines 1617-1763). -/
noncomputable def solveGeometry (polygon : Polygon) : SolveResult :=
  if polygon.vertices.length < 3 then
    ⟨{ polygon with
        vertices := polygon.vertices.map (fun v => { v with solved := false }) },
     none, none⟩
  else
    match solveCore polygon with
    | none =>
      ⟨{ polygon with
          vertices := polygon.vertices.map (fun v => { v with solved := false }) },
       none, none⟩
    | some (_, _, _, stF) =>
      let vertices2 := stF.vertices.map (fun v =>
        if stF.solved.contains v.id then v else { v with solved := false })
      let metricError2 :=
        if vertices2.any (fun v => !v.solved) && stF.metricError.isNone then
          some "Insufficient constraints to fully solve geometry."
        else stF.metricError
      ⟨{ polygon with vertices := vertices2, centroid := calculateCentroid vertices2 },
       metricError2, some stF.isApproximated⟩

/-- The per-polygon transformation of the RECONSTRUCT_GEOMETRY reducer case
(src/unnamed/part_000 lines 1231-1277), projected onto the polygon it
returns (the solver message is not modelled here). -/
noncomputable def reconstructPolygon (p : Polygon) : Polygon :=
  let result := solveGeometry p
  let solvedPoly := result.polygon
  match result.metricError with
  | some _ => { solvedPoly with isLocked := false }
  | none =>
    let solvedPoly2 := { solvedPoly with
      area := some (calculatePolygonArea solvedPoly.vertices), isLocked := true }
    if (solvedPoly2.vertices.filter (fun v => v.solved)).length <
        solvedPoly2.vertices.length
    then { solvedPoly2 with isLocked := false }
    else solvedPoly2

/-- The CONTAINED conflict message of the wavefront pass, as a function of
the target vertex's label. -/
def containedMsg (label : String) : String :=
  "Geometric conflict: Edge lengths around " ++ label ++
    " are impossible (one contained in other)."

/-- The per-vertex data the solver never changes: id, label and
fixedAngle (everything but the position and the solved flag). -/
def vertexKey (v : Vertex) : String × String × Option ℝ := (v.id, v.label, v.fixedAngle)

/-- The number of distinct vertex ids not yet in the solved set: the
variant of the wavefront loop. -/
def countUnsolved (st : PropState) : ℕ :=
  (((st.vertices.map Vertex.id).dedup).filter (fun i => !(st.solved.contains i))).length

/-- The lockstep invariant for re-solving (claim C9): `s2`, the state of
the second run, mirrors `s1`, the state of the first run, with `sF` the
first run's final state and `Pids` the (duplicate-free) vertex ids.  The
second run's vertex array is pinned at the first run's final array, both
runs share the solved set, the progress and approximation flags, and every
solved id looks up the same vertex record in both runs' maps. -/
def LockRel (Pids : List String) (sF s1 s2 : PropState) : Prop :=
  s2.solved = s1.solved ∧
  s2.progress = s1.progress ∧
  s2.isApproximated = s1.isApproximated ∧
  s2.metricError = none ∧
  s1.metricError = none ∧
  s2.vertices = sF.vertices ∧
  s1.vertices.map Vertex.id = Pids ∧
  (∀ a ∈ s1.solved, ∃ w, vmapGet s1.vmap a = some w ∧ vmapGet s2.vmap a = some w)

/-! ## Solver fixtures -/

/-- C7 fixture: a 3-4-5 right triangle with a fixed 90-degree angle at B
and the PERIMETER edge `triCA` running directly between the two far
neighbours A and C of B. -/
def triA : Vertex := ⟨"A", 0, 0, "A", true, none⟩

def triB : Vertex := ⟨"B", 300, 0, "B", true, some 90⟩

def triC : Vertex := ⟨"C", 300, 400, "C", true, none⟩

def triAB : Edge := ⟨"e1", "A", "B", 3, .PERIMETER, none, none, none⟩

def triBC : Edge := ⟨"e2", "B", "C", 4, .PERIMETER, none, none, none⟩

def triCA : Edge := ⟨"e3", "C", "A", 5, .PERIMETER, none, none, none⟩

def triPoly : Polygon :=
  { id := "T", name := "T", vertices := [triA, triB, triC],
    edges := [triAB, triBC, triCA], centroid := ⟨200, 133⟩, isClosed := true,
    area := none, isLocked := false, groupId := none }

/-- C3 fixture: a triangle whose measured lengths are geometrically
impossible (circle of radius 500 about A contains the circle of radius 100
about B entirely), so the solve fails after repositioning the seed. -/
def c3A : Vertex := ⟨"A", 0, 0, "A", true, none⟩

def c3B : Vertex := ⟨"B", 1, 0, "B", true, none⟩

def c3C : Vertex := ⟨"C", 0, 100, "C", true, none⟩

def c3AB : Edge := ⟨"f1", "A", "B", 1, .PERIMETER, none, none, none⟩

def c3BC : Edge := ⟨"f2", "B", "C", 1, .PERIMETER, none, none, none⟩

def c3CA : Edge := ⟨"f3", "C", "A", 5, .PERIMETER, none, none, none⟩

def c3Poly : Polygon :=
  { id := "X", name := "X", vertices := [c3A, c3B, c3C],
    edges := [c3AB, c3BC, c3CA], centroid := ⟨0, 33⟩, isClosed := true,
    area := none, isLocked := false, groupId := none }

/-- The seed-repositioned B of the C3 fixture: snapped to distance 100
(1 m at scale 100) from A along the original A-to-B direction. -/
def c3B' : Vertex := ⟨"B", 100, 0, "B", true, none⟩

/-- The CONTAINED conflict message produced at vertex C of the C3 fixture. -/
def c3msg : String :=
  "Geometric conflict: Edge lengths around C are impossible (one contained in other)."

/-- The C3 fixture's propagation state after seeding. -/
def c3st0 : PropState :=
  ⟨[c3A, c3B', c3C], [c3B', c3C, c3B, c3A], ["B", "A"], none, false, true⟩

/-- The C3 fixture's final propagation state: the CONTAINED conflict is
latched, C is unsolved, and the seed B has been moved to (100, 0). -/
def c3st1 : PropState :=
  ⟨[c3A, c3B', c3C], [c3B', c3C, c3B, c3A], ["B", "A"], some c3msg, false, false⟩

/-- C9 witness fixture: a 3-4-5 right triangle already at its solved
positions (A at the origin, B at (400, 0), C at (0, 300)), all flags
solved. -/
def wA : Vertex := ⟨"A", 0, 0, "A", true, none⟩

def wB : Vertex := ⟨"B", 400, 0, "B", true, none⟩

def wC : Vertex := ⟨"C", 0, 300, "C", true, none⟩

def wAB : Edge := ⟨"g1", "A", "B", 4, .PERIMETER, none, none, none⟩

def wBC : Edge := ⟨"g2", "B", "C", 5, .PERIMETER, none, none, none⟩

def wCA : Edge := ⟨"g3", "C", "A", 3, .PERIMETER, none, none, none⟩

def wPoly : Polygon :=
  { id := "W", name := "W", vertices := [wA, wB, wC],
    edges := [wAB, wBC, wCA], centroid := ⟨133, 100⟩, isClosed := true,
    area := none, isLocked := false, groupId := none }

/-- The C9 witness fixture's seeded propagation state (the seed leaves B
where it already is). -/
def wst0 : PropState :=
  ⟨[wA, wB, wC], [wB, wC, wB, wA], ["B", "A"], none, false, true⟩

/-- The C9 witness fixture's final propagation state: everything solved in
place, no error, no approximation. -/
def wstF : PropState :=
  ⟨[wA, wB, wC], [wC, wB, wC, wB, wA], ["C", "B", "A"], none, false, false⟩

/-! ## C2: the connectivity invariant.

`startJoinMode` is the reducer case arming a join (part_000 lines 666-682);
the skeleton definitions project every polygon onto the fields the
connectivity engine reads (id, isLocked, groupId and the edges' id and
linkedEdgeId), so that traces whose vertex coordinates are irrational
alignment results can still be evaluated. -/

/-- part_000 `surveyReducer` case START_JOIN_MODE (lines 666-682). -/
def startJoinMode (state : AppState) (sourceEdgeId : String) : AppState :=
  match findPolygonWithEdge state.polygons sourceEdgeId with
  | none => state
  | some sourcePoly =>
    if !sourcePoly.isLocked then
      { state with
        solverMsg := some ⟨true, "Polygon must be solved (locked) before joining."⟩ }
    else
      { state with
        isJoinMode := true, joinSourceEdgeId := some sourceEdgeId,
        solverMsg := some ⟨false, "Select an edge on another solved polygon to snap to."⟩ }

/-- The abstraction of a polygon to the fields the join/connectivity logic
reads: id, lock flag, group id, and per edge its id and link. -/
structure PolySkel where
  id : String
  isLocked : Bool
  groupId : Option String
  edges : List (String × Option String)
deriving DecidableEq

/-- The skeleton of an edge: its id and its link. -/
def edgeSkel (e : Edge) : String × Option String := (e.id, e.linkedEdgeId)

/-- The skeleton of a polygon. -/
def polySkel (p : Polygon) : PolySkel := ⟨p.id, p.isLocked, p.groupId, p.edges.map edgeSkel⟩

/-- `findPolygonWithEdge` on skeletons. -/
def findSkelWithEdge (L : List PolySkel) (eid : String) : Option PolySkel :=
  L.find? (fun q => q.edges.any (fun es => es.1 == eid))

/-- `alreadyLinkedTo` on skeletons (the target enters only through its id). -/
def alreadyLinkedSkel (L : List PolySkel) (S : PolySkel) (tid : String) : Bool :=
  S.edges.any (fun es =>
    match es.2 with
    | none => false
    | some le =>
      match findSkelWithEdge L le with
      | some linkedPoly => linkedPoly.id == tid
      | none => false)

/-- `bfsProcessEdges` on skeletons. -/
def bfsProcessEdgesSkel (L : List PolySkel) (excludePolyId : Option String)
    (edges : List (String × Option String)) (gq : List String × List String) :
    List String × List String :=
  edges.foldl
    (fun gq es =>
      match es.2 with
      | none => gq
      | some le =>
        match findSkelWithEdge L le with
        | none => gq
        | some neighbor =>
          if (match excludePolyId with | some ex => neighbor.id == ex | none => false) then gq
          else if neighbor.id ∈ gq.1 then gq
          else (gq.1 ++ [neighbor.id], gq.2 ++ [neighbor.id]))
    gq

/-- `getConnectedAux` on skeletons. -/
def getConnectedSkelAux (L : List PolySkel) (excludePolyId : Option String) :
    ℕ → List String → List String → List String
  | 0, _, group => group
  | _ + 1, [], group => group
  | fuel + 1, currentId :: queue, group =>
    match L.find? (fun q => q.id == currentId) with
    | none => getConnectedSkelAux L excludePolyId fuel queue group
    | some cur =>
      let gq := bfsProcessEdgesSkel L excludePolyId cur.edges (group, queue)
      getConnectedSkelAux L excludePolyId fuel gq.2 gq.1

/-- `getConnectedPolygonGroup` on skeletons. -/
def getConnectedSkelGroup (startPolyId : String) (L : List PolySkel)
    (excludePolyId : Option String) : List String :=
  getConnectedSkelAux L excludePolyId (L.length + 1) [startPolyId] [startPolyId]

/-- `recalcAux` on skeletons. -/
def recalcSkelAux (mint : ℕ → String) :
    List String → List String → ℕ → List PolySkel → List PolySkel
  | [], _, _, L => L
  | pid :: rest, visited, k, L =>
    if pid ∈ visited then recalcSkelAux mint rest visited k L
    else
      let comp := getConnectedSkelGroup pid L none
      if 1 < comp.length then
        recalcSkelAux mint rest (visited ++ comp) (k + 1)
          (L.map (fun q => if q.id ∈ comp then { q with groupId := some (mint k) } else q))
      else
        recalcSkelAux mint rest (visited ++ comp) k
          (L.map (fun q => if q.id == pid then { q with groupId := none } else q))

/-- `recalculateGroups` on skeletons. -/
def recalculateGroupsSkel (L : List PolySkel) (mint : ℕ → String) : List PolySkel :=
  recalcSkelAux mint (L.map PolySkel.id) [] 0 L

/-- The group id `executeJoin` assigns to the merged group: the source's if
it has one, else the target's, else the freshly minted one. -/
def mergeGroupId (a b : Option String) (f : String) : String :=
  match a, b with
  | some g, some _ => g
  | some g, none => g
  | none, some g => g
  | none, none => f

/-- The action of `executeJoin`'s polygon map on skeletons: the source and
target get the merged group id and the new links on the joined edges, the
prior peers of either group are re-tagged, everything else is unchanged. -/
def joinSkelFn (SK TK : PolySkel) (se te f : String) (q : PolySkel) : PolySkel :=
  let fg := mergeGroupId SK.groupId TK.groupId f
  if q.id == SK.id then
    ⟨SK.id, SK.isLocked, some fg,
      SK.edges.map (fun es => if es.1 == se then (es.1, some te) else es)⟩
  else if q.id == TK.id then
    ⟨TK.id, TK.isLocked, some fg,
      TK.edges.map (fun es => if es.1 == te then (es.1, some se) else es)⟩
  else if SK.groupId.isSome && q.groupId == SK.groupId then { q with groupId := some fg }
  else if TK.groupId.isSome && q.groupId == TK.groupId then { q with groupId := some fg }
  else q

/-- The action of `unlinkEdge`'s polygon map on skeletons: clear the edge's
link in its owner, clear the partner edge's link in the resolved target. -/
def unlinkSkelFn (pid : String) (eid : String) (tid : Option String) (lid : String)
    (q : PolySkel) : PolySkel :=
  if q.id == pid then
    { q with edges := q.edges.map (fun es => if es.1 == eid then (es.1, none) else es) }
  else if (match tid with | some t => q.id == t | none => false) then
    { q with edges := q.edges.map (fun es => if es.1 == lid then (es.1, none) else es) }
  else q

/-- Every edge's JS-defaulted thickness is 10 (true of documents whose edges
carry no thickness or thickness 10; the join traces below preserve it). -/
def thick10 (ps : List Polygon) : Prop :=
  ∀ p ∈ ps, ∀ e ∈ p.edges, thicknessOrDefault e.thickness = 10

/-- One user-level operation of the join/unlink/delete vocabulary of claim
C2, as dispatched by the reducer: arming a join (START_JOIN_MODE),
completing it (COMPLETE_JOIN), joining the selected edges
(JOIN_SELECTED_EDGES), unlinking an edge (UNLINK_EDGE) and deleting a
polygon (DELETE_POLYGON). -/
inductive JoinStep : AppState → AppState → Prop where
  | arm (s : AppState) (se : String) : JoinStep s (startJoinMode s se)
  | complete (s : AppState) (te f : String) : JoinStep s (completeJoin s te f)
  | selected (s : AppState) (f : String) : JoinStep s (joinSelectedEdges s f)
  | unlink (s : AppState) (eid : String) (m : ℕ → String) : JoinStep s (unlinkEdge s eid m)
  | delete (s : AppState) (pid : String) (m : ℕ → String) : JoinStep s (deletePolygon s pid m)

/-- Reachability by user-level join/unlink/delete operations. -/
def ReachesJoin : AppState → AppState → Prop := Relation.ReflTransGen JoinStep

/-- The C2 trace's four polygons: locked triangles with no links and no
groups.  X has edges xe, xe2, xe3; Y has ye, ye2, ye3; Z has zq, zq2, zq3;
W has we, we2, we3. -/
def cxX : Polygon :=
  { id := "X", name := "X",
    vertices := [⟨"X0", 0, 0, "A", true, none⟩, ⟨"X1", 100, 0, "B", true, none⟩,
                 ⟨"X2", 0, 100, "C", true, none⟩],
    edges := [⟨"xe", "X0", "X1", 1, .PERIMETER, none, none, none⟩,
              ⟨"xe2", "X1", "X2", 1, .PERIMETER, none, none, none⟩,
              ⟨"xe3", "X2", "X0", 1, .PERIMETER, none, none, none⟩],
    centroid := ⟨33, 33⟩, isClosed := true, area := none, isLocked := true, groupId := none }

def cxY : Polygon :=
  { id := "Y", name := "Y",
    vertices := [⟨"Y0", 0, 0, "A", true, none⟩, ⟨"Y1", 100, 0, "B", true, none⟩,
                 ⟨"Y2", 0, 100, "C", true, none⟩],
    edges := [⟨"ye", "Y0", "Y1", 1, .PERIMETER, none, none, none⟩,
              ⟨"ye2", "Y1", "Y2", 1, .PERIMETER, none, none, none⟩,
              ⟨"ye3", "Y2", "Y0", 1, .PERIMETER, none, none, none⟩],
    centroid := ⟨33, 33⟩, isClosed := true, area := none, isLocked := true, groupId := none }

def cxZ : Polygon :=
  { id := "Z", name := "Z",
    vertices := [⟨"Z0", 0, 0, "A", true, none⟩, ⟨"Z1", 100, 0, "B", true, none⟩,
                 ⟨"Z2", 0, 100, "C", true, none⟩],
    edges := [⟨"zq", "Z0", "Z1", 1, .PERIMETER, none, none, none⟩,
              ⟨"zq2", "Z1", "Z2", 1, .PERIMETER, none, none, none⟩,
              ⟨"zq3", "Z2", "Z0", 1, .PERIMETER, none, none, none⟩],
    centroid := ⟨33, 33⟩, isClosed := true, area := none, isLocked := true, groupId := none }

def cxW : Polygon :=
  { id := "W", name := "W2",
    vertices := [⟨"W0", 0, 0, "A", true, none⟩, ⟨"W1", 100, 0, "B", true, none⟩,
                 ⟨"W2", 0, 100, "C", true, none⟩],
    edges := [⟨"we", "W0", "W1", 1, .PERIMETER, none, none, none⟩,
              ⟨"we2", "W1", "W2", 1, .PERIMETER, none, none, none⟩,
              ⟨"we3", "W2", "W0", 1, .PERIMETER, none, none, none⟩],
    centroid := ⟨33, 33⟩, isClosed := true, area := none, isLocked := true, groupId := none }

/-- The C2 trace's initial state: no links, no groups. -/
def cx0 : AppState :=
  { polygons := [cxX, cxY, cxZ, cxW],
    selectedPolygonIds := [], selectedEdgeIds := [], selectedVertexIds := [],
    solverMsg := none, isJoinMode := false, joinSourceEdgeId := none,
    joinConflict := none, past := [], future := [] }

/-- The group-id supply handed to `recalculateGroups` in the C2 trace. -/
def mintC2 : ℕ → String := fun k => if k == 0 then "G0" else "G1"

/-- The C2 trace: join X.xe to Y.ye, join Z.zq to Y.ye2, then re-join the
already linked edges Y.ye to W.we and Y.ye2 to X.xe2 (allowed: the
already-linked scan only checks the two polygons being joined), and finally
unlink Y.ye2. -/
noncomputable def cx1 : AppState := completeJoin (startJoinMode cx0 "xe") "ye" "F1"

noncomputable def cx2 : AppState := completeJoin (startJoinMode cx1 "zq") "ye2" "F2"

noncomputable def cx3 : AppState := completeJoin (startJoinMode cx2 "ye") "we" "F3"

noncomputable def cx4 : AppState := completeJoin (startJoinMode cx3 "ye2") "xe2" "F4"

noncomputable def cx5 : AppState := unlinkEdge cx4 "ye2" mintC2

/-! ## Theorems -/

theorem abs_sub_le_add_of_nonneg {r1 r2 : ℝ} (h1 : 0 ≤ r1) (h2 : 0 ≤ r2) :
    |r1 - r2| ≤ r1 + r2 := by
  rcases abs_cases (r1 - r2) with ⟨h, _⟩ | ⟨h, _⟩ <;> linarith

/-- C1: for nonnegative radii, `findIntersection` follows the spec's
case analysis with tolerance 10 world units: distance 0 fails CONTAINED;
a gap of at most 10 beyond r1+r2 succeeds approximated at the ratio point;
a larger gap fails SEPARATED; a containment deficit of at most 10 succeeds
approximated by projection from the larger-radius centre; a larger deficit
fails CONTAINED; otherwise the exact branch nearest the original position
is returned with the approximated flag false. -/
theorem C1_findIntersection_case_analysis (p1 : Point) (r1 : ℝ) (p2 : Point) (r2 : ℝ)
    (originalP3 : Point) (h1 : 0 ≤ r1) (h2 : 0 ≤ r2) :
    findIntersectionSpec p1 r1 p2 r2 originalP3 := by
  have hEps : EPSILON = (10 : ℝ) := rfl
  unfold findIntersectionSpec
  set d := distance p1 p2 with hdDef
  have hd0 : 0 ≤ d := Real.sqrt_nonneg _
  have habs : |r1 - r2| ≤ r1 + r2 := abs_sub_le_add_of_nonneg h1 h2
  have habs0 : 0 ≤ |r1 - r2| := abs_nonneg _
  refine ⟨?_, ?_, ?_, ?_, ?_, ?_⟩
  · intro h
    unfold findIntersection
    rw [← hdDef, if_pos h]
  · intro hgt hle
    unfold findIntersection
    rw [← hdDef, if_neg (show ¬ d = 0 by intro h0; rw [h0] at hgt; linarith),
      if_pos hgt, if_pos (by rw [hEps]; exact hle)]
  · intro hgt
    unfold findIntersection
    rw [← hdDef, if_neg (show ¬ d = 0 by intro h0; rw [h0] at hgt; linarith),
      if_pos (by linarith : d > r1 + r2),
      if_neg (by rw [hEps]; linarith : ¬ d ≤ r1 + r2 + EPSILON)]
  · intro hne hlt hge
    unfold findIntersection
    rw [← hdDef, if_neg hne, if_neg (by linarith : ¬ d > r1 + r2), if_pos hlt,
      if_pos (by rw [hEps]; exact hge)]
  · intro hlt
    unfold findIntersection
    rw [← hdDef]
    by_cases hz : d = 0
    · rw [if_pos hz]
    · rw [if_neg hz, if_neg (by linarith : ¬ d > r1 + r2),
        if_pos (by linarith : d < |r1 - r2|),
        if_neg (by rw [hEps]; linarith : ¬ d ≥ |r1 - r2| - EPSILON)]
  · intro hne hng hnl
    unfold findIntersection
    rw [← hdDef, if_neg hne, if_neg hng, if_neg hnl]

/-- Witness for C1: the case analysis evaluated at two concrete circles. -/
theorem C1_findIntersection_case_analysis_witness :
    findIntersectionSpec ⟨0, 0⟩ 3 ⟨5, 0⟩ 4 ⟨0, 0⟩ :=
  C1_findIntersection_case_analysis ⟨0, 0⟩ 3 ⟨5, 0⟩ 4 ⟨0, 0⟩ (by norm_num) (by norm_num)

/-! ### C4: the alignment transform -/

theorem mathAtan2_east {y x : ℝ} (hy : y = 0) (hx : 0 < x) : mathAtan2 y x = 0 := by
  rw [mathAtan2, if_pos hx, hy]
  simp [Real.arctan_zero]

theorem mathAtan2_west {y x : ℝ} (hy : y = 0) (hx : x < 0) : mathAtan2 y x = Real.pi := by
  rw [mathAtan2, if_neg (by linarith), if_pos hx, if_neg (by rw [hy]; norm_num), hy]
  simp [Real.arctan_zero]

theorem srcSquare_area : getPolygonSignedArea srcSquare.vertices = 10000 := by
  simp only [getPolygonSignedArea, srcSquare, List.length_cons, List.length_nil,
    show List.range 4 = [0, 1, 2, 3] from rfl, List.foldl]
  norm_num

theorem tgtSquare_area : getPolygonSignedArea tgtSquare.vertices = 10000 := by
  simp only [getPolygonSignedArea, tgtSquare, List.length_cons, List.length_nil,
    show List.range 4 = [0, 1, 2, 3] from rfl, List.foldl]
  norm_num

theorem distance_100_0 : distance ⟨0, 0⟩ ⟨100, 0⟩ = 100 := by
  rw [distance, show ((100:ℝ) - 0) ^ 2 + (0 - 0) ^ 2 = 100 ^ 2 by norm_num,
    Real.sqrt_sq (by norm_num)]

/-- C4 (amended): with source and target edges resolving to vertices and a
target edge of nonzero length, the transform's rotation is
targetNormalAngle + pi - sourceNormalAngle, where each normal angle is the
edge direction rotated +90 degrees when the polygon's shoelace area is
positive (clockwise in y-down screen coordinates) and -90 degrees
otherwise; and after rotating the source about its own centroid and
translating, the source edge midpoint lands at targetMidpoint +
gap * dir(targetNormalAngle + pi) + slideOffset * targetUnitTangent (scale
100 world units per meter) — the gap is applied along the direction
OPPOSITE the +90-degree normal, which in the y-down coordinate system is
the outward direction. -/
theorem C4_alignment_transform_amended (sourcePoly : Polygon) (sourceEdgeId : String)
    (targetPoly : Polygon) (targetEdgeId : String) (offset perpendicularDist : ℝ)
    (sEdge tEdge : Edge) (sV1 sV2 tV1 tV2 : Vertex)
    (hsE : sourcePoly.edges.find? (fun e => e.id == sourceEdgeId) = some sEdge)
    (htE : targetPoly.edges.find? (fun e => e.id == targetEdgeId) = some tEdge)
    (hsV1 : findVertex sourcePoly sEdge.startVertexId = some sV1)
    (hsV2 : findVertex sourcePoly sEdge.endVertexId = some sV2)
    (htV1 : findVertex targetPoly tEdge.startVertexId = some tV1)
    (htV2 : findVertex targetPoly tEdge.endVertexId = some tV2)
    (htLen : distance tV1.pos tV2.pos ≠ 0) :
    (calculateAlignmentTransform sourcePoly sourceEdgeId targetPoly targetEdgeId
        offset perpendicularDist).rotation =
      (mathAtan2 (tV2.y - tV1.y) (tV2.x - tV1.x) +
        (if 0 < getPolygonSignedArea targetPoly.vertices then Real.pi / 2 else -(Real.pi / 2)))
      + Real.pi -
      (mathAtan2 (sV2.y - sV1.y) (sV2.x - sV1.x) +
        (if 0 < getPolygonSignedArea sourcePoly.vertices then Real.pi / 2 else -(Real.pi / 2)))
    ∧
    midPoint
      (translatePt (rotatePoint sV1.pos sourcePoly.centroid
          (calculateAlignmentTransform sourcePoly sourceEdgeId targetPoly targetEdgeId
            offset perpendicularDist).rotation)
        (calculateAlignmentTransform sourcePoly sourceEdgeId targetPoly targetEdgeId
            offset perpendicularDist).dx
        (calculateAlignmentTransform sourcePoly sourceEdgeId targetPoly targetEdgeId
            offset perpendicularDist).dy)
      (translatePt (rotatePoint sV2.pos sourcePoly.centroid
          (calculateAlignmentTransform sourcePoly sourceEdgeId targetPoly targetEdgeId
            offset perpendicularDist).rotation)
        (calculateAlignmentTransform sourcePoly sourceEdgeId targetPoly targetEdgeId
            offset perpendicularDist).dx
        (calculateAlignmentTransform sourcePoly sourceEdgeId targetPoly targetEdgeId
            offset perpendicularDist).dy) =
    ⟨(tV1.x + tV2.x) / 2 +
        Real.cos ((mathAtan2 (tV2.y - tV1.y) (tV2.x - tV1.x) +
          (if 0 < getPolygonSignedArea targetPoly.vertices then Real.pi / 2
           else -(Real.pi / 2))) + Real.pi) * (perpendicularDist * PIXELS_PER_METER) +
        (tV2.x - tV1.x) / distance tV1.pos tV2.pos * (offset * PIXELS_PER_METER),
     (tV1.y + tV2.y) / 2 +
        Real.sin ((mathAtan2 (tV2.y - tV1.y) (tV2.x - tV1.x) +
          (if 0 < getPolygonSignedArea targetPoly.vertices then Real.pi / 2
           else -(Real.pi / 2))) + Real.pi) * (perpendicularDist * PIXELS_PER_METER) +
        (tV2.y - tV1.y) / distance tV1.pos tV2.pos * (offset * PIXELS_PER_METER)⟩ := by
  have hT : calculateAlignmentTransform sourcePoly sourceEdgeId targetPoly targetEdgeId
      offset perpendicularDist =
      { rotation :=
          (mathAtan2 (tV2.y - tV1.y) (tV2.x - tV1.x) +
            (if 0 < getPolygonSignedArea targetPoly.vertices then Real.pi / 2
             else -(Real.pi / 2))) + Real.pi -
          (mathAtan2 (sV2.y - sV1.y) (sV2.x - sV1.x) +
            (if 0 < getPolygonSignedArea sourcePoly.vertices then Real.pi / 2
             else -(Real.pi / 2))),
        dx := (tV1.x + tV2.x) / 2 +
            Real.cos ((mathAtan2 (tV2.y - tV1.y) (tV2.x - tV1.x) +
              (if 0 < getPolygonSignedArea targetPoly.vertices then Real.pi / 2
               else -(Real.pi / 2))) + Real.pi) * (perpendicularDist * PIXELS_PER_METER) +
            (tV2.x - tV1.x) / distance tV1.pos tV2.pos * (offset * PIXELS_PER_METER) -
            (rotatePoint ⟨(sV1.x + sV2.x) / 2, (sV1.y + sV2.y) / 2⟩ sourcePoly.centroid
              ((mathAtan2 (tV2.y - tV1.y) (tV2.x - tV1.x) +
                (if 0 < getPolygonSignedArea targetPoly.vertices then Real.pi / 2
                 else -(Real.pi / 2))) + Real.pi -
               (mathAtan2 (sV2.y - sV1.y) (sV2.x - sV1.x) +
                (if 0 < getPolygonSignedArea sourcePoly.vertices then Real.pi / 2
                 else -(Real.pi / 2))))).x,
        dy := (tV1.y + tV2.y) / 2 +
            Real.sin ((mathAtan2 (tV2.y - tV1.y) (tV2.x - tV1.x) +
              (if 0 < getPolygonSignedArea targetPoly.vertices then Real.pi / 2
               else -(Real.pi / 2))) + Real.pi) * (perpendicularDist * PIXELS_PER_METER) +
            (tV2.y - tV1.y) / distance tV1.pos tV2.pos * (offset * PIXELS_PER_METER) -
            (rotatePoint ⟨(sV1.x + sV2.x) / 2, (sV1.y + sV2.y) / 2⟩ sourcePoly.centroid
              ((mathAtan2 (tV2.y - tV1.y) (tV2.x - tV1.x) +
                (if 0 < getPolygonSignedArea targetPoly.vertices then Real.pi / 2
                 else -(Real.pi / 2))) + Real.pi -
               (mathAtan2 (sV2.y - sV1.y) (sV2.x - sV1.x) +
                (if 0 < getPolygonSignedArea sourcePoly.vertices then Real.pi / 2
                 else -(Real.pi / 2))))).y } := by
    unfold calculateAlignmentTransform
    rw [hsE, htE]
    dsimp only
    rw [hsV1, hsV2, htV1, htV2]
  rw [hT]
  refine ⟨rfl, ?_⟩
  apply Point.ext_xy
  · simp only [midPoint, translatePt, rotatePoint, Vertex.pos]
    ring
  · simp only [midPoint, translatePt, rotatePoint, Vertex.pos]
    ring

/-- Witness for C4: the amended transform property at the two concrete
squares. -/
theorem C4_alignment_transform_amended_witness :
    (calculateAlignmentTransform srcSquare "ae2" tgtSquare "te0" 0 (1/10)).rotation =
      (mathAtan2 ((⟨"T1", 100, 0, "B", true, none⟩ : Vertex).y - (⟨"T0", 0, 0, "A", true, none⟩ : Vertex).y)
        ((⟨"T1", 100, 0, "B", true, none⟩ : Vertex).x - (⟨"T0", 0, 0, "A", true, none⟩ : Vertex).x) +
        (if 0 < getPolygonSignedArea tgtSquare.vertices then Real.pi / 2 else -(Real.pi / 2)))
      + Real.pi -
      (mathAtan2 ((⟨"A3", 0, 100, "D", true, none⟩ : Vertex).y - (⟨"A2", 100, 100, "C", true, none⟩ : Vertex).y)
        ((⟨"A3", 0, 100, "D", true, none⟩ : Vertex).x - (⟨"A2", 100, 100, "C", true, none⟩ : Vertex).x) +
        (if 0 < getPolygonSignedArea srcSquare.vertices then Real.pi / 2 else -(Real.pi / 2))) :=
  (C4_alignment_transform_amended srcSquare "ae2" tgtSquare "te0" 0 (1/10)
    ⟨"ae2", "A2", "A3", 1, .PERIMETER, some 10, none, none⟩
    ⟨"te0", "T0", "T1", 1, .PERIMETER, some 10, none, none⟩
    ⟨"A2", 100, 100, "C", true, none⟩ ⟨"A3", 0, 100, "D", true, none⟩
    ⟨"T0", 0, 0, "A", true, none⟩ ⟨"T1", 100, 0, "B", true, none⟩
    rfl rfl rfl rfl rfl rfl
    (by rw [show (⟨"T0", 0, 0, "A", true, none⟩ : Vertex).pos = (⟨0, 0⟩ : Point) from rfl,
          show (⟨"T1", 100, 0, "B", true, none⟩ : Vertex).pos = (⟨100, 0⟩ : Point) from rfl,
          distance_100_0]; norm_num)).1

theorem AlignTransform.ext_parts :
    ∀ {a b : AlignTransform}, a.rotation = b.rotation → a.dx = b.dx → a.dy = b.dy → a = b
  | ⟨_, _, _⟩, ⟨_, _, _⟩, rfl, rfl, rfl => rfl

/-- The transform of the concrete counterexample configuration evaluates to
rotation 0 and translation (0, -110). -/
theorem C4cex_transform_eval :
    calculateAlignmentTransform srcSquare "ae2" tgtSquare "te0" 0 (1/10) =
      ⟨0, 0, -110⟩ := by
  unfold calculateAlignmentTransform
  rw [show srcSquare.edges.find? (fun e => e.id == "ae2") =
        some (⟨"ae2", "A2", "A3", 1, .PERIMETER, some 10, none, none⟩ : Edge) from rfl,
      show tgtSquare.edges.find? (fun e => e.id == "te0") =
        some (⟨"te0", "T0", "T1", 1, .PERIMETER, some 10, none, none⟩ : Edge) from rfl]
  dsimp only
  rw [show findVertex srcSquare "A2" = some (⟨"A2", 100, 100, "C", true, none⟩ : Vertex) from rfl,
      show findVertex srcSquare "A3" = some (⟨"A3", 0, 100, "D", true, none⟩ : Vertex) from rfl,
      show findVertex tgtSquare "T0" = some (⟨"T0", 0, 0, "A", true, none⟩ : Vertex) from rfl,
      show findVertex tgtSquare "T1" = some (⟨"T1", 100, 0, "B", true, none⟩ : Vertex) from rfl]
  dsimp only [Vertex.pos]
  rw [srcSquare_area, tgtSquare_area,
    if_pos (by norm_num : (0:ℝ) < 10000),
    show mathAtan2 ((100:ℝ) - 100) (0 - 100) = Real.pi from
      mathAtan2_west (by norm_num) (by norm_num),
    show mathAtan2 ((0:ℝ) - 0) (100 - 0) = 0 from
      mathAtan2_east (by norm_num) (by norm_num),
    distance_100_0,
    show srcSquare.centroid = (⟨50, 50⟩ : Point) from rfl,
    show PIXELS_PER_METER = (100:ℝ) from rfl]
  rw [show (0:ℝ) + Real.pi / 2 + Real.pi - (Real.pi + Real.pi / 2) = 0 by ring]
  apply AlignTransform.ext_parts <;>
    norm_num [rotatePoint, Real.cos_add, Real.sin_add, Real.cos_sub, Real.sin_sub]

/-- Counterexample to C4 as stated: at the concrete squares, with gap
0.1 m and slide offset 0, the actual midpoint of the transformed source
edge is (50, -10), while the claim's formula targetMidpoint +
gap * dir(targetNormalAngle) + slideOffset * tangent (with the claim's
outward normal = edge direction rotated +90 degrees for the clockwise
target) gives (50, 10): the code places the gap on the opposite side of
the claim's named normal. -/
theorem C4_counterexample_gap_direction :
    midPoint
      (translatePt (rotatePoint ⟨100, 100⟩ srcSquare.centroid
          (calculateAlignmentTransform srcSquare "ae2" tgtSquare "te0" 0 (1/10)).rotation)
        (calculateAlignmentTransform srcSquare "ae2" tgtSquare "te0" 0 (1/10)).dx
        (calculateAlignmentTransform srcSquare "ae2" tgtSquare "te0" 0 (1/10)).dy)
      (translatePt (rotatePoint ⟨0, 100⟩ srcSquare.centroid
          (calculateAlignmentTransform srcSquare "ae2" tgtSquare "te0" 0 (1/10)).rotation)
        (calculateAlignmentTransform srcSquare "ae2" tgtSquare "te0" 0 (1/10)).dx
        (calculateAlignmentTransform srcSquare "ae2" tgtSquare "te0" 0 (1/10)).dy) =
      (⟨50, -10⟩ : Point)
    ∧ (⟨(50:ℝ) + Real.cos (mathAtan2 ((0:ℝ) - 0) (100 - 0) +
          (if 0 < getPolygonSignedArea tgtSquare.vertices then Real.pi / 2
           else -(Real.pi / 2))) * ((1/10) * PIXELS_PER_METER),
        (0:ℝ) + Real.sin (mathAtan2 ((0:ℝ) - 0) (100 - 0) +
          (if 0 < getPolygonSignedArea tgtSquare.vertices then Real.pi / 2
           else -(Real.pi / 2))) * ((1/10) * PIXELS_PER_METER)⟩ : Point) =
      (⟨50, 10⟩ : Point)
    ∧ (⟨50, -10⟩ : Point) ≠ (⟨50, 10⟩ : Point) := by
  refine ⟨?_, ?_, ?_⟩
  · rw [C4cex_transform_eval,
      show srcSquare.centroid = (⟨50, 50⟩ : Point) from rfl]
    apply Point.ext_xy <;>
      norm_num [midPoint, translatePt, rotatePoint]
  · rw [tgtSquare_area, if_pos (by norm_num : (0:ℝ) < 10000),
      show mathAtan2 ((0:ℝ) - 0) (100 - 0) = 0 from
        mathAtan2_east (by norm_num) (by norm_num),
      show PIXELS_PER_METER = (100:ℝ) from rfl]
    apply Point.ext_xy <;> norm_num
  · intro h
    have h2 := congrArg Point.y h
    norm_num at h2

/-! ### C5: join precondition rejections -/

/-- C5 (amended): the COMPLETE_JOIN case rejects a self join, an unlocked
TARGET polygon (the source's lock was checked when join mode started, not
here), and an already-linked pair, each with its specific message and with
the polygon list left completely unmodified; the JOIN_SELECTED_EDGES case
additionally rejects when EITHER polygon is unlocked. -/
theorem C5_join_rejections_amended (state : AppState) (targetEdgeId gid sourceEdgeId : String)
    (sourcePoly targetPoly : Polygon) (edge1Id edge2Id : String) (poly1 poly2 : Polygon) :
    (state.joinSourceEdgeId = some sourceEdgeId →
     findPolygonWithEdge state.polygons sourceEdgeId = some sourcePoly →
     findPolygonWithEdge state.polygons targetEdgeId = some targetPoly →
     sourcePoly.id = targetPoly.id →
       (completeJoin state targetEdgeId gid).polygons = state.polygons ∧
       (completeJoin state targetEdgeId gid).solverMsg =
         some ⟨true, "Cannot join a polygon to itself."⟩)
    ∧
    (state.joinSourceEdgeId = some sourceEdgeId →
     findPolygonWithEdge state.polygons sourceEdgeId = some sourcePoly →
     findPolygonWithEdge state.polygons targetEdgeId = some targetPoly →
     sourcePoly.id ≠ targetPoly.id → targetPoly.isLocked = false →
       (completeJoin state targetEdgeId gid).polygons = state.polygons ∧
       (completeJoin state targetEdgeId gid).solverMsg =
         some ⟨true, "Target polygon is not solved (locked). Solve it first."⟩)
    ∧
    (state.joinSourceEdgeId = some sourceEdgeId →
     findPolygonWithEdge state.polygons sourceEdgeId = some sourcePoly →
     findPolygonWithEdge state.polygons targetEdgeId = some targetPoly →
     sourcePoly.id ≠ targetPoly.id → targetPoly.isLocked = true →
     alreadyLinkedTo state.polygons sourcePoly targetPoly = true →
       (completeJoin state targetEdgeId gid).polygons = state.polygons ∧
       (completeJoin state targetEdgeId gid).solverMsg =
         some ⟨true, "Polygons are already joined by another edge. Only one join allowed."⟩)
    ∧
    (state.selectedEdgeIds = [edge1Id, edge2Id] →
     findPolygonWithEdge state.polygons edge1Id = some poly1 →
     findPolygonWithEdge state.polygons edge2Id = some poly2 →
     poly1.id = poly2.id →
       (joinSelectedEdges state gid).polygons = state.polygons ∧
       (joinSelectedEdges state gid).solverMsg =
         some ⟨true, "Must select edges from two DIFFERENT polygons."⟩)
    ∧
    (state.selectedEdgeIds = [edge1Id, edge2Id] →
     findPolygonWithEdge state.polygons edge1Id = some poly1 →
     findPolygonWithEdge state.polygons edge2Id = some poly2 →
     poly1.id ≠ poly2.id → (poly1.isLocked = false ∨ poly2.isLocked = false) →
       (joinSelectedEdges state gid).polygons = state.polygons ∧
       (joinSelectedEdges state gid).solverMsg =
         some ⟨true, "Both polygons must be locked (solved) to join."⟩)
    ∧
    (state.selectedEdgeIds = [edge1Id, edge2Id] →
     findPolygonWithEdge state.polygons edge1Id = some poly1 →
     findPolygonWithEdge state.polygons edge2Id = some poly2 →
     poly1.id ≠ poly2.id → poly1.isLocked = true → poly2.isLocked = true →
     alreadyLinkedTo state.polygons poly1 poly2 = true →
       (joinSelectedEdges state gid).polygons = state.polygons ∧
       (joinSelectedEdges state gid).solverMsg =
         some ⟨true, "Polygons are already joined."⟩) := by
  refine ⟨?_, ?_, ?_, ?_, ?_, ?_⟩
  · intro h1 h2 h3 h4
    unfold completeJoin
    rw [h1]
    dsimp only
    rw [h2, h3]
    simp [h4]
  · intro h1 h2 h3 h4 h5
    unfold completeJoin
    rw [h1]
    dsimp only
    rw [h2, h3]
    simp [h4, h5]
  · intro h1 h2 h3 h4 h5 h6
    unfold completeJoin
    rw [h1]
    dsimp only
    rw [h2, h3]
    simp [h4, h5, h6]
  · intro h1 h2 h3 h4
    unfold joinSelectedEdges
    rw [h1]
    dsimp only
    rw [h2, h3]
    simp [h4]
  · intro h1 h2 h3 h4 h5
    unfold joinSelectedEdges
    rw [h1]
    dsimp only
    rw [h2, h3]
    rcases h5 with h5 | h5 <;> simp [h4, h5]
  · intro h1 h2 h3 h4 h5 h6 h7
    unfold joinSelectedEdges
    rw [h1]
    dsimp only
    rw [h2, h3]
    simp [h4, h5, h6, h7]

/-- Counterexample to C5 as stated: in `c5State` the source polygon is not
locked (`isLocked = false`) while every other precondition holds, yet
COMPLETE_JOIN does not reject — it applies the join, setting the source
edge's `linkedEdgeId` and changing the polygon list.  The claim's
"either the source polygon or the target polygon is not isLocked implies
rejection with the document unmodified" is false on the code: COMPLETE_JOIN
checks only the target's lock. -/
theorem C5_counterexample_source_lock_unchecked :
    unlockedSrcSquare.isLocked = false ∧
    c5State.joinSourceEdgeId = some "ae2" ∧
    findPolygonWithEdge c5State.polygons "ae2" = some unlockedSrcSquare ∧
    findPolygonWithEdge c5State.polygons "te0" = some tgtSquare ∧
    tgtSquare.isLocked = true ∧
    ((completeJoin c5State "te0" "G1").polygons.headI.edges.find?
      (fun e => e.id == "ae2")).map Edge.linkedEdgeId = some (some "te0") ∧
    (c5State.polygons.headI.edges.find? (fun e => e.id == "ae2")).map Edge.linkedEdgeId
      = some none ∧
    (completeJoin c5State "te0" "G1").polygons ≠ c5State.polygons := by
  have hjoin : ((completeJoin c5State "te0" "G1").polygons.headI.edges.find?
      (fun e => e.id == "ae2")).map Edge.linkedEdgeId = some (some "te0") := by
    unfold completeJoin
    rw [show c5State.joinSourceEdgeId = some "ae2" from rfl]
    dsimp only
    rw [show findPolygonWithEdge c5State.polygons "ae2" = some unlockedSrcSquare from rfl,
      show findPolygonWithEdge c5State.polygons "te0" = some tgtSquare from rfl]
    dsimp only
    rw [if_neg (by decide), if_neg (by decide), if_neg (by decide)]
    rw [if_neg (show ¬ (thicknessOrDefault
        ((unlockedSrcSquare.edges.find? (fun e => e.id == "ae2")).getD default).thickness ≠
        thicknessOrDefault
        ((tgtSquare.edges.find? (fun e => e.id == "te0")).getD default).thickness) by
      rw [show ((unlockedSrcSquare.edges.find? (fun e => e.id == "ae2")).getD default) =
            (⟨"ae2", "A2", "A3", 1, .PERIMETER, some 10, none, none⟩ : Edge) from rfl,
          show ((tgtSquare.edges.find? (fun e => e.id == "te0")).getD default) =
            (⟨"te0", "T0", "T1", 1, .PERIMETER, some 10, none, none⟩ : Edge) from rfl]
      simp)]
    unfold executeJoin
    rw [show findPolygonWithEdge c5State.polygons "ae2" = some unlockedSrcSquare from rfl,
      show findPolygonWithEdge c5State.polygons "te0" = some tgtSquare from rfl]
    dsimp only
    rw [show c5State.polygons = [unlockedSrcSquare, tgtSquare] from rfl]
    simp only [List.map, List.headI]
    unfold joinMapFn
    rw [if_pos (by decide)]
    rfl
  refine ⟨rfl, rfl, rfl, rfl, rfl, hjoin, rfl, ?_⟩
  intro heq
  have h2 := hjoin
  rw [heq] at h2
  rw [show (c5State.polygons.headI.edges.find? (fun e => e.id == "ae2")).map Edge.linkedEdgeId
      = some none from rfl] at h2
  simp at h2

/-! ### C6: rigid-body propagation of an applied join -/

theorem polygon_eq_of_id_nodup {ps : List Polygon}
    (hnd : (ps.map Polygon.id).Nodup) {a b : Polygon}
    (ha : a ∈ ps) (hb : b ∈ ps) (hid : a.id = b.id) : a = b :=
  List.inj_on_of_nodup_map hnd ha hb hid

/-- C6 (amended): for an applied join whose source and target polygons do
not already share a prior group, every other polygon of the source's prior
group is translated by exactly the positional delta (dx, dy) the join
induced on the source polygon's first vertex (a pure translation, no
rotation) and re-grouped; the entry holding the target polygon keeps all
its vertex positions; and every other member of the target's prior group
changes only its groupId.  (When the two prior groups coincide — reachable
by joining two polygons already connected through an intermediate — the
shared prior group is translated along with the source, so the claim as
stated fails; see the counterexample.) -/
theorem C6_join_rigid_propagation_amended (state : AppState)
    (sourceEdgeId targetEdgeId : String) (thickness initialOffset : ℝ)
    (freshGroupId : String) (sourcePoly targetPoly : Polygon)
    (hsp : findPolygonWithEdge state.polygons sourceEdgeId = some sourcePoly)
    (htp : findPolygonWithEdge state.polygons targetEdgeId = some targetPoly)
    (hne : sourcePoly.id ≠ targetPoly.id)
    (hnodup : (state.polygons.map Polygon.id).Nodup)
    (hdisj : sourcePoly.groupId = none ∨ sourcePoly.groupId ≠ targetPoly.groupId) :
    (executeJoin state sourceEdgeId targetEdgeId thickness initialOffset
        freshGroupId).polygons.length = state.polygons.length ∧
    (∀ i, ∀ (hi : i < state.polygons.length),
     ∀ (hi2 : i < (executeJoin state sourceEdgeId targetEdgeId thickness initialOffset
          freshGroupId).polygons.length),
      (((state.polygons.get ⟨i, hi⟩).id ≠ sourcePoly.id →
        (state.polygons.get ⟨i, hi⟩).id ≠ targetPoly.id →
        sourcePoly.groupId.isSome = true →
        (state.polygons.get ⟨i, hi⟩).groupId = sourcePoly.groupId →
        (executeJoin state sourceEdgeId targetEdgeId thickness initialOffset
            freshGroupId).polygons.get ⟨i, hi2⟩ =
          { translatePolygon (state.polygons.get ⟨i, hi⟩)
              (joinParts sourcePoly targetPoly sourceEdgeId targetEdgeId thickness
                initialOffset freshGroupId).dx
              (joinParts sourcePoly targetPoly sourceEdgeId targetEdgeId thickness
                initialOffset freshGroupId).dy with
            groupId := some (joinParts sourcePoly targetPoly sourceEdgeId targetEdgeId
              thickness initialOffset freshGroupId).finalGroupId })
      ∧ ((state.polygons.get ⟨i, hi⟩).id = targetPoly.id →
        ((executeJoin state sourceEdgeId targetEdgeId thickness initialOffset
            freshGroupId).polygons.get ⟨i, hi2⟩).vertices =
          (state.polygons.get ⟨i, hi⟩).vertices)
      ∧ ((state.polygons.get ⟨i, hi⟩).id ≠ sourcePoly.id →
        (state.polygons.get ⟨i, hi⟩).id ≠ targetPoly.id →
        targetPoly.groupId.isSome = true →
        (state.polygons.get ⟨i, hi⟩).groupId = targetPoly.groupId →
        (executeJoin state sourceEdgeId targetEdgeId thickness initialOffset
            freshGroupId).polygons.get ⟨i, hi2⟩ =
          { state.polygons.get ⟨i, hi⟩ with
            groupId := some (joinParts sourcePoly targetPoly sourceEdgeId targetEdgeId
              thickness initialOffset freshGroupId).finalGroupId }))) := by
  have hexec : (executeJoin state sourceEdgeId targetEdgeId thickness initialOffset
      freshGroupId).polygons =
      state.polygons.map (joinMapFn
        (joinParts sourcePoly targetPoly sourceEdgeId targetEdgeId thickness initialOffset
          freshGroupId).finalSourcePoly
        (joinParts sourcePoly targetPoly sourceEdgeId targetEdgeId thickness initialOffset
          freshGroupId).finalTargetPoly
        sourcePoly.groupId targetPoly.groupId
        (joinParts sourcePoly targetPoly sourceEdgeId targetEdgeId thickness initialOffset
          freshGroupId).dx
        (joinParts sourcePoly targetPoly sourceEdgeId targetEdgeId thickness initialOffset
          freshGroupId).dy
        (joinParts sourcePoly targetPoly sourceEdgeId targetEdgeId thickness initialOffset
          freshGroupId).finalGroupId) := by
    unfold executeJoin
    rw [hsp, htp]
  have hsid : (joinParts sourcePoly targetPoly sourceEdgeId targetEdgeId thickness
      initialOffset freshGroupId).finalSourcePoly.id = sourcePoly.id := rfl
  have htid : (joinParts sourcePoly targetPoly sourceEdgeId targetEdgeId thickness
      initialOffset freshGroupId).finalTargetPoly.id = targetPoly.id := rfl
  have htverts : (joinParts sourcePoly targetPoly sourceEdgeId targetEdgeId thickness
      initialOffset freshGroupId).finalTargetPoly.vertices = targetPoly.vertices := rfl
  refine ⟨by rw [hexec, List.length_map], ?_⟩
  intro i hi hi2
  have hget : (executeJoin state sourceEdgeId targetEdgeId thickness initialOffset
      freshGroupId).polygons.get ⟨i, hi2⟩ =
      joinMapFn
        (joinParts sourcePoly targetPoly sourceEdgeId targetEdgeId thickness initialOffset
          freshGroupId).finalSourcePoly
        (joinParts sourcePoly targetPoly sourceEdgeId targetEdgeId thickness initialOffset
          freshGroupId).finalTargetPoly
        sourcePoly.groupId targetPoly.groupId
        (joinParts sourcePoly targetPoly sourceEdgeId targetEdgeId thickness initialOffset
          freshGroupId).dx
        (joinParts sourcePoly targetPoly sourceEdgeId targetEdgeId thickness initialOffset
          freshGroupId).dy
        (joinParts sourcePoly targetPoly sourceEdgeId targetEdgeId thickness initialOffset
          freshGroupId).finalGroupId
        (state.polygons.get ⟨i, hi⟩) := by
    simp only [hexec, List.get_eq_getElem, List.getElem_map]
  simp only [List.get_eq_getElem] at hget ⊢
  refine ⟨?_, ?_, ?_⟩
  · intro h1 h2 h3 h4
    rw [hget]
    unfold joinMapFn
    rw [if_neg (by simp [hsid, h1]), if_neg (by simp [htid, h2]),
      if_pos (by simp [h3, h4])]
  · intro h1
    rw [hget]
    unfold joinMapFn
    have hne2 : (state.polygons[i]).id ≠ sourcePoly.id := by
      rw [h1]
      exact fun hh => hne hh.symm
    rw [if_neg (by simp [hsid, hne2]), if_pos (by simp [htid, h1]), htverts]
    have hmem : targetPoly ∈ state.polygons := by
      unfold findPolygonWithEdge at htp
      exact List.mem_of_find?_eq_some htp
    have hmem2 : state.polygons[i] ∈ state.polygons := List.getElem_mem hi
    have := polygon_eq_of_id_nodup hnodup hmem hmem2 h1.symm
    rw [this]
  · intro h1 h2 h3 h4
    rw [hget]
    unfold joinMapFn
    have hc3 : ¬ ((sourcePoly.groupId.isSome && ((state.polygons[i]).groupId
        == sourcePoly.groupId)) = true) := by
      intro hc
      simp only [Bool.and_eq_true, beq_iff_eq] at hc
      rcases hdisj with h | h
      · rw [h] at hc
        simp at hc
      · exact h (hc.2.symm.trans h4)
    rw [if_neg (by simp [hsid, h1]), if_neg (by simp [htid, h2]), if_neg hc3,
      if_pos (by simp [h3, h4])]

/-- Witness for C6: the amended property applied at the concrete two-square
state. -/
theorem C6_join_rigid_propagation_amended_witness :
    (executeJoin c5State "ae2" "te0" 10 0 "G1").polygons.length =
      c5State.polygons.length :=
  (C6_join_rigid_propagation_amended c5State "ae2" "te0" 10 0 "G1"
    unlockedSrcSquare tgtSquare rfl rfl (by decide) (by decide) (Or.inl rfl)).1

theorem thicknessOrDefault_some_ten : thicknessOrDefault (some (10:ℝ)) = 10 := by
  unfold thicknessOrDefault
  norm_num

theorem list_get?_one {α : Type} (x y : α) (l : List α) : (x :: y :: l).get? 1 = some y := rfl

/-- The alignment transform of the C6 counterexample configuration (same
geometry as the C4 fixture, with the C6 edge ids): rotation 0, translation
(0, -110). -/
theorem alignTransform_c6cfg_eval (sp tp : Polygon)
    (hsE : sp.edges.find? (fun e => e.id == "aj2") =
      some ⟨"aj2", "A2", "A3", 1, .PERIMETER, some 10, none, none⟩)
    (htE : tp.edges.find? (fun e => e.id == "cj0") =
      some ⟨"cj0", "T0", "T1", 1, .PERIMETER, some 10, none, none⟩)
    (hsv : sp.vertices = srcSquare.vertices) (htv : tp.vertices = tgtSquare.vertices)
    (hsc : sp.centroid = ⟨50, 50⟩) :
    calculateAlignmentTransform sp "aj2" tp "cj0" 0 (10 / 100) = ⟨0, 0, -110⟩ := by
  unfold calculateAlignmentTransform
  rw [hsE, htE]
  dsimp only
  unfold findVertex
  rw [hsv, htv]
  rw [show srcSquare.vertices.find? (fun v => v.id == "A2") =
        some (⟨"A2", 100, 100, "C", true, none⟩ : Vertex) from rfl,
      show srcSquare.vertices.find? (fun v => v.id == "A3") =
        some (⟨"A3", 0, 100, "D", true, none⟩ : Vertex) from rfl,
      show tgtSquare.vertices.find? (fun v => v.id == "T0") =
        some (⟨"T0", 0, 0, "A", true, none⟩ : Vertex) from rfl,
      show tgtSquare.vertices.find? (fun v => v.id == "T1") =
        some (⟨"T1", 100, 0, "B", true, none⟩ : Vertex) from rfl]
  dsimp only [Vertex.pos]
  rw [srcSquare_area, tgtSquare_area,
    if_pos (by norm_num : (0:ℝ) < 10000),
    show mathAtan2 ((100:ℝ) - 100) (0 - 100) = Real.pi from
      mathAtan2_west (by norm_num) (by norm_num),
    show mathAtan2 ((0:ℝ) - 0) (100 - 0) = 0 from
      mathAtan2_east (by norm_num) (by norm_num),
    distance_100_0, hsc,
    show PIXELS_PER_METER = (100:ℝ) from rfl]
  rw [show (0:ℝ) + Real.pi / 2 + Real.pi - (Real.pi + Real.pi / 2) = 0 by ring]
  apply AlignTransform.ext_parts <;>
    norm_num [rotatePoint, Real.cos_add, Real.sin_add, Real.cos_sub, Real.sin_sub]

/-- The first-vertex delta of the C6 counterexample join is (0, -110) in y. -/
theorem c6_joinParts_dy :
    (joinParts polyA2 polyC "aj2" "cj0" 10 0 "G2").dy = -110 := by
  have hT := alignTransform_c6cfg_eval
    { polyA2 with edges := polyA2.edges.map (fun e =>
        if e.id == "aj2" then { e with thickness := some (10:ℝ) } else e) }
    { polyC with edges := polyC.edges.map (fun e =>
        if e.id == "cj0" then { e with thickness := some (10:ℝ) } else e) }
    rfl rfl rfl rfl rfl
  unfold joinParts
  dsimp only
  unfold alignPolygonToEdge
  dsimp only
  rw [hT]
  dsimp only
  unfold translatePolygon rotatePolygon
  dsimp only
  rw [show polyA2.vertices = [⟨"A0", 0, 0, "A", true, none⟩, ⟨"A1", 100, 0, "B", true, none⟩,
      ⟨"A2", 100, 100, "C", true, none⟩, ⟨"A3", 0, 100, "D", true, none⟩] from rfl,
    show polyA2.centroid = (⟨50, 50⟩ : Point) from rfl]
  simp only [List.map, List.headI]
  norm_num [rotatePoint, Vertex.pos, Real.cos_zero, Real.sin_zero]

/-- Counterexample to C6 as stated: in `c6State` the polygons A, B, C form
one linked chain with shared prior group G; joining A's free edge directly
to C passes every precondition (they are not directly linked), and the join
translates B — a member of the TARGET polygon's prior group — by the
source delta (its first vertex moves from y = 1000 to y = 890), while the
claim says every member of the target's prior group keeps its vertex
positions unchanged. -/
theorem C6_counterexample_shared_prior_group :
    polyB.groupId = some "G" ∧ polyC.groupId = some "G" ∧
    c6State.polygons.get? 1 = some polyB ∧
    ((completeJoin c6State "cj0" "G2").polygons.get? 1).map (fun p => p.vertices.headI.y)
      = some 890 ∧
    polyB.vertices.headI.y = 1000 ∧ ((890:ℝ) ≠ 1000) := by
  refine ⟨rfl, rfl, rfl, ?_, rfl, by norm_num⟩
  unfold completeJoin
  rw [show c6State.joinSourceEdgeId = some "aj2" from rfl]
  dsimp only
  rw [show findPolygonWithEdge c6State.polygons "aj2" = some polyA2 from rfl,
    show findPolygonWithEdge c6State.polygons "cj0" = some polyC from rfl]
  dsimp only
  rw [if_neg (by decide), if_neg (by decide), if_neg (by decide)]
  rw [show ((polyA2.edges.find? (fun e => e.id == "aj2")).getD default) =
        (⟨"aj2", "A2", "A3", 1, .PERIMETER, some 10, none, none⟩ : Edge) from rfl,
      show ((polyC.edges.find? (fun e => e.id == "cj0")).getD default) =
        (⟨"cj0", "T0", "T1", 1, .PERIMETER, some 10, none, none⟩ : Edge) from rfl]
  dsimp only
  rw [thicknessOrDefault_some_ten, if_neg (by norm_num : ¬ ((10:ℝ) ≠ 10))]
  unfold executeJoin
  rw [show findPolygonWithEdge c6State.polygons "aj2" = some polyA2 from rfl,
    show findPolygonWithEdge c6State.polygons "cj0" = some polyC from rfl]
  dsimp only
  rw [show c6State.polygons = [polyA2, polyB, polyC] from rfl]
  simp only [List.map]
  rw [list_get?_one]
  simp only [Option.map]
  unfold joinMapFn
  rw [if_neg (by decide), if_neg (by decide), if_pos (by decide)]
  dsimp only
  unfold translatePolygon
  dsimp only
  rw [show polyB.vertices = [⟨"B0", 1000, 1000, "A", true, none⟩,
      ⟨"B1", 1100, 1000, "B", true, none⟩, ⟨"B2", 1100, 1100, "C", true, none⟩] from rfl]
  simp only [List.map, List.headI]
  rw [c6_joinParts_dy]
  norm_num

/-! ## C7: the angle-substitution phase -/

/-- C7 (amended): for a vertex `v` with `fixedAngle = some theta` whose
incident PERIMETER edges in the polygon's edge list are exactly `[e1, e2]`
with far neighbours `n1` and `n2`, the angle-substitution step (i) adds a
virtual DIAGONAL edge between `n1` and `n2` whose length is the
law-of-cosines chord `sqrt(a^2 + b^2 - 2 a b cos theta)` rounded to 4
decimal places (not the exact chord), (ii) removes every effective edge
running between `n1` and `n2` regardless of its type (not only DIAGONAL
edges), and (iii) keeps every other effective edge. -/
theorem C7_angle_substitution_amended (allEdges E : List Edge) (v : Vertex) (theta : ℝ)
    (e1 e2 : Edge) (n1 n2 : String)
    (htheta : v.fixedAngle = some theta)
    (hconn : allEdges.filter (fun e =>
      (e.startVertexId == v.id || e.endVertexId == v.id) && e.type == EdgeType.PERIMETER)
      = [e1, e2])
    (hn1 : n1 = if e1.startVertexId == v.id then e1.endVertexId else e1.startVertexId)
    (hn2 : n2 = if e2.startVertexId == v.id then e2.endVertexId else e2.startVertexId) :
    (⟨"virtual-" ++ v.id, n1, n2,
       round4 (Real.sqrt (e1.length ^ 2 + e2.length ^ 2 -
         2 * e1.length * e2.length * Real.cos (theta * Real.pi / 180))),
       .DIAGONAL, none, none, none⟩ : Edge) ∈ substituteStep allEdges E v ∧
    (∀ e ∈ E, ((e.startVertexId = n1 ∧ e.endVertexId = n2) ∨
               (e.startVertexId = n2 ∧ e.endVertexId = n1)) →
      e ∈ substituteStep allEdges E v →
      e = ⟨"virtual-" ++ v.id, n1, n2,
        round4 (Real.sqrt (e1.length ^ 2 + e2.length ^ 2 -
          2 * e1.length * e2.length * Real.cos (theta * Real.pi / 180))),
        .DIAGONAL, none, none, none⟩) ∧
    (∀ e ∈ E, ¬((e.startVertexId = n1 ∧ e.endVertexId = n2) ∨
                (e.startVertexId = n2 ∧ e.endVertexId = n1)) →
      e ∈ substituteStep allEdges E v) := by
  subst hn1 hn2
  unfold substituteStep
  rw [htheta]
  dsimp only
  rw [hconn]
  dsimp only
  unfold calculateSASDistance
  dsimp only
  refine ⟨List.mem_append_right _ (List.mem_singleton.mpr rfl), ?_, ?_⟩
  · intro e _ hbet hmem
    rcases List.mem_append.mp hmem with hf | hv
    · exfalso
      have hpred := List.of_mem_filter hf
      rcases hbet with ⟨h1, h2⟩ | ⟨h1, h2⟩ <;> simp [h1, h2] at hpred
    · exact List.mem_singleton.mp hv
  · intro e he hnb
    apply List.mem_append_left
    apply List.mem_filter.mpr
    refine ⟨he, ?_⟩
    simp only [Bool.not_eq_true', Bool.or_eq_false_iff, Bool.and_eq_false_iff,
      beq_eq_false_iff_ne, ne_eq]
    push_neg at hnb
    constructor
    · by_cases hs : e.startVertexId =
        (if e1.startVertexId == v.id then e1.endVertexId else e1.startVertexId)
      · exact Or.inr (hnb.1 hs)
      · exact Or.inl hs
    · by_cases hs : e.startVertexId =
        (if e2.startVertexId == v.id then e2.endVertexId else e2.startVertexId)
      · exact Or.inr (hnb.2 hs)
      · exact Or.inl hs

/-- Witness for C7: the amended property applied at the right triangle with
the fixed 90-degree angle at B. -/
theorem C7_angle_substitution_amended_witness :
    (⟨"virtual-" ++ triB.id, "A", "C",
      round4 (Real.sqrt (triAB.length ^ 2 + triBC.length ^ 2 -
        2 * triAB.length * triBC.length * Real.cos (90 * Real.pi / 180))),
      .DIAGONAL, none, none, none⟩ : Edge) ∈
      substituteStep triPoly.edges triPoly.edges triB :=
  (C7_angle_substitution_amended triPoly.edges triPoly.edges triB 90 triAB triBC "A" "C"
    rfl rfl rfl rfl).1

/-- C7 counterexample: the claim says the phase removes only DIAGONAL edges
between the far neighbours, but on the right triangle the PERIMETER edge
`triCA` between the far neighbours A and C of the fixed-angle vertex B is
removed from the effective edge set. -/
theorem C7_counterexample_perimeter_removed :
    triCA ∈ triPoly.edges ∧ triCA.type = EdgeType.PERIMETER ∧
    triCA ∉ substituteAngles triPoly := by
  refine ⟨by simp [triPoly], rfl, ?_⟩
  rw [show substituteAngles triPoly =
      [triAB, triBC,
       ⟨"virtual-B", "A", "C", round4 (calculateSASDistance 3 4 90),
        .DIAGONAL, none, none, none⟩] from rfl]
  intro hmem
  simp only [List.mem_cons, List.not_mem_nil, or_false] at hmem
  rcases hmem with h | h | h <;> exact absurd (congrArg Edge.id h) (by decide)

/-! ## The wavefront loop: structural lemmas -/

theorem passStep_cases (E : List Edge) (st : PropState) (j : ℕ) :
    passStep E st j = st ∨
    ((∃ msg, passStep E st j = { st with metricError := some msg }) ∧
      st.metricError = none) ∨
    (∃ (pt : Point) (approx : Bool),
      passStep E st j = { st with
        vertices := st.vertices.set
          (st.vertices.findIdx (fun v => v.id == (st.vertices.getD j default).id))
          { st.vertices.getD j default with x := pt.x, y := pt.y, solved := true },
        vmap := { st.vertices.getD j default with x := pt.x, y := pt.y, solved := true }
          :: st.vmap,
        solved := (st.vertices.getD j default).id :: st.solved,
        isApproximated := st.isApproximated || approx,
        progress := true } ∧
      (st.vertices.getD j default).id ∉ st.solved) := by
  unfold passStep
  dsimp only
  split
  · exact Or.inl rfl
  · rename_i hcont
    split
    · split
      · rename_i pt approx _
        refine Or.inr (Or.inr ⟨pt, approx, rfl, ?_⟩)
        intro hmem
        exact hcont (List.elem_eq_true_of_mem hmem)
      · split
        · exact Or.inl rfl
        · rename_i herr
          split
          · exact Or.inr (Or.inl ⟨⟨_, rfl⟩, Option.not_isSome_iff_eq_none.mp
              (by simpa using herr)⟩)
          · exact Or.inr (Or.inl ⟨⟨_, rfl⟩, Option.not_isSome_iff_eq_none.mp
              (by simpa using herr)⟩)
    · exact Or.inl rfl

theorem passStep_length (E : List Edge) (st : PropState) (j : ℕ) :
    (passStep E st j).vertices.length = st.vertices.length := by
  rcases passStep_cases E st j with h | ⟨⟨msg, h⟩, _⟩ | ⟨pt, approx, h, _⟩ <;> rw [h] <;> simp

theorem passStep_ids (E : List Edge) (st : PropState) (j : ℕ) :
    (passStep E st j).vertices.map Vertex.id = st.vertices.map Vertex.id := by
  rcases passStep_cases E st j with h | ⟨⟨msg, h⟩, _⟩ | ⟨pt, approx, h, _⟩ <;> rw [h]
  by_cases hlt :
      st.vertices.findIdx (fun v => v.id == (st.vertices.getD j default).id) <
        st.vertices.length
  · have hpred := List.findIdx_getElem (w := hlt)
    simp only [beq_iff_eq] at hpred
    rw [List.map_set]
    apply List.ext_getElem (by simp)
    intro k hk1 hk2
    rw [List.getElem_set]
    split
    · rename_i hik
      subst hik
      rw [List.getElem_map]
      exact hpred.symm
    · rfl
  · rw [List.set_eq_of_length_le (by omega)]

theorem passStep_solved_mono (E : List Edge) (st : PropState) (j : ℕ) {a : String}
    (ha : a ∈ st.solved) : a ∈ (passStep E st j).solved := by
  rcases passStep_cases E st j with h | ⟨⟨msg, h⟩, _⟩ | ⟨pt, approx, h, _⟩ <;> rw [h]
  · exact ha
  · exact ha
  · exact List.mem_cons_of_mem _ ha

theorem passStep_latch (E : List Edge) (st : PropState) (j : ℕ)
    (h : st.metricError.isSome = true) : (passStep E st j).metricError.isSome = true := by
  rcases passStep_cases E st j with h' | ⟨⟨msg, h'⟩, _⟩ | ⟨pt, approx, h', _⟩ <;> rw [h'] <;>
    first
    | rfl
    | exact h

theorem passStep_progress_mono (E : List Edge) (st : PropState) (j : ℕ)
    (h : st.progress = true) : (passStep E st j).progress = true := by
  rcases passStep_cases E st j with h' | ⟨⟨msg, h'⟩, _⟩ | ⟨pt, approx, h', _⟩ <;> rw [h'] <;>
    first
    | rfl
    | exact h

theorem passStep_mem_or_solved (E : List Edge) (st : PropState) (j : ℕ) (v : Vertex)
    (h : v ∈ st.vertices ∨ v.id ∈ st.solved) :
    v ∈ (passStep E st j).vertices ∨ v.id ∈ (passStep E st j).solved := by
  rcases passStep_cases E st j with h' | ⟨⟨msg, h'⟩, _⟩ | ⟨pt, approx, h', _⟩ <;> rw [h']
  · exact h
  · exact h
  · rcases h with hv | hs
    · rcases List.mem_iff_getElem.mp hv with ⟨k, hk, hkv⟩
      by_cases hik :
          st.vertices.findIdx (fun v => v.id == (st.vertices.getD j default).id) = k
      · right
        have hlt : st.vertices.findIdx
            (fun v => v.id == (st.vertices.getD j default).id) < st.vertices.length := by
          omega
        have hpred := List.findIdx_getElem (w := hlt)
        simp only [beq_iff_eq] at hpred
        subst hkv
        simp only [hik] at hpred
        simp only [hpred]
        exact List.mem_cons_self _ _
      · left
        refine List.mem_iff_getElem.mpr ⟨k, by simpa using hk, ?_⟩
        rw [List.getElem_set_ne hik]
        exact hkv
    · exact Or.inr (List.mem_cons_of_mem _ hs)

theorem passStep_keys (E : List Edge) (st : PropState) (j : ℕ)
    (hj : j < st.vertices.length) (hnd : (st.vertices.map Vertex.id).Nodup) :
    (passStep E st j).vertices.map vertexKey = st.vertices.map vertexKey := by
  rcases passStep_cases E st j with h | ⟨⟨msg, h⟩, _⟩ | ⟨pt, approx, h, _⟩ <;> rw [h]
  by_cases hlt :
      st.vertices.findIdx (fun v => v.id == (st.vertices.getD j default).id) <
        st.vertices.length
  · have hpred := List.findIdx_getElem (w := hlt)
    simp only [beq_iff_eq] at hpred
    have hgd : st.vertices.getD j default = st.vertices[j] := List.getD_eq_getElem _ _ hj
    have hidj : st.vertices.findIdx (fun v => v.id == (st.vertices.getD j default).id)
        = j := by
      have h1 : (st.vertices.map Vertex.id).get ⟨st.vertices.findIdx
          (fun v => v.id == (st.vertices.getD j default).id), by simpa using hlt⟩ =
          (st.vertices.map Vertex.id).get ⟨j, by simpa using hj⟩ := by
        simp only [List.get_eq_getElem, List.getElem_map]
        rw [hpred, hgd]
      have h2 := (List.Nodup.getElem_inj_iff hnd).mp (by
        simpa only [List.get_eq_getElem] using h1)
      exact h2
    rw [List.map_set]
    apply List.ext_getElem (by simp)
    intro k hk1 hk2
    rw [List.getElem_set]
    split
    · rename_i hik
      subst hik
      simp only [hidj, List.getElem_map, ← hgd]
      rfl
    · rfl
  · rw [List.set_eq_of_length_le (by omega)]

theorem passStep_progress_new (E : List Edge) (st : PropState) (j : ℕ)
    (hj : j < st.vertices.length) (h : (passStep E st j).progress = true) :
    st.progress = true ∨
    ∃ a, a ∈ (passStep E st j).solved ∧ a ∉ st.solved ∧
      a ∈ st.vertices.map Vertex.id := by
  rcases passStep_cases E st j with h' | ⟨⟨msg, h'⟩, _⟩ | ⟨pt, approx, h', hns⟩
  · rw [h'] at h; exact Or.inl h
  · rw [h'] at h; exact Or.inl h
  · refine Or.inr ⟨(st.vertices.getD j default).id, ?_, hns, ?_⟩
    · rw [h']; exact List.mem_cons_self _ _
    · refine List.mem_map.mpr ⟨st.vertices.getD j default, ?_, rfl⟩
      rw [List.getD_eq_getElem _ _ hj]
      exact List.getElem_mem hj

/-- Fold a predicate through one pass: the step preserves it at in-range
indices, and `passStep` preserves the length, so the range bound carries. -/
theorem foldl_passStep_pres (E : List Edge) (P : PropState → Prop)
    (hstep : ∀ st j, j < st.vertices.length → P st → P (passStep E st j)) :
    ∀ (js : List ℕ) (st : PropState), (∀ j ∈ js, j < st.vertices.length) → P st →
      P (js.foldl (passStep E) st) := by
  intro js
  induction js with
  | nil => intro st _ hP; exact hP
  | cons j js ih =>
    intro st hb hP
    refine ih (passStep E st j) ?_ (hstep st j (hb j (List.mem_cons_self _ _)) hP)
    intro j' hj'
    rw [passStep_length]
    exact hb j' (List.mem_cons_of_mem _ hj')

theorem runPass_pres (E : List Edge) (P : PropState → Prop)
    (hstep : ∀ st j, j < st.vertices.length → P st → P (passStep E st j))
    (st : PropState) (hP : P st) : P (runPass E st) :=
  foldl_passStep_pres E P hstep (List.range st.vertices.length) st
    (fun _ hj => List.mem_range.mp hj) hP

theorem runPass_length (E : List Edge) (st : PropState) :
    (runPass E st).vertices.length = st.vertices.length :=
  runPass_pres E (fun s => s.vertices.length = st.vertices.length)
    (fun s j _ h => by dsimp only; rw [passStep_length]; exact h) st rfl

theorem runPass_ids (E : List Edge) (st : PropState) :
    (runPass E st).vertices.map Vertex.id = st.vertices.map Vertex.id :=
  runPass_pres E (fun s => s.vertices.map Vertex.id = st.vertices.map Vertex.id)
    (fun s j _ h => by dsimp only; rw [passStep_ids]; exact h) st rfl

theorem runPass_solved_mono (E : List Edge) (st : PropState) {a : String}
    (ha : a ∈ st.solved) : a ∈ (runPass E st).solved :=
  runPass_pres E (fun s => a ∈ s.solved)
    (fun s j _ h => passStep_solved_mono E s j h) st ha

theorem runPass_latch (E : List Edge) (st : PropState)
    (h : st.metricError.isSome = true) : (runPass E st).metricError.isSome = true :=
  runPass_pres E (fun s => s.metricError.isSome = true)
    (fun s j _ hh => passStep_latch E s j hh) st h

theorem runPass_mem_or_solved (E : List Edge) (st : PropState) (v : Vertex)
    (h : v ∈ st.vertices ∨ v.id ∈ st.solved) :
    v ∈ (runPass E st).vertices ∨ v.id ∈ (runPass E st).solved :=
  runPass_pres E (fun s => v ∈ s.vertices ∨ v.id ∈ s.solved)
    (fun s j _ hh => passStep_mem_or_solved E s j v hh) st h

theorem runPass_keys (E : List Edge) (st : PropState)
    (hnd : (st.vertices.map Vertex.id).Nodup) :
    (runPass E st).vertices.map vertexKey = st.vertices.map vertexKey := by
  refine runPass_pres E (fun s => s.vertices.map vertexKey = st.vertices.map vertexKey)
    (fun s j hj h => ?_) st rfl
  have hids : s.vertices.map Vertex.id = st.vertices.map Vertex.id := by
    have h1 := congrArg (List.map (fun q : String × String × Option ℝ => q.1)) h
    simpa [List.map_map, Function.comp, vertexKey] using h1
  dsimp only
  dsimp only at h
  rw [passStep_keys E s j hj (hids ▸ hnd)]
  exact h

theorem runLoop_pres (E : List Edge) (P : PropState → Prop)
    (hstep : ∀ st j, j < st.vertices.length → P st → P (passStep E st j))
    (hpf : ∀ st, P st → P { st with progress := false }) :
    ∀ (fuel : ℕ) (st : PropState), P st → P (runLoop E fuel st) := by
  intro fuel
  induction fuel with
  | zero => intro st hP; exact hP
  | succ fuel ih =>
    intro st hP
    unfold runLoop
    split
    · exact ih _ (runPass_pres E P hstep _ (hpf st hP))
    · exact hP

theorem runLoop_of_progress_false (E : List Edge) (fuel : ℕ) (st : PropState)
    (h : st.progress = false) : runLoop E fuel st = st := by
  cases fuel with
  | zero => rfl
  | succ fuel => unfold runLoop; rw [if_neg (by rw [h]; exact Bool.false_ne_true)]

theorem runLoop_length (E : List Edge) (fuel : ℕ) (st : PropState) :
    (runLoop E fuel st).vertices.length = st.vertices.length :=
  runLoop_pres E (fun s => s.vertices.length = st.vertices.length)
    (fun s j _ h => by dsimp only; rw [passStep_length]; exact h)
    (fun s h => h) fuel st rfl

theorem runLoop_ids (E : List Edge) (fuel : ℕ) (st : PropState) :
    (runLoop E fuel st).vertices.map Vertex.id = st.vertices.map Vertex.id :=
  runLoop_pres E (fun s => s.vertices.map Vertex.id = st.vertices.map Vertex.id)
    (fun s j _ h => by dsimp only; rw [passStep_ids]; exact h)
    (fun s h => h) fuel st rfl

theorem runLoop_solved_mono (E : List Edge) (fuel : ℕ) (st : PropState) {a : String}
    (ha : a ∈ st.solved) : a ∈ (runLoop E fuel st).solved :=
  runLoop_pres E (fun s => a ∈ s.solved)
    (fun s j _ h => passStep_solved_mono E s j h) (fun s h => h) fuel st ha

theorem runLoop_latch (E : List Edge) (fuel : ℕ) (st : PropState)
    (h : st.metricError.isSome = true) : (runLoop E fuel st).metricError.isSome = true :=
  runLoop_pres E (fun s => s.metricError.isSome = true)
    (fun s j _ hh => passStep_latch E s j hh) (fun s hh => hh) fuel st h

theorem runLoop_mem_or_solved (E : List Edge) (fuel : ℕ) (st : PropState) (v : Vertex)
    (h : v ∈ st.vertices ∨ v.id ∈ st.solved) :
    v ∈ (runLoop E fuel st).vertices ∨ v.id ∈ (runLoop E fuel st).solved :=
  runLoop_pres E (fun s => v ∈ s.vertices ∨ v.id ∈ s.solved)
    (fun s j _ hh => passStep_mem_or_solved E s j v hh) (fun s hh => hh) fuel st h

theorem runLoop_keys (E : List Edge) (fuel : ℕ) (st : PropState)
    (hnd : (st.vertices.map Vertex.id).Nodup) :
    (runLoop E fuel st).vertices.map vertexKey = st.vertices.map vertexKey := by
  refine runLoop_pres E (fun s => s.vertices.map vertexKey = st.vertices.map vertexKey)
    (fun s j hj h => ?_) (fun s h => h) fuel st rfl
  have hids : s.vertices.map Vertex.id = st.vertices.map Vertex.id := by
    have h1 := congrArg (List.map (fun q : String × String × Option ℝ => q.1)) h
    simpa [List.map_map, Function.comp, vertexKey] using h1
  dsimp only
  dsimp only at h
  rw [passStep_keys E s j hj (hids ▸ hnd)]
  exact h

/-- A productive pass puts at least one fresh vertex id into the solved
set. -/
theorem runPass_progress_new (E : List Edge) (st : PropState)
    (h : (runPass E { st with progress := false }).progress = true) :
    ∃ a, a ∈ (runPass E { st with progress := false }).solved ∧ a ∉ st.solved ∧
      a ∈ st.vertices.map Vertex.id := by
  have key := runPass_pres E (fun s =>
      (∀ b ∈ st.solved, b ∈ s.solved) ∧
      s.vertices.map Vertex.id = st.vertices.map Vertex.id ∧
      (s.progress = true →
        ∃ a, a ∈ s.solved ∧ a ∉ st.solved ∧ a ∈ st.vertices.map Vertex.id))
    (fun s j hj hP => ?_) { st with progress := false }
    ⟨fun b hb => hb, rfl, fun hpr => absurd hpr (by simp)⟩
  · rcases key with ⟨_, _, h3⟩
    exact h3 h
  · refine ⟨fun b hb => passStep_solved_mono E s j (hP.1 b hb), ?_, ?_⟩
    · rw [passStep_ids]; exact hP.2.1
    · intro hpr
      rcases passStep_progress_new E s j hj hpr with hold | ⟨a, ha1, ha2, ha3⟩
      · rcases hP.2.2 hold with ⟨a, ha1, ha2, ha3⟩
        exact ⟨a, passStep_solved_mono E s j ha1, ha2, ha3⟩
      · refine ⟨a, ha1, fun hc => ha2 (hP.1 a hc), ?_⟩
        rw [← hP.2.1]; exact ha3

theorem countUnsolved_le (st : PropState) : countUnsolved st ≤ st.vertices.length := by
  unfold countUnsolved
  calc ((st.vertices.map Vertex.id).dedup.filter
          (fun i => !(st.solved.contains i))).length
      ≤ (st.vertices.map Vertex.id).dedup.length :=
        (List.filter_sublist _).length_le
    _ ≤ (st.vertices.map Vertex.id).length := (List.dedup_sublist _).length_le
    _ = st.vertices.length := List.length_map _ _

/-- A productive pass strictly decreases the number of unsolved vertex
ids. -/
theorem runPass_countUnsolved (E : List Edge) (st : PropState)
    (h : (runPass E { st with progress := false }).progress = true) :
    countUnsolved (runPass E { st with progress := false }) < countUnsolved st := by
  obtain ⟨a, ha1, ha2, ha3⟩ := runPass_progress_new E st h
  unfold countUnsolved
  have hids : (runPass E { st with progress := false }).vertices.map Vertex.id =
      st.vertices.map Vertex.id := runPass_ids E _
  rw [hids]
  have hsub : ((st.vertices.map Vertex.id).dedup.filter
        (fun i => !((runPass E { st with progress := false }).solved.contains i))).Sublist
      ((st.vertices.map Vertex.id).dedup.filter
        (fun i => !(st.solved.contains i))) := by
    apply List.monotone_filter_right
    intro b hb
    simp only [Bool.not_eq_true', ← Bool.not_eq_true] at hb ⊢
    intro hc
    exact hb (List.elem_eq_true_of_mem
      (runPass_solved_mono E { st with progress := false } (List.mem_of_elem_eq_true hc)))
  have hne : ((st.vertices.map Vertex.id).dedup.filter
        (fun i => !((runPass E { st with progress := false }).solved.contains i))) ≠
      ((st.vertices.map Vertex.id).dedup.filter
        (fun i => !(st.solved.contains i))) := by
    intro hc
    have hmem : a ∈ (st.vertices.map Vertex.id).dedup.filter
        (fun i => !(st.solved.contains i)) := by
      apply List.mem_filter.mpr
      refine ⟨List.mem_dedup.mpr ha3, ?_⟩
      simp only [Bool.not_eq_true', ← Bool.not_eq_true]
      intro hc2
      exact ha2 (List.mem_of_elem_eq_true hc2)
    rw [← hc] at hmem
    have h2 := (List.mem_filter.mp hmem).2
    simp only [Bool.not_eq_true'] at h2
    have h4 : ((runPass E { st with progress := false }).solved.contains a) = true :=
      List.elem_eq_true_of_mem ha1
    rw [h2] at h4
    exact Bool.false_ne_true h4
  have hle := hsub.length_le
  rcases Nat.lt_or_ge ((st.vertices.map Vertex.id).dedup.filter
      (fun i => !((runPass E { st with progress := false }).solved.contains i))).length
      ((st.vertices.map Vertex.id).dedup.filter
      (fun i => !(st.solved.contains i))).length with hlt | hge
  · exact hlt
  · exact absurd (hsub.eq_of_length (Nat.le_antisymm hle hge)) hne

/-- Enough fuel reaches the loop's fixpoint: with more fuel than unsolved
ids, the loop exits with `progress = false`, exactly where the JS `while`
stops. -/
theorem runLoop_progress_false (E : List Edge) :
    ∀ (fuel : ℕ) (st : PropState), countUnsolved st < fuel →
      (runLoop E fuel st).progress = false := by
  intro fuel
  induction fuel with
  | zero => intro st h; omega
  | succ fuel ih =>
    intro st h
    unfold runLoop
    split
    · rcases hpr : (runPass E { st with progress := false }).progress with hf | ht
      · rw [runLoop_of_progress_false E fuel _ hpr]
        exact hpr
      · apply ih
        have hdec := runPass_countUnsolved E st hpr
        have : countUnsolved st ≤ fuel := by omega
        omega
    · rename_i hb
      simpa using hb

/-- C8: the wavefront propagation loop terminates.  The solved set grows
monotonically through every pass and is bounded by the vertex count; every
pass that reports progress solves at least one previously-unsolved vertex
id (strictly shrinking the unsolved count); and therefore the
`vertices.length + 1` passes that `solveGeometry` runs always reach the
fixpoint at which the JS `while (progress)` loop exits. -/
theorem C8_wavefront_loop_terminates (E : List Edge) (st : PropState) :
    (∀ a ∈ st.solved, a ∈ (runPass E st).solved) ∧
    countUnsolved st ≤ st.vertices.length ∧
    ((runPass E { st with progress := false }).progress = true →
      countUnsolved (runPass E { st with progress := false }) < countUnsolved st) ∧
    (runLoop E (st.vertices.length + 1) st).progress = false :=
  ⟨fun _ ha => runPass_solved_mono E st ha,
   countUnsolved_le st,
   fun h => runPass_countUnsolved E st h,
   runLoop_progress_false E (st.vertices.length + 1) st
     (Nat.lt_succ_of_le (countUnsolved_le st))⟩

/-! ## C10: the solver's frame effect -/

theorem ids_of_keys {l1 l2 : List Vertex}
    (h : l1.map vertexKey = l2.map vertexKey) :
    l1.map Vertex.id = l2.map Vertex.id := by
  have h1 := congrArg (List.map (fun q : String × String × Option ℝ => q.1)) h
  simpa [List.map_map, Function.comp, vertexKey] using h1

theorem vertex_eq_of_id_nodup {l : List Vertex} (hnd : (l.map Vertex.id).Nodup)
    {v w : Vertex} (hv : v ∈ l) (hw : w ∈ l) (h : v.id = w.id) : v = w :=
  List.inj_on_of_nodup_map hnd hv hw h

theorem vmapGet_mem {m : List Vertex} {vid : String} {w : Vertex}
    (h : vmapGet m vid = some w) : w ∈ m ∧ w.id = vid := by
  refine ⟨List.mem_of_find?_eq_some h, ?_⟩
  have := List.find?_some h
  simpa using this

/-- Seeding only moves the second seed vertex: the id/label/fixedAngle data
of the vertex list is unchanged. -/
theorem seedState_keys (p : Polygon) (se : Edge) (v0 v1 : Vertex)
    (hnd : (p.vertices.map Vertex.id).Nodup) (hv1 : v1 ∈ p.vertices) :
    (seedState p se v0 v1).vertices.map vertexKey = p.vertices.map vertexKey := by
  unfold seedState
  dsimp only
  rw [List.map_map]
  apply List.map_congr_left
  intro v hv
  by_cases hb : (v.id == v1.id) = true
  · have hvv1 : v = v1 := vertex_eq_of_id_nodup hnd hv hv1 (by simpa using hb)
    subst hvv1
    simp only [Function.comp_apply, if_pos hb]
    rfl
  · simp only [Function.comp_apply, if_neg hb]

/-- Inverting a successful `solveCore`: the final state is the loop run
from the seed state, the start edge is the found edge and the seed vertices
are its endpoint lookups. -/
theorem solveCore_inv {p : Polygon} {se : Edge} {v0 v1 : Vertex} {stF : PropState}
    (hcore : solveCore p = some (se, v0, v1, stF)) :
    (substituteAngles p).find? (fun e =>
        (vmapGet p.vertices.reverse e.startVertexId).isSome &&
        (vmapGet p.vertices.reverse e.endVertexId).isSome) = some se ∧
    v0 = (vmapGet p.vertices.reverse se.startVertexId).getD default ∧
    v1 = (vmapGet p.vertices.reverse se.endVertexId).getD default ∧
    stF = runLoop (substituteAngles p) (p.vertices.length + 1) (seedState p se v0 v1) := by
  unfold solveCore at hcore
  dsimp only at hcore
  rcases hfind : (substituteAngles p).find? (fun e =>
      (vmapGet p.vertices.reverse e.startVertexId).isSome &&
      (vmapGet p.vertices.reverse e.endVertexId).isSome) with _ | e
  · rw [hfind] at hcore
    simp at hcore
  · rw [hfind] at hcore
    simp only [Option.some.injEq, Prod.mk.injEq] at hcore
    obtain ⟨h1, h2, h3, h4⟩ := hcore
    subst h1
    subst h2
    subst h3
    exact ⟨hfind, rfl, rfl, h4.symm⟩

/-- The second seed vertex is a member of the vertex list with the start
edge's end id. -/
theorem solveCore_seed_mem {p : Polygon} {se : Edge} {v0 v1 : Vertex} {stF : PropState}
    (hcore : solveCore p = some (se, v0, v1, stF)) :
    v0 ∈ p.vertices ∧ v0.id = se.startVertexId ∧
    v1 ∈ p.vertices ∧ v1.id = se.endVertexId := by
  obtain ⟨hfind, hv0, hv1, _⟩ := solveCore_inv hcore
  have hpred := List.find?_some hfind
  simp only [Bool.and_eq_true, Option.isSome_iff_exists] at hpred
  obtain ⟨⟨w0, hw0⟩, ⟨w1, hw1⟩⟩ := hpred
  obtain ⟨hw0m, hw0id⟩ := vmapGet_mem hw0
  obtain ⟨hw1m, hw1id⟩ := vmapGet_mem hw1
  rw [hw0] at hv0
  rw [hw1] at hv1
  subst hv0
  subst hv1
  exact ⟨List.mem_reverse.mp hw0m, hw0id, List.mem_reverse.mp hw1m, hw1id⟩

/-- The vertex keys of a successful core run match the input's. -/
theorem solveCore_keys {p : Polygon} {se : Edge} {v0 v1 : Vertex} {stF : PropState}
    (hcore : solveCore p = some (se, v0, v1, stF))
    (hnd : (p.vertices.map Vertex.id).Nodup) :
    stF.vertices.map vertexKey = p.vertices.map vertexKey := by
  obtain ⟨hfind, _, _, hst⟩ := solveCore_inv hcore
  obtain ⟨_, _, hv1m, _⟩ := solveCore_seed_mem hcore
  subst hst
  have hseed := seedState_keys p se v0 v1 hnd hv1m
  rw [runLoop_keys _ _ _ (by rw [ids_of_keys hseed]; exact hnd)]
  exact hseed

/-- C10: `solveGeometry` returns the polygon with exactly the same edges
array (virtual edges never leak out), the same id, name, isClosed, area,
isLocked and groupId, the same number of vertices, and per-vertex the same
id, label and fixedAngle: only positions, solved flags and the centroid can
differ. -/
theorem C10_solver_edges_unchanged (p : Polygon)
    (hnd : (p.vertices.map Vertex.id).Nodup) :
    (solveGeometry p).polygon.edges = p.edges ∧
    (solveGeometry p).polygon.id = p.id ∧
    (solveGeometry p).polygon.name = p.name ∧
    (solveGeometry p).polygon.isClosed = p.isClosed ∧
    (solveGeometry p).polygon.area = p.area ∧
    (solveGeometry p).polygon.isLocked = p.isLocked ∧
    (solveGeometry p).polygon.groupId = p.groupId ∧
    (solveGeometry p).polygon.vertices.map vertexKey = p.vertices.map vertexKey := by
  unfold solveGeometry
  split
  · refine ⟨rfl, rfl, rfl, rfl, rfl, rfl, rfl, ?_⟩
    dsimp only
    rw [List.map_map]
    rfl
  · rcases hcore : solveCore p with _ | ⟨⟨se, v0, v1, stF⟩⟩
    · refine ⟨rfl, rfl, rfl, rfl, rfl, rfl, rfl, ?_⟩
      dsimp only
      rw [List.map_map]
      rfl
    · refine ⟨rfl, rfl, rfl, rfl, rfl, rfl, rfl, ?_⟩
      dsimp only
      rw [List.map_map]
      have hkeys := solveCore_keys hcore hnd
      rw [← hkeys]
      apply List.map_congr_left
      intro v _
      by_cases hb : (stF.solved.contains v.id) = true
      · simp only [Function.comp_apply, if_pos hb]
      · simp only [Function.comp_apply, if_neg hb]
        rfl

/-- Witness for C10 at the concrete source square. -/
theorem C10_solver_edges_unchanged_witness :
    (solveGeometry srcSquare).polygon.edges = srcSquare.edges :=
  (C10_solver_edges_unchanged srcSquare (by decide)).1

/-! ## C3: failed solves -/

/-- Evaluation helper: a pass step that hits a CONTAINED conflict on a
fresh target with no prior error latches the conflict message. -/
theorem passStep_error_contained (E : List Edge) (st : PropState) (j : ℕ)
    (e1 e2 : Edge) (rest : List Edge)
    (hcont : (st.solved.contains (st.vertices.getD j default).id) = false)
    (hconn : E.filter (fun e =>
      (e.startVertexId == (st.vertices.getD j default).id &&
        st.solved.contains e.endVertexId) ||
      (e.endVertexId == (st.vertices.getD j default).id &&
        st.solved.contains e.startVertexId)) = e1 :: e2 :: rest)
    (hnone : st.metricError = none)
    (hfi : findIntersection
      ((vmapGet st.vmap (if e1.startVertexId == (st.vertices.getD j default).id
        then e1.endVertexId else e1.startVertexId)).getD default).pos
      (e1.length * PIXELS_PER_METER)
      ((vmapGet st.vmap (if e2.startVertexId == (st.vertices.getD j default).id
        then e2.endVertexId else e2.startVertexId)).getD default).pos
      (e2.length * PIXELS_PER_METER)
      (st.vertices.getD j default).pos = .error .CONTAINED) :
    passStep E st j =
      { st with metricError := some (containedMsg (st.vertices.getD j default).label) } := by
  unfold passStep
  dsimp only
  rw [if_neg (by simp only [hcont]; exact Bool.false_ne_true)]
  rw [hconn]
  dsimp only
  rw [hfi]
  dsimp only
  rw [if_neg (by simp [hnone])]
  rfl

/-- The C3 seed: B is snapped from (1, 0) to (100, 0). -/
theorem c3_seed_eval : seedVertex c3A c3B c3AB = c3B' := by
  unfold seedVertex
  have h1 : mathAtan2 (c3B.y - c3A.y) (c3B.x - c3A.x) = 0 :=
    mathAtan2_east (by norm_num [c3B, c3A]) (by norm_num [c3B, c3A])
  rw [h1]
  rw [show c3A.x + Real.cos 0 * (c3AB.length * PIXELS_PER_METER) = 100 by
        norm_num [c3A, c3AB, PIXELS_PER_METER],
      show c3A.y + Real.sin 0 * (c3AB.length * PIXELS_PER_METER) = 0 by
        norm_num [c3A, c3AB, PIXELS_PER_METER]]
  rfl

theorem c3_seedState_eval : seedState c3Poly c3AB c3A c3B = c3st0 := by
  unfold seedState
  rw [c3_seed_eval]
  rfl

/-- The failing circle intersection of the C3 fixture: the 500-circle about
A strictly contains the 100-circle about B. -/
theorem c3_intersection_eval :
    findIntersection c3B'.pos (c3BC.length * PIXELS_PER_METER) c3A.pos
      (c3CA.length * PIXELS_PER_METER) c3C.pos = .error .CONTAINED := by
  rw [show c3BC.length * PIXELS_PER_METER = 100 by norm_num [c3BC, PIXELS_PER_METER],
      show c3CA.length * PIXELS_PER_METER = 500 by norm_num [c3CA, PIXELS_PER_METER]]
  unfold findIntersection
  dsimp only
  rw [show distance c3B'.pos c3A.pos = 100 by
        unfold distance
        rw [show (c3A.pos.x - c3B'.pos.x) ^ 2 + (c3A.pos.y - c3B'.pos.y) ^ 2 = 100 ^ 2 by
          norm_num [c3A, c3B', Vertex.pos]]
        exact Real.sqrt_sq (by norm_num)]
  rw [if_neg (show ¬(100 : ℝ) = 0 by norm_num)]
  rw [if_neg (show ¬(100 : ℝ) > 100 + 500 by norm_num)]
  rw [if_pos (show (100 : ℝ) < |100 - 500| by
        rw [show (100 : ℝ) - 500 = -400 by norm_num, abs_neg, abs_of_nonneg (by norm_num)]
        norm_num)]
  rw [if_neg (show ¬(100 : ℝ) ≥ |100 - 500| - EPSILON by
        rw [show (100 : ℝ) - 500 = -400 by norm_num, abs_neg, abs_of_nonneg (by norm_num)]
        unfold EPSILON
        norm_num)]

theorem c3_pass_eval : runPass [c3AB, c3BC, c3CA] { c3st0 with progress := false } = c3st1 := by
  have hstPF : ({ c3st0 with progress := false } : PropState) =
      (⟨[c3A, c3B', c3C], [c3B', c3C, c3B, c3A], ["B", "A"], none, false, false⟩ : PropState) :=
    rfl
  rw [hstPF]
  unfold runPass
  rw [show List.range (([c3A, c3B', c3C] : List Vertex).length) = [0, 1, 2] from rfl]
  rw [List.foldl_cons, List.foldl_cons, List.foldl_cons, List.foldl_nil]
  rw [show passStep [c3AB, c3BC, c3CA]
      (⟨[c3A, c3B', c3C], [c3B', c3C, c3B, c3A], ["B", "A"], none, false, false⟩ : PropState) 0 =
      (⟨[c3A, c3B', c3C], [c3B', c3C, c3B, c3A], ["B", "A"], none, false, false⟩ : PropState)
      from rfl]
  rw [show passStep [c3AB, c3BC, c3CA]
      (⟨[c3A, c3B', c3C], [c3B', c3C, c3B, c3A], ["B", "A"], none, false, false⟩ : PropState) 1 =
      (⟨[c3A, c3B', c3C], [c3B', c3C, c3B, c3A], ["B", "A"], none, false, false⟩ : PropState)
      from rfl]
  have h2 := passStep_error_contained [c3AB, c3BC, c3CA]
    (⟨[c3A, c3B', c3C], [c3B', c3C, c3B, c3A], ["B", "A"], none, false, false⟩ : PropState) 2
    c3BC c3CA [] rfl rfl rfl c3_intersection_eval
  rw [h2]
  rfl

theorem c3_core_eval : solveCore c3Poly = some (c3AB, c3A, c3B, c3st1) := by
  unfold solveCore
  dsimp only
  rw [show substituteAngles c3Poly = [c3AB, c3BC, c3CA] from rfl]
  rw [show ([c3AB, c3BC, c3CA].find? (fun e =>
      (vmapGet c3Poly.vertices.reverse e.startVertexId).isSome &&
      (vmapGet c3Poly.vertices.reverse e.endVertexId).isSome)) = some c3AB from rfl]
  dsimp only
  rw [show ((vmapGet c3Poly.vertices.reverse c3AB.startVertexId).getD default) = c3A from rfl]
  rw [show ((vmapGet c3Poly.vertices.reverse c3AB.endVertexId).getD default) = c3B from rfl]
  rw [c3_seedState_eval]
  rw [show c3Poly.vertices.length = 3 from rfl]
  have hloop : runLoop [c3AB, c3BC, c3CA] (3 + 1) c3st0 = c3st1 := by
    rw [runLoop]
    rw [if_pos (show c3st0.progress = true from rfl)]
    rw [c3_pass_eval]
    exact runLoop_of_progress_false _ 3 _ rfl
  rw [hloop]

/-- C3 (amended): when the solver fails with a `metricError`, the
RECONSTRUCT_GEOMETRY case leaves the polygon unlocked, and every vertex the
wavefront never solved keeps its exact original position with
`solved = false`; but vertices the run did reach (the seed pair and any
vertex placed before the failure) can be repositioned, so a failed solve
does not leave the whole polygon at its prior positions. -/
theorem C3_failed_solve_amended (p : Polygon) (se : Edge) (v0 v1 : Vertex)
    (stF : PropState) (hlen : ¬ p.vertices.length < 3)
    (hcore : solveCore p = some (se, v0, v1, stF)) :
    ((solveGeometry p).metricError.isSome = true →
      (reconstructPolygon p).isLocked = false) ∧
    (∀ v ∈ p.vertices, v.id ∉ stF.solved →
      ({ v with solved := false } : Vertex) ∈ (solveGeometry p).polygon.vertices) := by
  constructor
  · intro h
    obtain ⟨msg, hmsg⟩ := Option.isSome_iff_exists.mp h
    unfold reconstructPolygon
    dsimp only
    rw [hmsg]
  · intro v hv hns
    obtain ⟨hfind, _, _, hst⟩ := solveCore_inv hcore
    have hvne : v.id ≠ v1.id := by
      intro hc
      apply hns
      rw [hst, hc]
      exact runLoop_solved_mono _ _ _ (by simp [seedState])
    have hmem0 : v ∈ (seedState p se v0 v1).vertices := by
      unfold seedState
      dsimp only
      refine List.mem_map.mpr ⟨v, hv, ?_⟩
      rw [if_neg (by simpa using hvne)]
    have hms : v ∈ stF.vertices ∨ v.id ∈ stF.solved := by
      rw [hst]
      exact runLoop_mem_or_solved _ _ _ v (Or.inl hmem0)
    have hmem : v ∈ stF.vertices := hms.resolve_right hns
    unfold solveGeometry
    rw [if_neg hlen, hcore]
    dsimp only
    refine List.mem_map.mpr ⟨v, hmem, ?_⟩
    rw [if_neg (fun hc => hns (List.mem_of_elem_eq_true hc))]

/-- Witness for C3: the amended property at the impossible-lengths
triangle. -/
theorem C3_failed_solve_amended_witness :
    ((solveGeometry c3Poly).metricError.isSome = true →
      (reconstructPolygon c3Poly).isLocked = false) ∧
    (∀ v ∈ c3Poly.vertices, v.id ∉ c3st1.solved →
      ({ v with solved := false } : Vertex) ∈ (solveGeometry c3Poly).polygon.vertices) :=
  C3_failed_solve_amended c3Poly c3AB c3A c3B c3st1 (by decide) c3_core_eval

/-- C3 counterexample: on the impossible-lengths triangle the solve fails
(`metricError` is set), yet the seed vertex B has been moved from x = 1 to
x = 100, and vertex A still carries `solved = true`; the claim's "every
vertex keeps its position and every vertex has solved=false" is false. -/
theorem C3_counterexample_failed_solve_moves_seed :
    (solveGeometry c3Poly).metricError.isSome = true ∧
    ((solveGeometry c3Poly).polygon.vertices.getD 1 default).x = 100 ∧
    (c3Poly.vertices.getD 1 default).x = 1 ∧
    ((solveGeometry c3Poly).polygon.vertices.getD 0 default).solved = true := by
  unfold solveGeometry
  rw [if_neg (show ¬ c3Poly.vertices.length < 3 by decide), c3_core_eval]
  exact ⟨rfl, rfl, rfl, rfl⟩

/-! ## C9: re-solving a solved polygon.  Small helpers first. -/

theorem Vertex.ext_fields : ∀ {v w : Vertex}, v.id = w.id → v.x = w.x → v.y = w.y →
    v.label = w.label → v.solved = w.solved → v.fixedAngle = w.fixedAngle → v = w
  | ⟨_, _, _, _, _, _⟩, ⟨_, _, _, _, _, _⟩, rfl, rfl, rfl, rfl, rfl, rfl => rfl

theorem distance_self (p : Point) : distance p p = 0 := by
  unfold distance
  simp

theorem distance_nonneg (p q : Point) : 0 ≤ distance p q := Real.sqrt_nonneg _

theorem distance_eq_zero {p q : Point} (h : distance p q = 0) : q = p := by
  unfold distance at h
  rw [Real.sqrt_eq_zero'] at h
  have hx : (q.x - p.x) ^ 2 = 0 := by nlinarith [sq_nonneg (q.x - p.x), sq_nonneg (q.y - p.y)]
  have hy : (q.y - p.y) ^ 2 = 0 := by nlinarith [sq_nonneg (q.x - p.x), sq_nonneg (q.y - p.y)]
  have hx' := sq_eq_zero_iff.mp hx
  have hy' := sq_eq_zero_iff.mp hy
  apply Point.ext_xy <;> linarith

theorem list_set_eq_self {α : Type} {l : List α} {i : ℕ} {a : α}
    (h : ∀ (hi : i < l.length), l.get ⟨i, hi⟩ = a) : l.set i a = l := by
  by_cases hi : i < l.length
  · apply List.ext_getElem (by simp)
    intro k hk1 hk2
    rw [List.getElem_set]
    split
    · rename_i hik
      subst hik
      exact (h hi).symm
    · rfl
  · exact List.set_eq_of_length_le (by omega)

theorem list_mem_set_self {α : Type} {l : List α} {i : ℕ} (hi : i < l.length) (a : α) :
    a ∈ l.set i a := by
  refine List.mem_iff_getElem.mpr ⟨i, by simpa using hi, ?_⟩
  rw [List.getElem_set]
  rw [if_pos rfl]

theorem find?_congr_mem {α : Type} {p q : α → Bool} :
    ∀ (l : List α), (∀ a ∈ l, p a = q a) → l.find? p = l.find? q := by
  intro l
  induction l with
  | nil => intro _; rfl
  | cons a t ih =>
    intro h
    have ha := h a (List.mem_cons_self a t)
    cases hpa : p a with
    | false =>
      rw [List.find?_cons_of_neg _ (by rw [hpa]; exact Bool.false_ne_true),
        List.find?_cons_of_neg _ (by rw [← ha, hpa]; exact Bool.false_ne_true)]
      exact ih (fun b hb => h b (List.mem_cons_of_mem a hb))
    | true =>
      rw [List.find?_cons_of_pos _ hpa, List.find?_cons_of_pos _ (by rw [← ha]; exact hpa)]

theorem option_eq_some_getD {α : Type} {o : Option α} (h : o.isSome = true) (d : α) :
    o = some (o.getD d) := by
  cases o with
  | none => simp at h
  | some a => rfl

/-- The nearest-intersection choice, re-issued with the chosen point as the
reference, chooses the same point. -/
theorem resolve_choice {i1 i2 o pt : Point} {approx : Bool}
    (h : (if distance i1 o < distance i2 o then CircleResult.success i1 false
          else CircleResult.success i2 false) = .success pt approx) :
    (if distance i1 pt < distance i2 pt then CircleResult.success i1 false
     else CircleResult.success i2 false) = .success pt approx := by
  split at h
  · injection h with h1 h2
    subst h1
    subst h2
    by_cases hdd : distance i1 i1 < distance i2 i1
    · rw [if_pos hdd]
    · rw [if_neg hdd]
      have h0 : distance i2 i1 = 0 := le_antisymm
        (by rw [← distance_self i1]; exact not_lt.mp hdd) (distance_nonneg _ _)
      rw [distance_eq_zero h0]
  · injection h with h1 h2
    subst h1
    subst h2
    rw [if_neg (by rw [distance_self]; exact not_lt.mpr (distance_nonneg _ _))]

/-- Re-solving: a `findIntersection` call re-issued with the point it
previously returned as the new original position returns the same point
with the same approximation flag. -/
theorem findIntersection_resolve (p1 : Point) (r1 : ℝ) (p2 : Point) (r2 : ℝ)
    (o pt : Point) (approx : Bool)
    (h : findIntersection p1 r1 p2 r2 o = .success pt approx) :
    findIntersection p1 r1 p2 r2 pt = .success pt approx := by
  unfold findIntersection at h ⊢
  dsimp only at h ⊢
  by_cases h0 : distance p1 p2 = 0
  · rw [if_pos h0] at h
    exact absurd h (fun hh => CircleResult.noConfusion hh)
  · rw [if_neg h0] at h ⊢
    by_cases hgt : distance p1 p2 > r1 + r2
    · rw [if_pos hgt] at h ⊢
      by_cases hle : distance p1 p2 ≤ r1 + r2 + EPSILON
      · rw [if_pos hle] at h ⊢
        exact h
      · rw [if_neg hle] at h
        exact absurd h (fun hh => CircleResult.noConfusion hh)
    · rw [if_neg hgt] at h ⊢
      by_cases hlt : distance p1 p2 < |r1 - r2|
      · rw [if_pos hlt] at h ⊢
        by_cases hge : distance p1 p2 ≥ |r1 - r2| - EPSILON
        · rw [if_pos hge] at h ⊢
          exact h
        · rw [if_neg hge] at h
          exact absurd h (fun hh => CircleResult.noConfusion hh)
      · rw [if_neg hlt] at h ⊢
        exact resolve_choice h

/-- Polar reconstruction for the JS `Math.atan2`: the angle it returns for
the vector (x, y) has cosine and sine that rebuild x and y when scaled by
the vector's norm. -/
theorem mathAtan2_polar (y x : ℝ) :
    Real.cos (mathAtan2 y x) * Real.sqrt (x ^ 2 + y ^ 2) = x ∧
    Real.sin (mathAtan2 y x) * Real.sqrt (x ^ 2 + y ^ 2) = y := by
  unfold mathAtan2
  by_cases hx : 0 < x
  · rw [if_pos hx]
    have hxne : x ≠ 0 := ne_of_gt hx
    have hS : Real.sqrt (x ^ 2 + y ^ 2) = Real.sqrt (1 + (y / x) ^ 2) * x := by
      rw [show Real.sqrt (1 + (y / x) ^ 2) * x =
          Real.sqrt (1 + (y / x) ^ 2) * Real.sqrt (x ^ 2) by rw [Real.sqrt_sq hx.le]]
      rw [← Real.sqrt_mul (by positivity)]
      congr 1
      field_simp <;> ring
    have hne : Real.sqrt (1 + (y / x) ^ 2) ≠ 0 := by positivity
    constructor
    · rw [Real.cos_arctan, hS]
      field_simp
    · rw [Real.sin_arctan, hS]
      field_simp <;> ring
  · by_cases hx' : x < 0
    · rw [if_neg hx, if_pos hx']
      have hxne : x ≠ 0 := ne_of_lt hx'
      have hS : Real.sqrt (x ^ 2 + y ^ 2) = Real.sqrt (1 + (y / x) ^ 2) * (-x) := by
        rw [show Real.sqrt (1 + (y / x) ^ 2) * (-x) =
            Real.sqrt (1 + (y / x) ^ 2) * Real.sqrt (x ^ 2) by
          rw [Real.sqrt_sq_eq_abs, abs_of_neg hx']]
        rw [← Real.sqrt_mul (by positivity)]
        congr 1
        field_simp <;> ring
      have hne : Real.sqrt (1 + (y / x) ^ 2) ≠ 0 := by positivity
      by_cases hy : y < 0
      · rw [if_pos hy]
        constructor
        · rw [Real.cos_sub_pi, Real.cos_arctan, hS]
          field_simp <;> ring
        · rw [Real.sin_sub_pi, Real.sin_arctan, hS]
          field_simp <;> ring
      · rw [if_neg hy]
        constructor
        · rw [Real.cos_add_pi, Real.cos_arctan, hS]
          field_simp <;> ring
        · rw [Real.sin_add_pi, Real.sin_arctan, hS]
          field_simp <;> ring
    · have hx0 : x = 0 := le_antisymm (not_lt.mp hx) (not_lt.mp hx')
      subst hx0
      rw [if_neg hx, if_neg hx']
      by_cases hy : 0 < y
      · rw [if_pos hy]
        rw [Real.cos_pi_div_two, Real.sin_pi_div_two]
        constructor
        · ring
        · rw [show (0 : ℝ) ^ 2 + y ^ 2 = y ^ 2 by ring, Real.sqrt_sq hy.le]
          ring
      · by_cases hy' : y < 0
        · rw [if_neg hy, if_pos hy']
          rw [Real.cos_neg, Real.sin_neg, Real.cos_pi_div_two, Real.sin_pi_div_two]
          constructor
          · ring
          · rw [show (0 : ℝ) ^ 2 + y ^ 2 = y ^ 2 by ring, Real.sqrt_sq_eq_abs,
              abs_of_neg hy']
            ring
        · have hy0 : y = 0 := le_antisymm (not_lt.mp hy) (not_lt.mp hy')
          subst hy0
          rw [if_neg hy, if_neg hy']
          rw [Real.cos_zero, Real.sin_zero]
          constructor
          · rw [show (0 : ℝ) ^ 2 + 0 ^ 2 = 0 by ring, Real.sqrt_zero]
            ring
          · ring

/-- Re-seeding an already-seeded vertex is the identity (for a nonnegative
measured length): the second seed vertex stays where the first run put
it. -/
theorem seedVertex_iterate (v0 v1 : Vertex) (se : Edge) (hL : 0 ≤ se.length) :
    seedVertex v0 (seedVertex v0 v1 se) se = seedVertex v0 v1 se := by
  have hL' : 0 ≤ se.length * PIXELS_PER_METER := by
    unfold PIXELS_PER_METER
    exact mul_nonneg hL (by norm_num)
  unfold seedVertex
  dsimp only
  rw [show v0.y + Real.sin (mathAtan2 (v1.y - v0.y) (v1.x - v0.x)) *
        (se.length * PIXELS_PER_METER) - v0.y =
      Real.sin (mathAtan2 (v1.y - v0.y) (v1.x - v0.x)) *
        (se.length * PIXELS_PER_METER) by ring,
      show v0.x + Real.cos (mathAtan2 (v1.y - v0.y) (v1.x - v0.x)) *
        (se.length * PIXELS_PER_METER) - v0.x =
      Real.cos (mathAtan2 (v1.y - v0.y) (v1.x - v0.x)) *
        (se.length * PIXELS_PER_METER) by ring]
  have hpolar := mathAtan2_polar
    (Real.sin (mathAtan2 (v1.y - v0.y) (v1.x - v0.x)) * (se.length * PIXELS_PER_METER))
    (Real.cos (mathAtan2 (v1.y - v0.y) (v1.x - v0.x)) * (se.length * PIXELS_PER_METER))
  have hS : Real.sqrt
      ((Real.cos (mathAtan2 (v1.y - v0.y) (v1.x - v0.x)) *
          (se.length * PIXELS_PER_METER)) ^ 2 +
       (Real.sin (mathAtan2 (v1.y - v0.y) (v1.x - v0.x)) *
          (se.length * PIXELS_PER_METER)) ^ 2) = se.length * PIXELS_PER_METER := by
    rw [show (Real.cos (mathAtan2 (v1.y - v0.y) (v1.x - v0.x)) *
          (se.length * PIXELS_PER_METER)) ^ 2 +
        (Real.sin (mathAtan2 (v1.y - v0.y) (v1.x - v0.x)) *
          (se.length * PIXELS_PER_METER)) ^ 2 = (se.length * PIXELS_PER_METER) ^ 2 by
      have hsc := Real.sin_sq_add_cos_sq (mathAtan2 (v1.y - v0.y) (v1.x - v0.x))
      nlinarith [hsc]]
    exact Real.sqrt_sq hL'
  rw [hS] at hpolar
  apply Vertex.ext_fields
  · rfl
  · dsimp only
    rw [hpolar.1]
  · dsimp only
    rw [hpolar.2]
  · rfl
  · rfl
  · rfl

/-- The angle-substitution step depends only on the vertex's id and
fixedAngle. -/
theorem substituteStep_congr (allEdges acc : List Edge) {v w : Vertex}
    (hid : v.id = w.id) (hfa : v.fixedAngle = w.fixedAngle) :
    substituteStep allEdges acc v = substituteStep allEdges acc w := by
  unfold substituteStep
  rw [hfa, hid]

theorem substituteFold_congr (allEdges : List Edge) :
    ∀ (l1 : List Vertex) (acc : List Edge) (l2 : List Vertex),
    l1.map (fun v => (v.id, v.fixedAngle)) = l2.map (fun v => (v.id, v.fixedAngle)) →
    l1.foldl (substituteStep allEdges) acc = l2.foldl (substituteStep allEdges) acc := by
  intro l1
  induction l1 with
  | nil =>
    intro acc l2 h
    cases l2 with
    | nil => rfl
    | cons w t2 => simp at h
  | cons v t ih =>
    intro acc l2 h
    cases l2 with
    | nil => simp at h
    | cons w t2 =>
      simp only [List.map_cons, List.cons.injEq, Prod.mk.injEq] at h
      obtain ⟨⟨hid, hfa⟩, ht⟩ := h
      rw [List.foldl_cons, List.foldl_cons, substituteStep_congr allEdges acc hid hfa]
      exact ih _ t2 ht

/-- The effective edge set depends only on the edges and the vertices' ids
and fixedAngles. -/
theorem substituteAngles_congr {p q : Polygon} (hedges : q.edges = p.edges)
    (hkeys : q.vertices.map vertexKey = p.vertices.map vertexKey) :
    substituteAngles q = substituteAngles p := by
  unfold substituteAngles
  rw [hedges]
  apply substituteFold_congr
  have h1 := congrArg (List.map (fun k : String × String × Option ℝ => (k.1, k.2.2))) hkeys
  simpa [List.map_map, Function.comp, vertexKey] using h1

theorem vmapGet_isSome_congr :
    ∀ {l1 l2 : List Vertex}, l1.map Vertex.id = l2.map Vertex.id →
    ∀ vid, (vmapGet l1 vid).isSome = (vmapGet l2 vid).isSome := by
  intro l1
  induction l1 with
  | nil =>
    intro l2 h vid
    cases l2 with
    | nil => rfl
    | cons w t2 => simp at h
  | cons v t ih =>
    intro l2 h vid
    cases l2 with
    | nil => simp at h
    | cons w t2 =>
      simp only [List.map_cons, List.cons.injEq] at h
      obtain ⟨hid, ht⟩ := h
      unfold vmapGet
      cases hb : (v.id == vid) with
      | true =>
        rw [@List.find?_cons_of_pos _ (fun u : Vertex => u.id == vid) v t hb,
          @List.find?_cons_of_pos _ (fun u : Vertex => u.id == vid) w t2
            (by show (w.id == vid) = true; rw [← hid]; exact hb)]
        rfl
      | false =>
        rw [@List.find?_cons_of_neg _ (fun u : Vertex => u.id == vid) v t
            (by show ¬(v.id == vid) = true; rw [hb]; exact Bool.false_ne_true),
          @List.find?_cons_of_neg _ (fun u : Vertex => u.id == vid) w t2
            (by show ¬(w.id == vid) = true; rw [← hid, hb]; exact Bool.false_ne_true)]
        exact ih ht vid

/-- With pairwise-distinct ids, a member is exactly what its id looks up. -/
theorem vmapGet_of_nodup {l : List Vertex} (hnd : (l.map Vertex.id).Nodup) {w : Vertex}
    (hw : w ∈ l) : vmapGet l w.id = some w := by
  have hs : (l.find? (fun v => v.id == w.id)).isSome = true := by
    rw [List.find?_isSome]
    exact ⟨w, hw, by simp⟩
  obtain ⟨u, hu⟩ := Option.isSome_iff_exists.mp hs
  obtain ⟨hum, huid⟩ := vmapGet_mem hu
  unfold vmapGet
  rw [hu]
  exact congrArg some (vertex_eq_of_id_nodup hnd hum hw huid)

theorem vmapGet_cons_ne {m : List Vertex} {v : Vertex} {a : String} (h : v.id ≠ a) :
    vmapGet (v :: m) a = vmapGet m a := by
  unfold vmapGet
  exact List.find?_cons_of_neg _ (by simp only [beq_iff_eq]; exact h)

theorem vmapGet_cons_self {m : List Vertex} {v : Vertex} {a : String} (h : v.id = a) :
    vmapGet (v :: m) a = some v := by
  unfold vmapGet
  exact List.find?_cons_of_pos _ (by simp only [beq_iff_eq]; exact h)

/-- Stability: once a vertex id is solved, its map entry and its vertex
record survive any further pass step untouched. -/
theorem passStep_ST (E : List Edge) (st : PropState) (j : ℕ) {a : String} {w : Vertex}
    (ha : a ∈ st.solved) (hw : vmapGet st.vmap a = some w) (hwm : w ∈ st.vertices) :
    a ∈ (passStep E st j).solved ∧ vmapGet (passStep E st j).vmap a = some w ∧
      w ∈ (passStep E st j).vertices := by
  rcases passStep_cases E st j with h | ⟨⟨msg, h⟩, _⟩ | ⟨pt, approx, h, hns⟩ <;> rw [h]
  · exact ⟨ha, hw, hwm⟩
  · exact ⟨ha, hw, hwm⟩
  · have hta : (st.vertices.getD j default).id ≠ a := fun hc => hns (hc ▸ ha)
    refine ⟨List.mem_cons_of_mem _ ha, ?_, ?_⟩
    · dsimp only
      rw [vmapGet_cons_ne (show ({ st.vertices.getD j default with
          x := pt.x, y := pt.y, solved := true } : Vertex).id ≠ a from hta)]
      exact hw
    · have hwid : w.id = a := (vmapGet_mem hw).2
      rcases List.mem_iff_getElem.mp hwm with ⟨k, hk, hkv⟩
      by_cases hik : st.vertices.findIdx
          (fun v => v.id == (st.vertices.getD j default).id) = k
      · exfalso
        have hlt : st.vertices.findIdx
            (fun v => v.id == (st.vertices.getD j default).id) < st.vertices.length := by
          omega
        have hpred := List.findIdx_getElem (w := hlt)
        simp only [beq_iff_eq] at hpred
        simp only [hik] at hpred
        rw [hkv] at hpred
        exact hta (hpred ▸ hwid)
      · refine List.mem_iff_getElem.mpr ⟨k, by simpa using hk, ?_⟩
        rw [List.getElem_set_ne hik]
        exact hkv

theorem runLoop_ST (E : List Edge) (fuel : ℕ) (st : PropState) {a : String} {w : Vertex}
    (ha : a ∈ st.solved) (hw : vmapGet st.vmap a = some w) (hwm : w ∈ st.vertices) :
    a ∈ (runLoop E fuel st).solved ∧ vmapGet (runLoop E fuel st).vmap a = some w ∧
      w ∈ (runLoop E fuel st).vertices :=
  runLoop_pres E
    (fun s => a ∈ s.solved ∧ vmapGet s.vmap a = some w ∧ w ∈ s.vertices)
    (fun s j _ hP => passStep_ST E s j hP.1 hP.2.1 hP.2.2)
    (fun s hP => hP) fuel st ⟨ha, hw, hwm⟩

theorem foldl_ST (E : List Edge) (js : List ℕ) (st : PropState) {a : String} {w : Vertex}
    (hb : ∀ j ∈ js, j < st.vertices.length)
    (ha : a ∈ st.solved) (hw : vmapGet st.vmap a = some w) (hwm : w ∈ st.vertices) :
    a ∈ (js.foldl (passStep E) st).solved ∧
      vmapGet (js.foldl (passStep E) st).vmap a = some w ∧
      w ∈ (js.foldl (passStep E) st).vertices :=
  foldl_passStep_pres E
    (fun s => a ∈ s.solved ∧ vmapGet s.vmap a = some w ∧ w ∈ s.vertices)
    (fun s j _ hP => passStep_ST E s j hP.1 hP.2.1 hP.2.2)
    js st hb ⟨ha, hw, hwm⟩

theorem foldl_latch (E : List Edge) (js : List ℕ) (st : PropState)
    (h : st.metricError.isSome = true) :
    (js.foldl (passStep E) st).metricError.isSome = true := by
  induction js generalizing st with
  | nil => exact h
  | cons j js ih => exact ih _ (passStep_latch E st j h)

/-- Branch evaluation: the target is already solved. -/
theorem passStep_skip (E : List Edge) (st : PropState) (j : ℕ)
    (hc : st.solved.contains (st.vertices.getD j default).id = true) :
    passStep E st j = st := by
  unfold passStep
  dsimp only
  rw [if_pos hc]

/-- Branch evaluation: fewer than two usable edges. -/
theorem passStep_short (E : List Edge) (st : PropState) (j : ℕ) (l : List Edge)
    (hc : st.solved.contains (st.vertices.getD j default).id = false)
    (hconn : E.filter (fun e =>
      (e.startVertexId == (st.vertices.getD j default).id &&
        st.solved.contains e.endVertexId) ||
      (e.endVertexId == (st.vertices.getD j default).id &&
        st.solved.contains e.startVertexId)) = l)
    (hl : l = [] ∨ ∃ e, l = [e]) :
    passStep E st j = st := by
  unfold passStep
  dsimp only
  rw [if_neg (by simp only [hc]; exact Bool.false_ne_true)]
  rw [hconn]
  rcases hl with rfl | ⟨e, rfl⟩ <;> rfl

/-- Branch evaluation: a successful intersection places the target. -/
theorem passStep_success (E : List Edge) (st : PropState) (j : ℕ)
    (e1 e2 : Edge) (rest : List Edge) (pt : Point) (approx : Bool)
    (hc : st.solved.contains (st.vertices.getD j default).id = false)
    (hconn : E.filter (fun e =>
      (e.startVertexId == (st.vertices.getD j default).id &&
        st.solved.contains e.endVertexId) ||
      (e.endVertexId == (st.vertices.getD j default).id &&
        st.solved.contains e.startVertexId)) = e1 :: e2 :: rest)
    (hfi : findIntersection
      ((vmapGet st.vmap (if e1.startVertexId == (st.vertices.getD j default).id
        then e1.endVertexId else e1.startVertexId)).getD default).pos
      (e1.length * PIXELS_PER_METER)
      ((vmapGet st.vmap (if e2.startVertexId == (st.vertices.getD j default).id
        then e2.endVertexId else e2.startVertexId)).getD default).pos
      (e2.length * PIXELS_PER_METER)
      (st.vertices.getD j default).pos = .success pt approx) :
    passStep E st j = { st with
      vertices := st.vertices.set
        (st.vertices.findIdx (fun v => v.id == (st.vertices.getD j default).id))
        { st.vertices.getD j default with x := pt.x, y := pt.y, solved := true },
      vmap := { st.vertices.getD j default with x := pt.x, y := pt.y, solved := true }
        :: st.vmap,
      solved := (st.vertices.getD j default).id :: st.solved,
      isApproximated := st.isApproximated || approx,
      progress := true } := by
  unfold passStep
  dsimp only
  rw [if_neg (by simp only [hc]; exact Bool.false_ne_true)]
  rw [hconn]
  dsimp only
  rw [hfi]

/-- Branch evaluation: a failed intersection leaves the error flag set. -/
theorem passStep_error_isSome (E : List Edge) (st : PropState) (j : ℕ)
    (e1 e2 : Edge) (rest : List Edge) (code : CircleCode)
    (hc : st.solved.contains (st.vertices.getD j default).id = false)
    (hconn : E.filter (fun e =>
      (e.startVertexId == (st.vertices.getD j default).id &&
        st.solved.contains e.endVertexId) ||
      (e.endVertexId == (st.vertices.getD j default).id &&
        st.solved.contains e.startVertexId)) = e1 :: e2 :: rest)
    (hfi : findIntersection
      ((vmapGet st.vmap (if e1.startVertexId == (st.vertices.getD j default).id
        then e1.endVertexId else e1.startVertexId)).getD default).pos
      (e1.length * PIXELS_PER_METER)
      ((vmapGet st.vmap (if e2.startVertexId == (st.vertices.getD j default).id
        then e2.endVertexId else e2.startVertexId)).getD default).pos
      (e2.length * PIXELS_PER_METER)
      (st.vertices.getD j default).pos = .error code) :
    (passStep E st j).metricError.isSome = true := by
  unfold passStep
  dsimp only
  rw [if_neg (by simp only [hc]; exact Bool.false_ne_true)]
  rw [hconn]
  dsimp only
  rw [hfi]
  dsimp only
  by_cases hm : st.metricError.isSome = true
  · rw [if_pos hm]
    exact hm
  · rw [if_neg hm]
    cases code <;> rfl

/-- In the connectivity filter of a pass, the far neighbour of a kept edge
is always solved (the target itself is not). -/
theorem connected_pred_solved {e : Edge} {tid : String} {solved : List String}
    (ht : solved.contains tid = false)
    (hp : ((e.startVertexId == tid && solved.contains e.endVertexId) ||
           (e.endVertexId == tid && solved.contains e.startVertexId)) = true) :
    solved.contains
      (if e.startVertexId == tid then e.endVertexId else e.startVertexId) = true := by
  simp only [Bool.or_eq_true, Bool.and_eq_true] at hp
  by_cases hs : (e.startVertexId == tid) = true
  · rw [if_pos hs]
    rcases hp with ⟨_, h2⟩ | ⟨h1, h2⟩
    · exact h2
    · exfalso
      have : solved.contains tid = true := by
        rw [← beq_iff_eq.mp hs]
        exact h2
      rw [ht] at this
      exact Bool.false_ne_true this
  · rw [if_neg hs]
    rcases hp with ⟨h1, _⟩ | ⟨_, h2⟩
    · exact absurd h1 hs
    · exact h2

/-- One step of the lockstep simulation: under the invariant, with the
knowledge that records solved after this step persist into `sF` and that a
latched error would persist into `sF` (whose error slot is empty), the two
runs take the same branch and preserve the invariant. -/
theorem passStep_lockstep (E : List Edge) (Pids : List String) (hFnodup : Pids.Nodup)
    (sF : PropState) (hFnone : sF.metricError = none)
    (hFids : sF.vertices.map Vertex.id = Pids)
    (s1 s2 : PropState) (j : ℕ) (hj : j < s1.vertices.length)
    (hR : LockRel Pids sF s1 s2)
    (hsuf : ∀ (a : String) (w : Vertex), a ∈ (passStep E s1 j).solved →
      vmapGet (passStep E s1 j).vmap a = some w → w ∈ (passStep E s1 j).vertices →
      w ∈ sF.vertices)
    (hlatch : (passStep E s1 j).metricError.isSome = true →
      sF.metricError.isSome = true) :
    LockRel Pids sF (passStep E s1 j) (passStep E s2 j) := by
  obtain ⟨hsolv, hprog, happr, hm2, hm1, hv2, hids1, hvm⟩ := hR
  have hlen1 : s1.vertices.length = Pids.length := by rw [← hids1]; simp
  have hlenF : sF.vertices.length = Pids.length := by rw [← hFids]; simp
  have hj2 : j < s2.vertices.length := by rw [hv2]; omega
  have ht1 : s1.vertices.getD j default = s1.vertices[j] := List.getD_eq_getElem _ _ hj
  have ht2 : s2.vertices.getD j default = s2.vertices[j] := List.getD_eq_getElem _ _ hj2
  have htid : (s2.vertices.getD j default).id = (s1.vertices.getD j default).id := by
    have h0 : (s2.vertices.map Vertex.id).getD j "" =
        (s1.vertices.map Vertex.id).getD j "" := by
      rw [hv2, hFids, hids1]
    rw [List.getD_eq_getElem _ _ (by simpa using hj2),
        List.getD_eq_getElem _ _ (by simpa using hj),
        List.getElem_map, List.getElem_map] at h0
    rw [ht1, ht2]
    exact h0
  by_cases hcont : s1.solved.contains (s1.vertices.getD j default).id = true
  · rw [passStep_skip E s1 j hcont, passStep_skip E s2 j (by rw [htid, hsolv]; exact hcont)]
    exact ⟨hsolv, hprog, happr, hm2, hm1, hv2, hids1, hvm⟩
  · have hcontf : s1.solved.contains (s1.vertices.getD j default).id = false := by
      cases hcv : s1.solved.contains (s1.vertices.getD j default).id
      · rfl
      · exact absurd hcv hcont
    have hnotin : (s1.vertices.getD j default).id ∉ s1.solved := by
      intro hm
      have htrue : s1.solved.contains (s1.vertices.getD j default).id = true :=
        List.elem_eq_true_of_mem hm
      rw [hcontf] at htrue
      exact Bool.noConfusion htrue
    have hcont2 : s2.solved.contains (s2.vertices.getD j default).id = false := by
      rw [htid, hsolv]
      exact hcontf
    have hfeq : E.filter (fun e =>
        (e.startVertexId == (s2.vertices.getD j default).id &&
          s2.solved.contains e.endVertexId) ||
        (e.endVertexId == (s2.vertices.getD j default).id &&
          s2.solved.contains e.startVertexId)) =
      E.filter (fun e =>
        (e.startVertexId == (s1.vertices.getD j default).id &&
          s1.solved.contains e.endVertexId) ||
        (e.endVertexId == (s1.vertices.getD j default).id &&
          s1.solved.contains e.startVertexId)) := by
      apply List.filter_congr
      intro e _
      rw [htid, hsolv]
    rcases hconn : E.filter (fun e =>
        (e.startVertexId == (s1.vertices.getD j default).id &&
          s1.solved.contains e.endVertexId) ||
        (e.endVertexId == (s1.vertices.getD j default).id &&
          s1.solved.contains e.startVertexId)) with _ | ⟨e1, rest1⟩
    · rw [passStep_short E s1 j [] hcontf hconn (Or.inl rfl),
        passStep_short E s2 j [] hcont2 (by rw [hfeq]; exact hconn) (Or.inl rfl)]
      exact ⟨hsolv, hprog, happr, hm2, hm1, hv2, hids1, hvm⟩
    · rcases rest1 with _ | ⟨e2, rest⟩
      · rw [passStep_short E s1 j [e1] hcontf hconn (Or.inr ⟨e1, rfl⟩),
          passStep_short E s2 j [e1] hcont2 (by rw [hfeq]; exact hconn)
            (Or.inr ⟨e1, rfl⟩)]
        exact ⟨hsolv, hprog, happr, hm2, hm1, hv2, hids1, hvm⟩
      · have hconn2 : E.filter (fun e =>
            (e.startVertexId == (s2.vertices.getD j default).id &&
              s2.solved.contains e.endVertexId) ||
            (e.endVertexId == (s2.vertices.getD j default).id &&
              s2.solved.contains e.startVertexId)) = e1 :: e2 :: rest := by
          rw [hfeq]
          exact hconn
        have he1mem : e1 ∈ E.filter (fun e =>
            (e.startVertexId == (s1.vertices.getD j default).id &&
              s1.solved.contains e.endVertexId) ||
            (e.endVertexId == (s1.vertices.getD j default).id &&
              s1.solved.contains e.startVertexId)) := by
          rw [hconn]
          exact List.mem_cons_self _ _
        have he2mem : e2 ∈ E.filter (fun e =>
            (e.startVertexId == (s1.vertices.getD j default).id &&
              s1.solved.contains e.endVertexId) ||
            (e.endVertexId == (s1.vertices.getD j default).id &&
              s1.solved.contains e.startVertexId)) := by
          rw [hconn]
          exact List.mem_cons_of_mem _ (List.mem_cons_self _ _)
        have hp1 : ((e1.startVertexId == (s1.vertices.getD j default).id &&
            s1.solved.contains e1.endVertexId) ||
            (e1.endVertexId == (s1.vertices.getD j default).id &&
            s1.solved.contains e1.startVertexId)) = true := (List.mem_filter.mp he1mem).2
        have hp2 : ((e2.startVertexId == (s1.vertices.getD j default).id &&
            s1.solved.contains e2.endVertexId) ||
            (e2.endVertexId == (s1.vertices.getD j default).id &&
            s1.solved.contains e2.startVertexId)) = true := (List.mem_filter.mp he2mem).2
        have hs1 := connected_pred_solved hcontf hp1
        have hs2a := connected_pred_solved hcontf hp2
        obtain ⟨w1, hw1a, hw1b⟩ := hvm _ (List.mem_of_elem_eq_true hs1)
        obtain ⟨w2, hw2a, hw2b⟩ := hvm _ (List.mem_of_elem_eq_true hs2a)
        cases hres : findIntersection
            ((vmapGet s1.vmap (if e1.startVertexId == (s1.vertices.getD j default).id
              then e1.endVertexId else e1.startVertexId)).getD default).pos
            (e1.length * PIXELS_PER_METER)
            ((vmapGet s1.vmap (if e2.startVertexId == (s1.vertices.getD j default).id
              then e2.endVertexId else e2.startVertexId)).getD default).pos
            (e2.length * PIXELS_PER_METER)
            (s1.vertices.getD j default).pos with
        | error code =>
          exfalso
          have hiso := passStep_error_isSome E s1 j e1 e2 rest code hcontf hconn hres
          have hcontr := hlatch hiso
          rw [hFnone] at hcontr
          exact Bool.noConfusion hcontr
        | success pt approx =>
          have hstep1 := passStep_success E s1 j e1 e2 rest pt approx hcontf hconn hres
          have hidlt : s1.vertices.findIdx
              (fun v => v.id == (s1.vertices.getD j default).id) < s1.vertices.length :=
            List.findIdx_lt_length_of_exists
              ⟨s1.vertices.getD j default, by rw [ht1]; exact List.getElem_mem hj, by simp⟩
          have hmemNew : ({ s1.vertices.getD j default with
              x := pt.x, y := pt.y, solved := true } : Vertex) ∈
              (passStep E s1 j).vertices := by
            rw [hstep1]
            dsimp only
            exact list_mem_set_self hidlt _
          have hvmNew : vmapGet (passStep E s1 j).vmap
              ((s1.vertices.getD j default).id) = some ({ s1.vertices.getD j default with
              x := pt.x, y := pt.y, solved := true } : Vertex) := by
            rw [hstep1]
            dsimp only
            exact vmapGet_cons_self rfl
          have hsolNew : (s1.vertices.getD j default).id ∈ (passStep E s1 j).solved := by
            rw [hstep1]
            exact List.mem_cons_self _ _
          have hWF : ({ s1.vertices.getD j default with
              x := pt.x, y := pt.y, solved := true } : Vertex) ∈ sF.vertices :=
            hsuf _ _ hsolNew hvmNew hmemNew
          have hFnd : (sF.vertices.map Vertex.id).Nodup := by
            rw [hFids]
            exact hFnodup
          have ht2mem : s2.vertices.getD j default ∈ sF.vertices := by
            rw [← hv2, ht2]
            exact List.getElem_mem hj2
          have ht2eq : s2.vertices.getD j default = ({ s1.vertices.getD j default with
              x := pt.x, y := pt.y, solved := true } : Vertex) :=
            vertex_eq_of_id_nodup hFnd ht2mem hWF (by rw [htid])
          have hres' : findIntersection w1.pos (e1.length * PIXELS_PER_METER)
              w2.pos (e2.length * PIXELS_PER_METER)
              (s1.vertices.getD j default).pos = .success pt approx := by
            rw [hw1a, hw2a] at hres
            simp only [Option.getD_some] at hres
            exact hres
          have hcall2 : findIntersection
              ((vmapGet s2.vmap (if e1.startVertexId == (s2.vertices.getD j default).id
                then e1.endVertexId else e1.startVertexId)).getD default).pos
              (e1.length * PIXELS_PER_METER)
              ((vmapGet s2.vmap (if e2.startVertexId == (s2.vertices.getD j default).id
                then e2.endVertexId else e2.startVertexId)).getD default).pos
              (e2.length * PIXELS_PER_METER)
              (s2.vertices.getD j default).pos = .success pt approx := by
            rw [htid, hw1b, hw2b, ht2eq]
            simp only [Option.getD_some]
            exact findIntersection_resolve _ _ _ _ _ pt approx hres'
          have hstep2 := passStep_success E s2 j e1 e2 rest pt approx hcont2 hconn2 hcall2
          have hnew2 : ({ s2.vertices.getD j default with
              x := pt.x, y := pt.y, solved := true } : Vertex) =
              ({ s1.vertices.getD j default with
              x := pt.x, y := pt.y, solved := true } : Vertex) := by
            rw [ht2eq]
          refine ⟨?_, ?_, ?_, ?_, ?_, ?_, ?_, ?_⟩
          · rw [hstep1, hstep2]
            dsimp only
            rw [htid, hsolv]
          · rw [hstep1, hstep2]
          · rw [hstep1, hstep2]
            dsimp only
            rw [happr]
          · rw [hstep2]
            exact hm2
          · rw [hstep1]
            exact hm1
          · rw [hstep2]
            dsimp only
            rw [hnew2]
            have hset : s2.vertices.set
                (s2.vertices.findIdx (fun v => v.id == (s2.vertices.getD j default).id))
                ({ s1.vertices.getD j default with
                  x := pt.x, y := pt.y, solved := true } : Vertex) = s2.vertices := by
              apply list_set_eq_self
              intro hi
              have hpred := List.findIdx_getElem (w := hi)
              simp only [beq_iff_eq] at hpred
              have hmem2 : s2.vertices.get ⟨s2.vertices.findIdx
                  (fun v => v.id == (s2.vertices.getD j default).id), hi⟩ ∈ sF.vertices := by
                rw [← hv2]
                simp only [List.get_eq_getElem]
                exact List.getElem_mem hi
              apply vertex_eq_of_id_nodup hFnd hmem2 hWF
              simp only [List.get_eq_getElem]
              rw [hpred, htid]
            rw [hset]
            exact hv2
          · rw [passStep_ids]
            exact hids1
          · intro a ha
            rw [hstep1] at ha
            simp only [List.mem_cons] at ha
            rcases ha with rfl | ha
            · refine ⟨({ s1.vertices.getD j default with
                  x := pt.x, y := pt.y, solved := true } : Vertex), hvmNew, ?_⟩
              rw [hstep2]
              dsimp only
              rw [hnew2]
              exact vmapGet_cons_self rfl
            · obtain ⟨w, hwa, hwb⟩ := hvm a ha
              have hane : (s1.vertices.getD j default).id ≠ a := fun hc => hnotin (hc ▸ ha)
              refine ⟨w, ?_, ?_⟩
              · rw [hstep1]
                dsimp only
                rw [vmapGet_cons_ne (show ({ s1.vertices.getD j default with
                    x := pt.x, y := pt.y, solved := true } : Vertex).id ≠ a from hane)]
                exact hwa
              · rw [hstep2]
                dsimp only
                rw [hnew2, vmapGet_cons_ne (show ({ s1.vertices.getD j default with
                    x := pt.x, y := pt.y, solved := true } : Vertex).id ≠ a from hane)]
                exact hwb

/-- The lockstep invariant is preserved through a whole pass, given that
completing the first run from the end of this pass yields `sF`. -/
theorem foldl_lockstep (E : List Edge) (Pids : List String) (hFnodup : Pids.Nodup)
    (sF : PropState) (hFnone : sF.metricError = none)
    (hFids : sF.vertices.map Vertex.id = Pids) (fuelRem : ℕ) :
    ∀ (js : List ℕ) (s1 s2 : PropState),
      (∀ j ∈ js, j < s1.vertices.length) →
      LockRel Pids sF s1 s2 →
      runLoop E fuelRem (js.foldl (passStep E) s1) = sF →
      LockRel Pids sF (js.foldl (passStep E) s1) (js.foldl (passStep E) s2) := by
  intro js
  induction js with
  | nil =>
    intro s1 s2 _ hR _
    exact hR
  | cons j js ih =>
    intro s1 s2 hb hR hsufx
    rw [List.foldl_cons] at hsufx
    have hj : j < s1.vertices.length := hb j (List.mem_cons_self _ _)
    have hbs : ∀ j' ∈ js, j' < (passStep E s1 j).vertices.length := by
      intro j' hj'
      rw [passStep_length]
      exact hb j' (List.mem_cons_of_mem _ hj')
    have hsuf : ∀ (a : String) (w : Vertex), a ∈ (passStep E s1 j).solved →
        vmapGet (passStep E s1 j).vmap a = some w → w ∈ (passStep E s1 j).vertices →
        w ∈ sF.vertices := by
      intro a w ha hw hm
      have h1 := foldl_ST E js (passStep E s1 j) hbs ha hw hm
      have h2 := runLoop_ST E fuelRem (js.foldl (passStep E) (passStep E s1 j))
        h1.1 h1.2.1 h1.2.2
      rw [hsufx] at h2
      exact h2.2.2
    have hlatch : (passStep E s1 j).metricError.isSome = true →
        sF.metricError.isSome = true := by
      intro hiso
      have h1 := foldl_latch E js _ hiso
      have h2 := runLoop_latch E fuelRem _ h1
      rw [hsufx] at h2
      exact h2
    have hstep := passStep_lockstep E Pids hFnodup sF hFnone hFids s1 s2 j hj hR hsuf hlatch
    rw [List.foldl_cons, List.foldl_cons]
    exact ih (passStep E s1 j) (passStep E s2 j) hbs hstep hsufx

/-- The lockstep invariant is preserved through the whole wavefront loop:
when the first run ends in `sF` with no error, the second run ends related
to `sF` by the invariant. -/
theorem runLoop_lockstep (E : List Edge) (Pids : List String) (hFnodup : Pids.Nodup)
    (sF : PropState) (hFnone : sF.metricError = none)
    (hFids : sF.vertices.map Vertex.id = Pids) :
    ∀ (fuel : ℕ) (s1 s2 : PropState),
      LockRel Pids sF s1 s2 →
      runLoop E fuel s1 = sF →
      LockRel Pids sF (runLoop E fuel s1) (runLoop E fuel s2) := by
  intro fuel
  induction fuel with
  | zero =>
    intro s1 s2 hR _
    exact hR
  | succ fuel ih =>
    intro s1 s2 hR hfin
    obtain ⟨hsolv, hprog, happr, hm2, hm1, hv2, hids1, hvm⟩ := hR
    by_cases hp : s1.progress = true
    · have hp2 : s2.progress = true := by rw [hprog]; exact hp
      have hfin' : runLoop E fuel (runPass E { s1 with progress := false }) = sF := by
        rw [runLoop, if_pos hp] at hfin
        exact hfin
      have hlen1 : s1.vertices.length = Pids.length := by rw [← hids1]; simp
      have hlenF : sF.vertices.length = Pids.length := by rw [← hFids]; simp
      have hlen12 : s2.vertices.length = s1.vertices.length := by rw [hv2]; omega
      have hRpf : LockRel Pids sF { s1 with progress := false }
          { s2 with progress := false } :=
        ⟨hsolv, rfl, happr, hm2, hm1, hv2, hids1, hvm⟩
      have hrp2 : runPass E { s2 with progress := false } =
          (List.range s1.vertices.length).foldl (passStep E)
            { s2 with progress := false } := by
        unfold runPass
        rw [show ({ s2 with progress := false } : PropState).vertices.length =
          s1.vertices.length from hlen12]
      have hfold := foldl_lockstep E Pids hFnodup sF hFnone hFids fuel
        (List.range s1.vertices.length) { s1 with progress := false }
        { s2 with progress := false }
        (fun j hj => List.mem_range.mp hj) hRpf
        (by
          show runLoop E fuel (runPass E { s1 with progress := false }) = sF
          exact hfin')
      rw [show runLoop E (fuel + 1) s1 =
            runLoop E fuel (runPass E { s1 with progress := false }) from by
          rw [runLoop, if_pos hp],
        show runLoop E (fuel + 1) s2 =
            runLoop E fuel (runPass E { s2 with progress := false }) from by
          rw [runLoop, if_pos hp2]]
      rw [hrp2]
      exact ih _ _ hfold (by
        show runLoop E fuel (runPass E { s1 with progress := false }) = sF
        exact hfin')
    · have hp1 : s1.progress = false := by
        cases hps : s1.progress
        · rfl
        · exact absurd hps hp
      have hp2 : s2.progress = false := by rw [hprog]; exact hp1
      rw [runLoop_of_progress_false E _ s1 hp1, runLoop_of_progress_false E _ s2 hp2]
      exact ⟨hsolv, hprog, happr, hm2, hm1, hv2, hids1, hvm⟩

/-- The C9 witness fixture's seed: B is already at distance 400 from A
along the positive x axis, so the snap leaves it in place. -/
theorem w_seed_eval : seedVertex wA wB wAB = wB := by
  unfold seedVertex
  have h1 : mathAtan2 (wB.y - wA.y) (wB.x - wA.x) = 0 :=
    mathAtan2_east (by norm_num [wB, wA]) (by norm_num [wB, wA])
  rw [h1]
  rw [show wA.x + Real.cos 0 * (wAB.length * PIXELS_PER_METER) = 400 by
        norm_num [wA, wAB, PIXELS_PER_METER],
      show wA.y + Real.sin 0 * (wAB.length * PIXELS_PER_METER) = 0 by
        norm_num [wA, wAB, PIXELS_PER_METER]]
  rfl

theorem w_seedState_eval : seedState wPoly wAB wA wB = wst0 := by
  unfold seedState
  rw [w_seed_eval]
  rfl

/-- The successful circle intersection of the C9 witness fixture: the
500-circle about B(400,0) meets the 300-circle about A(0,0) at (0, 300) and
(0, -300), and (0, 300) is nearer the original C. -/
theorem w_intersection_eval :
    findIntersection wB.pos (wBC.length * PIXELS_PER_METER) wA.pos
      (wCA.length * PIXELS_PER_METER) wC.pos = .success ⟨0, 300⟩ false := by
  rw [show wBC.length * PIXELS_PER_METER = 500 by norm_num [wBC, PIXELS_PER_METER],
      show wCA.length * PIXELS_PER_METER = 300 by norm_num [wCA, PIXELS_PER_METER]]
  unfold findIntersection
  dsimp only
  rw [show distance wB.pos wA.pos = 400 by
        unfold distance
        rw [show (wA.pos.x - wB.pos.x) ^ 2 + (wA.pos.y - wB.pos.y) ^ 2 = 400 ^ 2 by
          norm_num [wA, wB, Vertex.pos]]
        exact Real.sqrt_sq (by norm_num)]
  rw [if_neg (show ¬(400 : ℝ) = 0 by norm_num)]
  rw [if_neg (show ¬(400 : ℝ) > 500 + 300 by norm_num)]
  rw [if_neg (show ¬(400 : ℝ) < |500 - 300| by
        rw [show (500 : ℝ) - 300 = 200 by norm_num, abs_of_nonneg (show (0:ℝ) ≤ 200 by norm_num)]
        norm_num)]
  rw [show wB.pos.x = (400 : ℝ) from rfl, show wB.pos.y = (0 : ℝ) from rfl,
      show wA.pos.x = (0 : ℝ) from rfl, show wA.pos.y = (0 : ℝ) from rfl]
  rw [show ((500 : ℝ) * 500 - 300 * 300 + 400 * 400) / (2 * 400) = 400 by norm_num]
  rw [show (500 : ℝ) * 500 - 400 * 400 = 90000 by norm_num]
  rw [show max (0 : ℝ) 90000 = 90000 from max_eq_right (by norm_num)]
  rw [show Real.sqrt 90000 = 300 by
        rw [show (90000 : ℝ) = 300 ^ 2 by norm_num]
        exact Real.sqrt_sq (by norm_num)]
  rw [show (400 : ℝ) + 400 * ((0 : ℝ) - 400) / 400 = 0 by norm_num]
  rw [show (0 : ℝ) + 400 * ((0 : ℝ) - 0) / 400 = 0 by norm_num]
  rw [show (0 : ℝ) + 300 * ((0 : ℝ) - 0) / 400 = 0 by norm_num]
  rw [show (0 : ℝ) - 300 * ((0 : ℝ) - 400) / 400 = 300 by norm_num]
  rw [show (0 : ℝ) - 300 * ((0 : ℝ) - 0) / 400 = 0 by norm_num]
  rw [show (0 : ℝ) + 300 * ((0 : ℝ) - 400) / 400 = -300 by norm_num]
  rw [show distance (⟨0, 300⟩ : Point) wC.pos = 0 by
        unfold distance
        rw [show (wC.pos.x - (⟨0, 300⟩ : Point).x) ^ 2 +
              (wC.pos.y - (⟨0, 300⟩ : Point).y) ^ 2 = 0 by norm_num [wC, Vertex.pos]]
        exact Real.sqrt_zero]
  rw [show distance (⟨0, -300⟩ : Point) wC.pos = 600 by
        unfold distance
        rw [show (wC.pos.x - (⟨0, -300⟩ : Point).x) ^ 2 +
              (wC.pos.y - (⟨0, -300⟩ : Point).y) ^ 2 = 600 ^ 2 by norm_num [wC, Vertex.pos]]
        exact Real.sqrt_sq (by norm_num)]
  rw [if_pos (show (0 : ℝ) < 600 by norm_num)]

theorem w_pass_eval : runPass [wAB, wBC, wCA] { wst0 with progress := false } =
    { wstF with progress := true } := by
  have hstPF : ({ wst0 with progress := false } : PropState) =
      (⟨[wA, wB, wC], [wB, wC, wB, wA], ["B", "A"], none, false, false⟩ : PropState) :=
    rfl
  rw [hstPF]
  unfold runPass
  rw [show List.range (([wA, wB, wC] : List Vertex).length) = [0, 1, 2] from rfl]
  rw [List.foldl_cons, List.foldl_cons, List.foldl_cons, List.foldl_nil]
  rw [show passStep [wAB, wBC, wCA]
      (⟨[wA, wB, wC], [wB, wC, wB, wA], ["B", "A"], none, false, false⟩ : PropState) 0 =
      (⟨[wA, wB, wC], [wB, wC, wB, wA], ["B", "A"], none, false, false⟩ : PropState)
      from rfl]
  rw [show passStep [wAB, wBC, wCA]
      (⟨[wA, wB, wC], [wB, wC, wB, wA], ["B", "A"], none, false, false⟩ : PropState) 1 =
      (⟨[wA, wB, wC], [wB, wC, wB, wA], ["B", "A"], none, false, false⟩ : PropState)
      from rfl]
  have h2 := passStep_success [wAB, wBC, wCA]
    (⟨[wA, wB, wC], [wB, wC, wB, wA], ["B", "A"], none, false, false⟩ : PropState) 2
    wBC wCA [] ⟨0, 300⟩ false rfl rfl w_intersection_eval
  rw [h2]
  rfl

theorem w_core_eval : solveCore wPoly = some (wAB, wA, wB, wstF) := by
  unfold solveCore
  dsimp only
  rw [show substituteAngles wPoly = [wAB, wBC, wCA] from rfl]
  rw [show ([wAB, wBC, wCA].find? (fun e =>
      (vmapGet wPoly.vertices.reverse e.startVertexId).isSome &&
      (vmapGet wPoly.vertices.reverse e.endVertexId).isSome)) = some wAB from rfl]
  dsimp only
  rw [show ((vmapGet wPoly.vertices.reverse wAB.startVertexId).getD default) = wA from rfl]
  rw [show ((vmapGet wPoly.vertices.reverse wAB.endVertexId).getD default) = wB from rfl]
  rw [w_seedState_eval]
  rw [show wPoly.vertices.length = 3 from rfl]
  have hloop : runLoop [wAB, wBC, wCA] (3 + 1) wst0 = wstF := by
    rw [runLoop]
    rw [if_pos (show wst0.progress = true from rfl)]
    rw [w_pass_eval]
    have hloop3 : runLoop [wAB, wBC, wCA] 3 ({ wstF with progress := true } : PropState) =
        runLoop [wAB, wBC, wCA] 2 wstF := rfl
    rw [hloop3]
    exact runLoop_of_progress_false _ 2 _ rfl
  rw [hloop]

/-- The full first solver run on the C9 witness triangle: everything stays
in place, no error, not approximated. -/
theorem w_solve_eval : solveGeometry wPoly =
    ⟨{ wPoly with vertices := [wA, wB, wC], centroid := calculateCentroid [wA, wB, wC] },
     none, some false⟩ := by
  unfold solveGeometry
  rw [if_neg (show ¬ wPoly.vertices.length < 3 by decide)]
  rw [w_core_eval]
  rfl

/-- C9: re-running the solver on the unmodified result of a successful run
(no metricError, every vertex solved) reproduces the result exactly: the
same polygon record (hence the same vertex positions) with no error and the
same `approximated` flag.  The hypotheses ask for duplicate-free vertex
ids, no self-loop effective edges and nonnegative measured lengths. -/
theorem C9_resolve_idempotent (P : Polygon)
    (hnodup : (P.vertices.map Vertex.id).Nodup)
    (hnoself : ∀ e ∈ substituteAngles P, e.startVertexId ≠ e.endVertexId)
    (hnonneg : ∀ e ∈ substituteAngles P, 0 ≤ e.length)
    (herr : (solveGeometry P).metricError = none)
    (hall : ∀ v ∈ (solveGeometry P).polygon.vertices, v.solved = true) :
    solveGeometry ((solveGeometry P).polygon) =
      ⟨(solveGeometry P).polygon, none, (solveGeometry P).approximated⟩ := by
  by_cases hlen : P.vertices.length < 3
  · have hrun1 : solveGeometry P = ⟨{ P with
        vertices := P.vertices.map (fun v => { v with solved := false }) },
        none, none⟩ := by
      unfold solveGeometry
      rw [if_pos hlen]
    have hemp : P.vertices = [] := by
      cases hv : P.vertices with
      | nil => rfl
      | cons v t =>
        exfalso
        have hmem : ({ v with solved := false } : Vertex) ∈
            (solveGeometry P).polygon.vertices := by
          rw [hrun1]
          dsimp only
          rw [hv, List.map_cons]
          exact List.mem_cons_self _ _
        exact Bool.noConfusion (hall _ hmem)
    rw [hrun1]
    dsimp only
    rw [hemp]
    unfold solveGeometry
    rw [if_pos (by simp)]
    rfl
  · cases hcore : solveCore P with
    | none =>
      exfalso
      have hrun1 : solveGeometry P = ⟨{ P with
          vertices := P.vertices.map (fun v => { v with solved := false }) },
          none, none⟩ := by
        unfold solveGeometry
        rw [if_neg hlen, hcore]
      cases hv : P.vertices with
      | nil =>
        rw [hv] at hlen
        simp at hlen
      | cons v t =>
        have hmem : ({ v with solved := false } : Vertex) ∈
            (solveGeometry P).polygon.vertices := by
          rw [hrun1]
          dsimp only
          rw [hv, List.map_cons]
          exact List.mem_cons_self _ _
        exact Bool.noConfusion (hall _ hmem)
    | some q =>
      obtain ⟨se, v0, v1, stF⟩ := q
      have hQv : (solveGeometry P).polygon.vertices = stF.vertices.map (fun v =>
          if stF.solved.contains v.id then v else { v with solved := false }) := by
        unfold solveGeometry
        rw [if_neg hlen, hcore]
      have hQe : (solveGeometry P).polygon.edges = P.edges := by
        unfold solveGeometry
        rw [if_neg hlen, hcore]
      have hQc : (solveGeometry P).polygon.centroid =
          calculateCentroid ((solveGeometry P).polygon.vertices) := by
        rw [hQv]
        unfold solveGeometry
        rw [if_neg hlen, hcore]
      have happP : (solveGeometry P).approximated = some stF.isApproximated := by
        unfold solveGeometry
        rw [if_neg hlen, hcore]
      have hme : stF.metricError = none := by
        have h := herr
        unfold solveGeometry at h
        rw [if_neg hlen, hcore] at h
        dsimp only at h
        split at h
        · exact absurd h (by simp)
        · exact h
      have hallc : ∀ v ∈ stF.vertices, stF.solved.contains v.id = true := by
        intro v hv
        cases hc : stF.solved.contains v.id with
        | true => rfl
        | false =>
          exfalso
          have hmem : ({ v with solved := false } : Vertex) ∈
              (solveGeometry P).polygon.vertices := by
            rw [hQv]
            exact List.mem_map.mpr ⟨v, hv,
              by rw [if_neg (by rw [hc]; exact Bool.false_ne_true)]⟩
          exact Bool.noConfusion (hall _ hmem)
      have hv2eq : (solveGeometry P).polygon.vertices = stF.vertices := by
        rw [hQv]
        rw [List.map_congr_left (fun v hv => by rw [if_pos (hallc v hv)])]
        exact List.map_id' _
      obtain ⟨hfind, hv0eq, hv1eq, hst⟩ := solveCore_inv hcore
      obtain ⟨hv0m, hv0id, hv1m, hv1id⟩ := solveCore_seed_mem hcore
      have hsemem : se ∈ substituteAngles P := List.mem_of_find?_eq_some hfind
      have hns : se.startVertexId ≠ se.endVertexId := hnoself se hsemem
      have hv01 : v0.id ≠ v1.id := by
        rw [hv0id, hv1id]
        exact hns
      have hseL : 0 ≤ se.length := hnonneg se hsemem
      have hkeysF : stF.vertices.map vertexKey = P.vertices.map vertexKey :=
        solveCore_keys hcore hnodup
      have hFids : stF.vertices.map Vertex.id = P.vertices.map Vertex.id :=
        ids_of_keys hkeysF
      have hrevnd : (P.vertices.reverse.map Vertex.id).Nodup := by
        rw [List.map_reverse]
        exact List.nodup_reverse.mpr hnodup
      have hnv1 : seedVertex v0 v1 se ∈ (seedState P se v0 v1).vertices := by
        unfold seedState
        dsimp only
        exact List.mem_map.mpr ⟨v1, hv1m, by rw [if_pos (by simp)]⟩
      have hv0seed : v0 ∈ (seedState P se v0 v1).vertices := by
        unfold seedState
        dsimp only
        refine List.mem_map.mpr ⟨v0, hv0m, ?_⟩
        rw [if_neg (by simp only [beq_iff_eq]; exact hv01)]
      have hv0vm : vmapGet (seedState P se v0 v1).vmap v0.id = some v0 := by
        unfold seedState
        dsimp only
        rw [vmapGet_cons_ne (show (seedVertex v0 v1 se).id ≠ v0.id from Ne.symm hv01)]
        exact vmapGet_of_nodup hrevnd (List.mem_reverse.mpr hv0m)
      have hnv1vm : vmapGet (seedState P se v0 v1).vmap v1.id =
          some (seedVertex v0 v1 se) := by
        unfold seedState
        dsimp only
        exact vmapGet_cons_self rfl
      have hv0sol : v0.id ∈ (seedState P se v0 v1).solved := by
        unfold seedState
        dsimp only
        exact List.mem_cons_of_mem _ (List.mem_cons_self _ _)
      have hv1sol : v1.id ∈ (seedState P se v0 v1).solved := by
        unfold seedState
        dsimp only
        exact List.mem_cons_self _ _
      have hstabV0 := runLoop_ST (substituteAngles P) (P.vertices.length + 1)
        (seedState P se v0 v1) hv0sol hv0vm hv0seed
      have hstabV1 := runLoop_ST (substituteAngles P) (P.vertices.length + 1)
        (seedState P se v0 v1) hv1sol hnv1vm hnv1
      rw [← hst] at hstabV0 hstabV1
      have hQkeys : (solveGeometry P).polygon.vertices.map vertexKey =
          P.vertices.map vertexKey := by
        rw [hv2eq]
        exact hkeysF
      have hQids : (solveGeometry P).polygon.vertices.map Vertex.id =
          P.vertices.map Vertex.id := ids_of_keys hQkeys
      have hQnodup : ((solveGeometry P).polygon.vertices.map Vertex.id).Nodup := by
        rw [hQids]
        exact hnodup
      have hEeq : substituteAngles ((solveGeometry P).polygon) = substituteAngles P :=
        substituteAngles_congr hQe hQkeys
      have hQlen : (solveGeometry P).polygon.vertices.length = P.vertices.length := by
        have h := congrArg List.length hQids
        simpa using h
      have hlen2 : ¬ (solveGeometry P).polygon.vertices.length < 3 := by
        rw [hQlen]
        exact hlen
      have hrids : (solveGeometry P).polygon.vertices.reverse.map Vertex.id =
          P.vertices.reverse.map Vertex.id := by
        rw [List.map_reverse, List.map_reverse, hQids]
      have hfind2 : (substituteAngles ((solveGeometry P).polygon)).find? (fun e =>
          (vmapGet (solveGeometry P).polygon.vertices.reverse e.startVertexId).isSome &&
          (vmapGet (solveGeometry P).polygon.vertices.reverse e.endVertexId).isSome) =
          some se := by
        rw [hEeq]
        rw [find?_congr_mem _ (fun e _ => by
          rw [vmapGet_isSome_congr hrids, vmapGet_isSome_congr hrids])]
        exact hfind
      have hrevndQ : ((solveGeometry P).polygon.vertices.reverse.map Vertex.id).Nodup := by
        rw [List.map_reverse]
        exact List.nodup_reverse.mpr hQnodup
      have hv0Q : vmapGet ((solveGeometry P).polygon.vertices.reverse)
          se.startVertexId = some v0 := by
        have hv0QF : v0 ∈ (solveGeometry P).polygon.vertices := by
          rw [hv2eq]
          exact hstabV0.2.2
        have h := vmapGet_of_nodup hrevndQ (List.mem_reverse.mpr hv0QF)
        rw [hv0id] at h
        exact h
      have hnv1Q : vmapGet ((solveGeometry P).polygon.vertices.reverse)
          se.endVertexId = some (seedVertex v0 v1 se) := by
        have hnv1QF : seedVertex v0 v1 se ∈ (solveGeometry P).polygon.vertices := by
          rw [hv2eq]
          exact hstabV1.2.2
        have h := vmapGet_of_nodup hrevndQ (List.mem_reverse.mpr hnv1QF)
        have hsid : (seedVertex v0 v1 se).id = se.endVertexId := hv1id
        rw [hsid] at h
        exact h
      have hseed2 : seedVertex v0 (seedVertex v0 v1 se) se = seedVertex v0 v1 se :=
        seedVertex_iterate v0 v1 se hseL
      have hseedQv : (seedState ((solveGeometry P).polygon) se v0
          (seedVertex v0 v1 se)).vertices = (solveGeometry P).polygon.vertices := by
        unfold seedState
        dsimp only
        rw [hseed2]
        rw [List.map_congr_left (fun v hv => ?_)]
        · exact List.map_id' _
        · by_cases hb : (v.id == (seedVertex v0 v1 se).id) = true
          · have hveq : v = seedVertex v0 v1 se := by
              apply vertex_eq_of_id_nodup hQnodup hv ?_ (by simpa using hb)
              rw [hv2eq]
              exact hstabV1.2.2
            rw [if_pos hb, hveq]
          · rw [if_neg hb]
      have hR0 : LockRel (P.vertices.map Vertex.id) stF (seedState P se v0 v1)
          (seedState ((solveGeometry P).polygon) se v0 (seedVertex v0 v1 se)) := by
        refine ⟨rfl, rfl, rfl, rfl, rfl, ?_, ?_, ?_⟩
        · rw [hseedQv, hv2eq]
        · unfold seedState
          dsimp only
          rw [List.map_map]
          apply List.map_congr_left
          intro v hv
          by_cases hb : (v.id == v1.id) = true
          · simp only [Function.comp_apply, if_pos hb]
            exact (beq_iff_eq.mp hb).symm
          · simp only [Function.comp_apply, if_neg hb]
        · intro a ha
          have ha' : a = v1.id ∨ a = v0.id := by
            have h := ha
            unfold seedState at h
            simp only [List.mem_cons, List.not_mem_nil, or_false] at h
            exact h
          rcases ha' with rfl | rfl
          · refine ⟨seedVertex v0 v1 se, hnv1vm, ?_⟩
            unfold seedState
            dsimp only
            rw [hseed2]
            exact vmapGet_cons_self rfl
          · refine ⟨v0, hv0vm, ?_⟩
            unfold seedState
            dsimp only
            rw [hseed2]
            rw [vmapGet_cons_ne (show (seedVertex v0 v1 se).id ≠ v0.id from Ne.symm hv01)]
            rw [hv0id]
            exact hv0Q
      have hloopF : runLoop (substituteAngles P) (P.vertices.length + 1)
          (seedState P se v0 v1) = stF := hst.symm
      have hRF := runLoop_lockstep (substituteAngles P) (P.vertices.map Vertex.id)
        hnodup stF hme hFids (P.vertices.length + 1) (seedState P se v0 v1)
        (seedState ((solveGeometry P).polygon) se v0 (seedVertex v0 v1 se)) hR0 hloopF
      rw [hloopF] at hRF
      obtain ⟨hsolvF, hprogF, happrF, hm2F, _, hv2F, _, _⟩ := hRF
      have hcore2 : solveCore ((solveGeometry P).polygon) = some (se, v0,
          seedVertex v0 v1 se, runLoop (substituteAngles P) (P.vertices.length + 1)
            (seedState ((solveGeometry P).polygon) se v0 (seedVertex v0 v1 se))) := by
        unfold solveCore
        dsimp only
        rw [hfind2]
        dsimp only
        rw [hv0Q, hnv1Q]
        simp only [Option.getD_some]
        rw [hEeq, hQlen]
      rw [happP]
      obtain ⟨Q, hQ⟩ : ∃ Q, (solveGeometry P).polygon = Q := ⟨_, rfl⟩
      rw [hQ] at hlen2 hcore2 hQc hv2eq hall hsolvF happrF hm2F hv2F
      rw [hQ]
      unfold solveGeometry
      rw [if_neg hlen2, hcore2]
      dsimp only
      have hVeq : (runLoop (substituteAngles P) (P.vertices.length + 1)
          (seedState Q se v0 (seedVertex v0 v1 se))).vertices.map (fun v =>
          if (runLoop (substituteAngles P) (P.vertices.length + 1)
            (seedState Q se v0 (seedVertex v0 v1 se))).solved.contains v.id then v
          else { v with solved := false }) = Q.vertices := by
        rw [hv2F, hsolvF]
        rw [List.map_congr_left (fun v hv => by rw [if_pos (hallc v hv)])]
        rw [List.map_id' _, hv2eq]
      rw [hVeq]
      have hanyf : (Q.vertices.any (fun v => !v.solved)) = false := by
        rw [List.any_eq_false]
        intro v hv
        rw [hall v hv]
        simp
      rw [hanyf]
      rw [if_neg (by simp)]
      rw [hm2F, happrF]
      rw [← hQc]

/-- C9 witness: the 3-4-5 right triangle solves successfully in place, and
re-running the solver on the result reproduces it exactly. -/
theorem C9_resolve_idempotent_witness :
    solveGeometry ((solveGeometry wPoly).polygon) =
      ⟨(solveGeometry wPoly).polygon, none, (solveGeometry wPoly).approximated⟩ :=
  C9_resolve_idempotent wPoly
    (by decide)
    (by intro e he
        rw [show substituteAngles wPoly = [wAB, wBC, wCA] from rfl] at he
        simp only [List.mem_cons, List.not_mem_nil, or_false] at he
        rcases he with rfl | rfl | rfl <;> decide)
    (by intro e he
        rw [show substituteAngles wPoly = [wAB, wBC, wCA] from rfl] at he
        simp only [List.mem_cons, List.not_mem_nil, or_false] at he
        rcases he with rfl | rfl | rfl <;> norm_num [wAB, wBC, wCA])
    (by rw [w_solve_eval])
    (by intro v hv
        rw [w_solve_eval] at hv
        simp only [List.mem_cons, List.not_mem_nil, or_false] at hv
        rcases hv with rfl | rfl | rfl <;> rfl)

/-! ## C2: skeleton bridges.

Every function of the join/connectivity engine reads only the skeleton
fields of the polygons (ids, lock flags, group ids and edge links), so each
is bridged to its skeleton mirror; concrete traces whose vertex coordinates
are irrational alignment outputs are then evaluated on skeletons. -/

theorem find_cons_eval {α : Type} (p : α → Bool) (a : α) (l : List α) :
    (a :: l).find? p = if p a then some a else l.find? p := by
  cases hb : p a
  · rw [if_neg Bool.false_ne_true]
    exact List.find?_cons_of_neg _ (by rw [hb]; exact Bool.false_ne_true)
  · rw [if_pos (show (true : Bool) = true from rfl)]
    exact List.find?_cons_of_pos _ hb

theorem list_any_congr {α : Type} {p q : α → Bool} (l : List α)
    (h : ∀ a ∈ l, p a = q a) : l.any p = l.any q := by
  induction l with
  | nil => rfl
  | cons a t ih =>
    show (p a || t.any p) = (q a || t.any q)
    rw [h a (List.mem_cons_self a t), ih (fun x hx => h x (List.mem_cons_of_mem a hx))]

theorem list_any_map_comp {α β : Type} (f : α → β) (p : β → Bool) (l : List α) :
    (l.map f).any p = l.any (fun a => p (f a)) := by
  induction l with
  | nil => rfl
  | cons a t ih =>
    show (p (f a) || (t.map f).any p) = (p (f a) || t.any (fun a => p (f a)))
    rw [ih]

theorem edges_any_skel (p : Polygon) (eid : String) :
    p.edges.any (fun e => e.id == eid) = (polySkel p).edges.any (fun es => es.1 == eid) := by
  show p.edges.any (fun e => e.id == eid) = (p.edges.map edgeSkel).any (fun es => es.1 == eid)
  rw [list_any_map_comp]
  rfl

theorem findPolygonWithEdge_skel (ps : List Polygon) (eid : String) :
    (findPolygonWithEdge ps eid).map polySkel = findSkelWithEdge (ps.map polySkel) eid := by
  induction ps with
  | nil => rfl
  | cons p t ih =>
    have h1 : findPolygonWithEdge (p :: t) eid =
        if p.edges.any (fun e => e.id == eid) then some p
        else findPolygonWithEdge t eid := find_cons_eval _ _ _
    have h2 : findSkelWithEdge (polySkel p :: t.map polySkel) eid =
        if (polySkel p).edges.any (fun es => es.1 == eid) then some (polySkel p)
        else findSkelWithEdge (t.map polySkel) eid := find_cons_eval _ _ _
    rw [List.map_cons, h2, ← edges_any_skel, h1]
    cases hb : p.edges.any (fun e => e.id == eid)
    · rw [if_neg Bool.false_ne_true, if_neg Bool.false_ne_true]
      exact ih
    · rw [if_pos (show (true : Bool) = true from rfl),
          if_pos (show (true : Bool) = true from rfl)]
      rfl

theorem find_id_skel (ps : List Polygon) (cid : String) :
    (ps.find? (fun p => p.id == cid)).map polySkel =
      (ps.map polySkel).find? (fun q => q.id == cid) := by
  induction ps with
  | nil => rfl
  | cons p t ih =>
    have h1 : (p :: t).find? (fun q => q.id == cid) =
        if p.id == cid then some p else t.find? (fun q => q.id == cid) :=
      find_cons_eval _ _ _
    have h2 : (polySkel p :: t.map polySkel).find? (fun q => q.id == cid) =
        if p.id == cid then some (polySkel p)
        else (t.map polySkel).find? (fun q => q.id == cid) :=
      find_cons_eval _ _ _
    rw [List.map_cons, h2, h1]
    cases hb : p.id == cid
    · rw [if_neg Bool.false_ne_true, if_neg Bool.false_ne_true]
      exact ih
    · rw [if_pos (show (true : Bool) = true from rfl),
          if_pos (show (true : Bool) = true from rfl)]
      rfl

theorem edge_find_skel (es : List Edge) (eid : String) :
    (es.find? (fun x => x.id == eid)).map edgeSkel =
      (es.map edgeSkel).find? (fun q => q.1 == eid) := by
  induction es with
  | nil => rfl
  | cons e t ih =>
    have h1 : (e :: t).find? (fun x => x.id == eid) =
        if e.id == eid then some e else t.find? (fun x => x.id == eid) :=
      find_cons_eval _ _ _
    have h2 : (edgeSkel e :: t.map edgeSkel).find? (fun q => q.1 == eid) =
        if e.id == eid then some (edgeSkel e)
        else (t.map edgeSkel).find? (fun q => q.1 == eid) :=
      find_cons_eval _ _ _
    rw [List.map_cons, h2, h1]
    cases hb : e.id == eid
    · rw [if_neg Bool.false_ne_true, if_neg Bool.false_ne_true]
      exact ih
    · rw [if_pos (show (true : Bool) = true from rfl),
          if_pos (show (true : Bool) = true from rfl)]
      rfl

theorem alreadyLinkedTo_skel (ps : List Polygon) (S T : Polygon) :
    alreadyLinkedTo ps S T = alreadyLinkedSkel (ps.map polySkel) (polySkel S) T.id := by
  show S.edges.any _ = (S.edges.map edgeSkel).any _
  rw [list_any_map_comp]
  apply list_any_congr
  intro e _
  show (match e.linkedEdgeId with
        | none => false
        | some le =>
          match findPolygonWithEdge ps le with
          | some linkedPoly => linkedPoly.id == T.id
          | none => false) =
      (match (edgeSkel e).2 with
        | none => false
        | some le =>
          match findSkelWithEdge (ps.map polySkel) le with
          | some linkedPoly => linkedPoly.id == T.id
          | none => false)
  rw [show (edgeSkel e).2 = e.linkedEdgeId from rfl]
  cases hl : e.linkedEdgeId with
  | none => rfl
  | some le =>
    have hb := findPolygonWithEdge_skel ps le
    cases hf : findPolygonWithEdge ps le with
    | none =>
      rw [hf] at hb
      dsimp only
      rw [hf, show findSkelWithEdge (ps.map polySkel) le = none from hb.symm]
    | some lp =>
      rw [hf] at hb
      dsimp only
      rw [hf, show findSkelWithEdge (ps.map polySkel) le = some (polySkel lp) from hb.symm]
      rfl

theorem bfsStep_skel (ps : List Polygon) (ex : Option String) (e : Edge)
    (gq : List String × List String) :
    (match e.linkedEdgeId with
     | none => gq
     | some le =>
       match findPolygonWithEdge ps le with
       | none => gq
       | some neighbor =>
         if (match ex with | some x => neighbor.id == x | none => false) then gq
         else if neighbor.id ∈ gq.1 then gq
         else (gq.1 ++ [neighbor.id], gq.2 ++ [neighbor.id])) =
    (match (edgeSkel e).2 with
     | none => gq
     | some le =>
       match findSkelWithEdge (ps.map polySkel) le with
       | none => gq
       | some neighbor =>
         if (match ex with | some x => neighbor.id == x | none => false) then gq
         else if neighbor.id ∈ gq.1 then gq
         else (gq.1 ++ [neighbor.id], gq.2 ++ [neighbor.id])) := by
  rw [show (edgeSkel e).2 = e.linkedEdgeId from rfl]
  cases hl : e.linkedEdgeId with
  | none => rfl
  | some le =>
    dsimp only
    have hb := findPolygonWithEdge_skel ps le
    cases hf : findPolygonWithEdge ps le with
    | none =>
      rw [hf] at hb
      rw [show findSkelWithEdge (ps.map polySkel) le = none from hb.symm]
    | some nb =>
      rw [hf] at hb
      rw [show findSkelWithEdge (ps.map polySkel) le = some (polySkel nb) from hb.symm]
      rfl

theorem bfsProcessEdges_skel (ps : List Polygon) (ex : Option String) (edges : List Edge) :
    ∀ (gq : List String × List String),
    bfsProcessEdges ps ex edges gq =
      bfsProcessEdgesSkel (ps.map polySkel) ex (edges.map edgeSkel) gq := by
  induction edges with
  | nil => intro gq; rfl
  | cons e t ih =>
    intro gq
    unfold bfsProcessEdges bfsProcessEdgesSkel
    rw [List.map_cons, List.foldl_cons, List.foldl_cons]
    rw [bfsStep_skel ps ex e gq]
    exact ih _

theorem getConnectedAux_skel (ps : List Polygon) (ex : Option String) (fuel : ℕ) :
    ∀ (queue group : List String),
    getConnectedAux ps ex fuel queue group =
      getConnectedSkelAux (ps.map polySkel) ex fuel queue group := by
  induction fuel with
  | zero => intro queue group; rfl
  | succ n ih =>
    intro queue group
    cases queue with
    | nil => rfl
    | cons cid qt =>
      rw [getConnectedAux, getConnectedSkelAux]
      have hb := find_id_skel ps cid
      cases hf : ps.find? (fun p => p.id == cid) with
      | none =>
        rw [hf] at hb
        rw [show (ps.map polySkel).find? (fun q => q.id == cid) = none from hb.symm]
        exact ih qt group
      | some cur =>
        rw [hf] at hb
        rw [show (ps.map polySkel).find? (fun q => q.id == cid) = some (polySkel cur)
              from hb.symm]
        dsimp only
        rw [show (polySkel cur).edges = cur.edges.map edgeSkel from rfl]
        rw [← bfsProcessEdges_skel ps ex cur.edges (group, qt)]
        exact ih _ _

theorem getConnectedPolygonGroup_skel (sid : String) (ps : List Polygon)
    (ex : Option String) :
    getConnectedPolygonGroup sid ps ex = getConnectedSkelGroup sid (ps.map polySkel) ex := by
  unfold getConnectedPolygonGroup getConnectedSkelGroup
  rw [List.length_map]
  exact getConnectedAux_skel ps ex (ps.length + 1) [sid] [sid]

theorem recalcAux_skel (mint : ℕ → String) (ids : List String) :
    ∀ (visited : List String) (k : ℕ) (ps : List Polygon),
    (recalcAux mint ids visited k ps).map polySkel =
      recalcSkelAux mint ids visited k (ps.map polySkel) := by
  induction ids with
  | nil => intro visited k ps; rfl
  | cons pid rest ih =>
    intro visited k ps
    rw [recalcAux, recalcSkelAux]
    by_cases hv : pid ∈ visited
    · rw [if_pos hv, if_pos hv]
      exact ih visited k ps
    · rw [if_neg hv, if_neg hv]
      dsimp only
      rw [getConnectedPolygonGroup_skel pid ps none]
      by_cases hc : 1 < (getConnectedSkelGroup pid (ps.map polySkel) none).length
      · rw [if_pos hc, if_pos hc]
        rw [ih]
        have hmap : (ps.map (fun p =>
            if p.id ∈ getConnectedSkelGroup pid (ps.map polySkel) none then
              { p with groupId := some (mint k) } else p)).map polySkel =
            (ps.map polySkel).map (fun q =>
              if q.id ∈ getConnectedSkelGroup pid (ps.map polySkel) none then
                { q with groupId := some (mint k) } else q) := by
          rw [List.map_map, List.map_map]
          apply List.map_congr_left
          intro p _
          show polySkel (if p.id ∈ getConnectedSkelGroup pid (ps.map polySkel) none then
              { p with groupId := some (mint k) } else p) =
            (if p.id ∈ getConnectedSkelGroup pid (ps.map polySkel) none then
              { polySkel p with groupId := some (mint k) } else polySkel p)
          by_cases hp : p.id ∈ getConnectedSkelGroup pid (ps.map polySkel) none
          · rw [if_pos hp, if_pos hp]
            rfl
          · rw [if_neg hp, if_neg hp]
        rw [hmap]
      · rw [if_neg hc, if_neg hc]
        rw [ih]
        have hmap : (ps.map (fun p =>
            if p.id == pid then { p with groupId := none } else p)).map polySkel =
            (ps.map polySkel).map (fun q =>
              if q.id == pid then { q with groupId := none } else q) := by
          rw [List.map_map, List.map_map]
          apply List.map_congr_left
          intro p _
          show polySkel (if p.id == pid then { p with groupId := none } else p) =
            (if p.id == pid then { polySkel p with groupId := none } else polySkel p)
          by_cases hp : (p.id == pid) = true
          · rw [if_pos hp, if_pos hp]
            rfl
          · rw [if_neg hp, if_neg hp]
        rw [hmap]

theorem recalculateGroups_skel (ps : List Polygon) (mint : ℕ → String) :
    (recalculateGroups ps mint).map polySkel =
      recalculateGroupsSkel (ps.map polySkel) mint := by
  unfold recalculateGroups recalculateGroupsSkel
  rw [show (ps.map polySkel).map PolySkel.id = ps.map Polygon.id by
        rw [List.map_map]
        rfl]
  exact recalcAux_skel mint (ps.map Polygon.id) [] 0 ps

theorem PolySkel.eq_of_fields :
    ∀ {a b : PolySkel}, a.id = b.id → a.isLocked = b.isLocked → a.groupId = b.groupId →
      a.edges = b.edges → a = b
  | ⟨_, _, _, _⟩, ⟨_, _, _, _⟩, rfl, rfl, rfl, rfl => rfl

theorem joinParts_groupId (S T : Polygon) (se te : String) (f : String) :
    (joinParts S T se te 10 0 f).finalGroupId = mergeGroupId S.groupId T.groupId f := by
  cases hg1 : S.groupId <;> cases hg2 : T.groupId <;>
    (unfold joinParts mergeGroupId; dsimp only; rw [hg1, hg2])

theorem startJoinMode_run (s : AppState) (se : String) (S : Polygon)
    (hS : findPolygonWithEdge s.polygons se = some S) (hl : S.isLocked = true) :
    startJoinMode s se =
      { s with
        isJoinMode := true,
        joinSourceEdgeId := some se,
        solverMsg := some ⟨false, "Select an edge on another solved polygon to snap to."⟩ } := by
  unfold startJoinMode
  rw [hS]
  dsimp only
  rw [hl]
  rfl

theorem completeJoin_run (s : AppState) (se te f : String) (S T : Polygon)
    (hjs : s.joinSourceEdgeId = some se)
    (hS : findPolygonWithEdge s.polygons se = some S)
    (hT : findPolygonWithEdge s.polygons te = some T)
    (hid : (S.id == T.id) = false)
    (hlock : T.isLocked = true)
    (hal : alreadyLinkedTo s.polygons S T = false)
    (hs10 : thicknessOrDefault
      ((S.edges.find? (fun e => e.id == se)).getD default).thickness = 10)
    (ht10 : thicknessOrDefault
      ((T.edges.find? (fun e => e.id == te)).getD default).thickness = 10) :
    completeJoin s te f = executeJoin s se te 10 0 f := by
  unfold completeJoin
  rw [hjs]
  dsimp only
  rw [hS, hT]
  dsimp only
  rw [if_neg (by rw [hid]; exact Bool.false_ne_true)]
  rw [if_neg (by rw [hlock]; exact Bool.false_ne_true)]
  rw [if_neg (by rw [hal]; exact Bool.false_ne_true)]
  rw [hs10, ht10]
  rw [if_neg (show ¬((10 : ℝ) ≠ 10) from not_not_intro rfl)]

theorem joinFS_edges_skel (S T : Polygon) (se te f : String) :
    (joinParts S T se te 10 0 f).finalSourcePoly.edges.map edgeSkel =
      (S.edges.map edgeSkel).map (fun es => if es.1 == se then (es.1, some te) else es) := by
  rw [show (joinParts S T se te 10 0 f).finalSourcePoly.edges =
      (S.edges.map (fun e => if e.id == se then { e with thickness := some (10 : ℝ) } else e)).map
        (fun e => if e.id == se then
          { e with linkedEdgeId := some te, alignmentOffset := some (0 : ℝ) } else e) from rfl]
  rw [List.map_map, List.map_map, List.map_map]
  apply List.map_congr_left
  intro e _
  show edgeSkel ((fun e => if e.id == se then
      { e with linkedEdgeId := some te, alignmentOffset := some (0 : ℝ) } else e)
    ((fun e => if e.id == se then { e with thickness := some (10 : ℝ) } else e) e)) =
    (fun es => if es.1 == se then (es.1, some te) else es) (edgeSkel e)
  cases hc : (e.id == se)
  · simp only [edgeSkel, hc, Bool.false_eq_true, if_false]
  · simp only [edgeSkel, hc, if_true]

theorem joinFT_edges_skel (S T : Polygon) (se te f : String) :
    (joinParts S T se te 10 0 f).finalTargetPoly.edges.map edgeSkel =
      (T.edges.map edgeSkel).map (fun es => if es.1 == te then (es.1, some se) else es) := by
  rw [show (joinParts S T se te 10 0 f).finalTargetPoly.edges =
      (T.edges.map (fun e => if e.id == te then { e with thickness := some (10 : ℝ) } else e)).map
        (fun e => if e.id == te then { e with linkedEdgeId := some se } else e) from rfl]
  rw [List.map_map, List.map_map, List.map_map]
  apply List.map_congr_left
  intro e _
  show edgeSkel ((fun e => if e.id == te then { e with linkedEdgeId := some se } else e)
    ((fun e => if e.id == te then { e with thickness := some (10 : ℝ) } else e) e)) =
    (fun es => if es.1 == te then (es.1, some se) else es) (edgeSkel e)
  cases hc : (e.id == te)
  · simp only [edgeSkel, hc, Bool.false_eq_true, if_false]
  · simp only [edgeSkel, hc, if_true]

theorem joinMapFn_skel (S T : Polygon) (se te f : String) (p : Polygon) :
    polySkel (joinMapFn (joinParts S T se te 10 0 f).finalSourcePoly
        (joinParts S T se te 10 0 f).finalTargetPoly S.groupId T.groupId
        (joinParts S T se te 10 0 f).dx (joinParts S T se te 10 0 f).dy
        (joinParts S T se te 10 0 f).finalGroupId p) =
      joinSkelFn (polySkel S) (polySkel T) se te f (polySkel p) := by
  unfold joinMapFn joinSkelFn
  dsimp only
  rw [show (joinParts S T se te 10 0 f).finalSourcePoly.id = S.id from rfl,
      show (joinParts S T se te 10 0 f).finalTargetPoly.id = T.id from rfl,
      show (polySkel p).id = p.id from rfl,
      show (polySkel S).id = S.id from rfl,
      show (polySkel T).id = T.id from rfl,
      show (polySkel S).groupId = S.groupId from rfl,
      show (polySkel T).groupId = T.groupId from rfl,
      show (polySkel p).groupId = p.groupId from rfl]
  by_cases h1 : (p.id == S.id) = true
  · rw [if_pos h1, if_pos h1]
    apply PolySkel.eq_of_fields
    · rfl
    · rfl
    · rw [← joinParts_groupId S T se te f]
      rfl
    · exact joinFS_edges_skel S T se te f
  · rw [if_neg h1, if_neg h1]
    by_cases h2 : (p.id == T.id) = true
    · rw [if_pos h2, if_pos h2]
      apply PolySkel.eq_of_fields
      · rfl
      · rfl
      · rw [← joinParts_groupId S T se te f]
        rfl
      · exact joinFT_edges_skel S T se te f
    · rw [if_neg h2, if_neg h2]
      by_cases h3 : (S.groupId.isSome && p.groupId == S.groupId) = true
      · rw [if_pos h3, if_pos h3]
        apply PolySkel.eq_of_fields
        · rfl
        · rfl
        · rw [← joinParts_groupId S T se te f]
          rfl
        · rfl
      · rw [if_neg h3, if_neg h3]
        by_cases h4 : (T.groupId.isSome && p.groupId == T.groupId) = true
        · rw [if_pos h4, if_pos h4]
          apply PolySkel.eq_of_fields
          · rfl
          · rfl
          · rw [← joinParts_groupId S T se te f]
            rfl
          · rfl
        · rw [if_neg h4, if_neg h4]

theorem executeJoin_skel (s : AppState) (se te f : String) (S T : Polygon)
    (hS : findPolygonWithEdge s.polygons se = some S)
    (hT : findPolygonWithEdge s.polygons te = some T) :
    (executeJoin s se te 10 0 f).polygons.map polySkel =
      (s.polygons.map polySkel).map (joinSkelFn (polySkel S) (polySkel T) se te f) := by
  unfold executeJoin
  rw [hS, hT]
  dsimp only
  rw [List.map_map, List.map_map]
  apply List.map_congr_left
  intro p _
  exact joinMapFn_skel S T se te f p

theorem thick_of_getD (l : List Edge) (q : Edge → Bool)
    (h : ∀ e ∈ l, thicknessOrDefault e.thickness = 10) :
    thicknessOrDefault ((l.find? q).getD default).thickness = 10 := by
  cases hf : l.find? q with
  | none => rfl
  | some e => exact h e (List.mem_of_find?_eq_some hf)

theorem executeJoin_thick (s : AppState) (se te f : String)
    (hth : thick10 s.polygons) : thick10 (executeJoin s se te 10 0 f).polygons := by
  unfold executeJoin
  cases hS : findPolygonWithEdge s.polygons se with
  | none => exact hth
  | some S =>
    cases hT : findPolygonWithEdge s.polygons te with
    | none => exact hth
    | some T =>
      dsimp only
      intro p hp
      obtain ⟨q, hq, rfl⟩ := List.mem_map.mp hp
      have hSm : S ∈ s.polygons := List.mem_of_find?_eq_some hS
      have hTm : T ∈ s.polygons := List.mem_of_find?_eq_some hT
      unfold joinMapFn
      by_cases h1 : (q.id == (joinParts S T se te 10 0 f).finalSourcePoly.id) = true
      · rw [if_pos h1]
        intro e he
        rw [show (joinParts S T se te 10 0 f).finalSourcePoly.edges =
            (S.edges.map (fun e => if e.id == se then
              { e with thickness := some (10 : ℝ) } else e)).map
              (fun e => if e.id == se then
                { e with linkedEdgeId := some te, alignmentOffset := some (0 : ℝ) } else e)
            from rfl] at he
        rw [List.map_map] at he
        obtain ⟨e0, he0, rfl⟩ := List.mem_map.mp he
        cases hc : (e0.id == se)
        · simp only [Function.comp, hc, Bool.false_eq_true, if_false]
          exact hth S hSm e0 he0
        · simp only [Function.comp, hc, if_true]
          exact thicknessOrDefault_some_ten
      · rw [if_neg h1]
        by_cases h2 : (q.id == (joinParts S T se te 10 0 f).finalTargetPoly.id) = true
        · rw [if_pos h2]
          intro e he
          rw [show (joinParts S T se te 10 0 f).finalTargetPoly.edges =
              (T.edges.map (fun e => if e.id == te then
                { e with thickness := some (10 : ℝ) } else e)).map
                (fun e => if e.id == te then { e with linkedEdgeId := some se } else e)
              from rfl] at he
          rw [List.map_map] at he
          obtain ⟨e0, he0, rfl⟩ := List.mem_map.mp he
          cases hc : (e0.id == te)
          · simp only [Function.comp, hc, Bool.false_eq_true, if_false]
            exact hth T hTm e0 he0
          · simp only [Function.comp, hc, if_true]
            exact thicknessOrDefault_some_ten
        · rw [if_neg h2]
          by_cases h3 : (S.groupId.isSome && q.groupId == S.groupId) = true
          · rw [if_pos h3]
            exact hth q hq
          · rw [if_neg h3]
            by_cases h4 : (T.groupId.isSome && q.groupId == T.groupId) = true
            · rw [if_pos h4]
              exact hth q hq
            · rw [if_neg h4]
              exact hth q hq

theorem unlinkMapFn_skel (s : AppState) (P : Polygon) (eid lid : String) (p : Polygon) :
    polySkel (
      if p.id == P.id then
        { p with edges := p.edges.map (fun x =>
            if x.id == eid then { x with linkedEdgeId := none, alignmentOffset := none }
            else x) }
      else if (match (findPolygonWithEdge s.polygons lid).map Polygon.id with
          | some tid => p.id == tid
          | none => false) then
        { p with edges := p.edges.map (fun x =>
            if x.id == lid then { x with linkedEdgeId := none } else x) }
      else p) =
    unlinkSkelFn P.id eid ((findPolygonWithEdge s.polygons lid).map Polygon.id) lid
      (polySkel p) := by
  unfold unlinkSkelFn
  rw [show (polySkel p).id = p.id from rfl]
  by_cases h1 : (p.id == P.id) = true
  · rw [if_pos h1, if_pos h1]
    apply PolySkel.eq_of_fields
    · rfl
    · rfl
    · rfl
    · show (p.edges.map (fun x =>
          if x.id == eid then { x with linkedEdgeId := none, alignmentOffset := none }
          else x)).map edgeSkel =
        (p.edges.map edgeSkel).map (fun es => if es.1 == eid then (es.1, none) else es)
      rw [List.map_map, List.map_map]
      apply List.map_congr_left
      intro x _
      show edgeSkel (if x.id == eid then
          { x with linkedEdgeId := none, alignmentOffset := none } else x) =
        (fun es => if es.1 == eid then (es.1, none) else es) (edgeSkel x)
      cases hc : (x.id == eid)
      · simp only [edgeSkel, hc, Bool.false_eq_true, if_false]
      · simp only [edgeSkel, hc, if_true]
  · rw [if_neg h1, if_neg h1]
    cases hfid : (findPolygonWithEdge s.polygons lid).map Polygon.id with
    | none => rfl
    | some tid =>
      dsimp only
      by_cases h2 : (p.id == tid) = true
      · rw [if_pos h2, if_pos h2]
        apply PolySkel.eq_of_fields
        · rfl
        · rfl
        · rfl
        · show (p.edges.map (fun x =>
              if x.id == lid then { x with linkedEdgeId := none } else x)).map edgeSkel =
            (p.edges.map edgeSkel).map (fun es => if es.1 == lid then (es.1, none) else es)
          rw [List.map_map, List.map_map]
          apply List.map_congr_left
          intro x _
          show edgeSkel (if x.id == lid then { x with linkedEdgeId := none } else x) =
            (fun es => if es.1 == lid then (es.1, none) else es) (edgeSkel x)
          cases hc : (x.id == lid)
          · simp only [edgeSkel, hc, Bool.false_eq_true, if_false]
          · simp only [edgeSkel, hc, if_true]
      · rw [if_neg h2, if_neg h2]

theorem unlinkEdge_skel (s : AppState) (eid lid : String) (mint : ℕ → String)
    (P : Polygon) (e : Edge)
    (hP : findPolygonWithEdge s.polygons eid = some P)
    (he : P.edges.find? (fun x => x.id == eid) = some e)
    (hle : e.linkedEdgeId = some lid)
    (hg : P.groupId.isSome = true) :
    (unlinkEdge s eid mint).polygons.map polySkel =
      recalculateGroupsSkel ((s.polygons.map polySkel).map
        (unlinkSkelFn P.id eid
          ((findSkelWithEdge (s.polygons.map polySkel) lid).map PolySkel.id) lid)) mint := by
  have htid : ((findSkelWithEdge (s.polygons.map polySkel) lid).map PolySkel.id) =
      (findPolygonWithEdge s.polygons lid).map Polygon.id := by
    rw [← findPolygonWithEdge_skel, Option.map_map]
    rfl
  unfold unlinkEdge
  rw [hP]
  dsimp only
  rw [he]
  dsimp only
  rw [hle]
  dsimp only
  rw [if_pos hg]
  rw [recalculateGroups_skel]
  rw [htid]
  congr 1
  rw [List.map_map, List.map_map]
  apply List.map_congr_left
  intro p _
  exact unlinkMapFn_skel s P eid lid p


theorem joinStep_skel (s : AppState) (se te f : String) (S T : Polygon)
    (hS : findPolygonWithEdge s.polygons se = some S)
    (hT : findPolygonWithEdge s.polygons te = some T)
    (hlockS : S.isLocked = true)
    (hid : (S.id == T.id) = false)
    (hlockT : T.isLocked = true)
    (hal : alreadyLinkedTo s.polygons S T = false)
    (hth : thick10 s.polygons) :
    (completeJoin (startJoinMode s se) te f).polygons.map polySkel =
      (s.polygons.map polySkel).map (joinSkelFn (polySkel S) (polySkel T) se te f) ∧
    thick10 (completeJoin (startJoinMode s se) te f).polygons := by
  have harm := startJoinMode_run s se S hS hlockS
  rw [harm]
  have hrun := completeJoin_run
    { s with
      isJoinMode := true,
      joinSourceEdgeId := some se,
      solverMsg := some ⟨false, "Select an edge on another solved polygon to snap to."⟩ }
    se te f S T rfl hS hT hid hlockT hal
    (thick_of_getD _ _ (hth S (List.mem_of_find?_eq_some hS)))
    (thick_of_getD _ _ (hth T (List.mem_of_find?_eq_some hT)))
  rw [hrun]
  constructor
  · exact executeJoin_skel _ se te f S T hS hT
  · exact executeJoin_thick _ se te f hth

theorem joinStep_eval (s : AppState) (se te f : String) {L M : List PolySkel}
    {SK TK : PolySkel}
    (hL : s.polygons.map polySkel = L)
    (hth : thick10 s.polygons)
    (hfS : findSkelWithEdge L se = some SK)
    (hfT : findSkelWithEdge L te = some TK)
    (hlockS : SK.isLocked = true)
    (hlockT : TK.isLocked = true)
    (hid : (SK.id == TK.id) = false)
    (hal : alreadyLinkedSkel L SK TK.id = false)
    (hM : L.map (joinSkelFn SK TK se te f) = M) :
    (completeJoin (startJoinMode s se) te f).polygons.map polySkel = M ∧
    thick10 (completeJoin (startJoinMode s se) te f).polygons := by
  have hfS2 : (findPolygonWithEdge s.polygons se).map polySkel = some SK := by
    rw [findPolygonWithEdge_skel, hL, hfS]
  obtain ⟨S, hS, hSsk⟩ := Option.map_eq_some'.mp hfS2
  have hfT2 : (findPolygonWithEdge s.polygons te).map polySkel = some TK := by
    rw [findPolygonWithEdge_skel, hL, hfT]
  obtain ⟨T, hT, hTsk⟩ := Option.map_eq_some'.mp hfT2
  have hlkS : S.isLocked = true := by
    rw [show S.isLocked = (polySkel S).isLocked from rfl, hSsk]
    exact hlockS
  have hlkT : T.isLocked = true := by
    rw [show T.isLocked = (polySkel T).isLocked from rfl, hTsk]
    exact hlockT
  have hid2 : (S.id == T.id) = false := by
    rw [show S.id = (polySkel S).id from rfl, hSsk,
        show T.id = (polySkel T).id from rfl, hTsk]
    exact hid
  have hal2 : alreadyLinkedTo s.polygons S T = false := by
    rw [alreadyLinkedTo_skel, hL, hSsk, show T.id = (polySkel T).id from rfl, hTsk]
    exact hal
  obtain ⟨hskel, hthick⟩ := joinStep_skel s se te f S T hS hT hlkS hid2 hlkT hal2 hth
  refine ⟨?_, hthick⟩
  rw [hskel, hL, hSsk, hTsk, hM]

theorem unlinkStep_eval (s : AppState) (eid : String) (mint : ℕ → String)
    {L M : List PolySkel} {SK : PolySkel} {lid : String}
    (hL : s.polygons.map polySkel = L)
    (hfP : findSkelWithEdge L eid = some SK)
    (hfe : SK.edges.find? (fun es => es.1 == eid) = some (eid, some lid))
    (hg : SK.groupId.isSome = true)
    (hM : recalculateGroupsSkel (L.map
        (unlinkSkelFn SK.id eid ((findSkelWithEdge L lid).map PolySkel.id) lid)) mint = M) :
    (unlinkEdge s eid mint).polygons.map polySkel = M := by
  have hfP2 : (findPolygonWithEdge s.polygons eid).map polySkel = some SK := by
    rw [findPolygonWithEdge_skel, hL, hfP]
  obtain ⟨P, hP, hPsk⟩ := Option.map_eq_some'.mp hfP2
  have hfe2 : (P.edges.find? (fun x => x.id == eid)).map edgeSkel = some (eid, some lid) := by
    rw [edge_find_skel, show P.edges.map edgeSkel = (polySkel P).edges from rfl, hPsk]
    exact hfe
  obtain ⟨e, he, hesk⟩ := Option.map_eq_some'.mp hfe2
  have hle : e.linkedEdgeId = some lid := by
    rw [show e.linkedEdgeId = (edgeSkel e).2 from rfl, hesk]
  have hg2 : P.groupId.isSome = true := by
    rw [show P.groupId = (polySkel P).groupId from rfl, hPsk]
    exact hg
  have h := unlinkEdge_skel s eid lid mint P e hP he hle hg2
  rw [h, hL, show P.id = (polySkel P).id from rfl, hPsk, hM]


theorem c2_thick0 : thick10 cx0.polygons := by
  intro p hp e he
  rw [show cx0.polygons = [cxX, cxY, cxZ, cxW] from rfl] at hp
  simp only [List.mem_cons, List.not_mem_nil, or_false] at hp
  rcases hp with rfl | rfl | rfl | rfl <;>
    (simp only [cxX, cxY, cxZ, cxW, List.mem_cons, List.not_mem_nil, or_false] at he
     rcases he with rfl | rfl | rfl <;> rfl)

theorem c2_trace_eval : cx5.polygons.map polySkel =
    [⟨"X", true, some "G0", [("xe", some "ye"), ("xe2", none), ("xe3", none)]⟩,
     ⟨"Y", true, some "G1", [("ye", some "we"), ("ye2", none), ("ye3", none)]⟩,
     ⟨"Z", true, some "G1", [("zq", some "ye2"), ("zq2", none), ("zq3", none)]⟩,
     ⟨"W", true, some "G1", [("we", some "ye"), ("we2", none), ("we3", none)]⟩] := by
  obtain ⟨h1L, h1T⟩ := joinStep_eval cx0 "xe" "ye" "F1" rfl c2_thick0 rfl rfl rfl rfl rfl rfl rfl
  obtain ⟨h2L, h2T⟩ := joinStep_eval cx1 "zq" "ye2" "F2" h1L h1T rfl rfl rfl rfl rfl rfl rfl
  obtain ⟨h3L, h3T⟩ := joinStep_eval cx2 "ye" "we" "F3" h2L h2T rfl rfl rfl rfl rfl rfl rfl
  obtain ⟨h4L, h4T⟩ := joinStep_eval cx3 "ye2" "xe2" "F4" h3L h3T rfl rfl rfl rfl rfl rfl rfl
  have h5L := unlinkStep_eval cx4 "ye2" mintC2 h4L rfl rfl rfl rfl
  exact h5L.trans (by decide)

/-- C2: the claimed invariant (groupIds = connected components of the
linkedEdgeId graph, in every state reachable by join/unlink/delete
operations from a link-free, group-free state) is violated by the embedded
reducer.  Joining an already-linked edge to a third polygon overwrites its
linkedEdgeId but leaves the old partner's back-reference in place; after
four joins and one unlink the trace cx0 .. cx5 ends in a state where
polygon Y is reachable from polygon X via a linkedEdgeId chain (the BFS of
getConnectedPolygonGroup starting at X visits Y), yet X carries group G0
while Y carries group G1. -/
theorem C2_connectivity_invariant_violated :
    (∀ p ∈ cx0.polygons, p.groupId = none ∧ ∀ e ∈ p.edges, e.linkedEdgeId = none) ∧
    ReachesJoin cx0 cx5 ∧
    "Y" ∈ getConnectedPolygonGroup "X" cx5.polygons none ∧
    (cx5.polygons.find? (fun p => p.id == "X")).map Polygon.groupId = some (some "G0") ∧
    (cx5.polygons.find? (fun p => p.id == "Y")).map Polygon.groupId = some (some "G1") := by
  refine ⟨?_, ?_, ?_, ?_, ?_⟩
  · intro p hp
    rw [show cx0.polygons = [cxX, cxY, cxZ, cxW] from rfl] at hp
    simp only [List.mem_cons, List.not_mem_nil, or_false] at hp
    rcases hp with rfl | rfl | rfl | rfl <;>
      (refine ⟨rfl, ?_⟩
       intro e he
       simp only [cxX, cxY, cxZ, cxW, List.mem_cons, List.not_mem_nil, or_false] at he
       rcases he with rfl | rfl | rfl <;> rfl)
  · have r1 : ReachesJoin cx0 (startJoinMode cx0 "xe") :=
      Relation.ReflTransGen.single (JoinStep.arm cx0 "xe")
    have r2 : ReachesJoin cx0 cx1 :=
      Relation.ReflTransGen.tail r1 (JoinStep.complete (startJoinMode cx0 "xe") "ye" "F1")
    have r3 : ReachesJoin cx0 (startJoinMode cx1 "zq") :=
      Relation.ReflTransGen.tail r2 (JoinStep.arm cx1 "zq")
    have r4 : ReachesJoin cx0 cx2 :=
      Relation.ReflTransGen.tail r3 (JoinStep.complete (startJoinMode cx1 "zq") "ye2" "F2")
    have r5 : ReachesJoin cx0 (startJoinMode cx2 "ye") :=
      Relation.ReflTransGen.tail r4 (JoinStep.arm cx2 "ye")
    have r6 : ReachesJoin cx0 cx3 :=
      Relation.ReflTransGen.tail r5 (JoinStep.complete (startJoinMode cx2 "ye") "we" "F3")
    have r7 : ReachesJoin cx0 (startJoinMode cx3 "ye2") :=
      Relation.ReflTransGen.tail r6 (JoinStep.arm cx3 "ye2")
    have r8 : ReachesJoin cx0 cx4 :=
      Relation.ReflTransGen.tail r7 (JoinStep.complete (startJoinMode cx3 "ye2") "xe2" "F4")
    exact Relation.ReflTransGen.tail r8 (JoinStep.unlink cx4 "ye2" mintC2)
  · rw [getConnectedPolygonGroup_skel, c2_trace_eval]
    decide
  · have h1 : ((cx5.polygons.find? (fun p => p.id == "X")).map polySkel).map PolySkel.groupId =
        (cx5.polygons.find? (fun p => p.id == "X")).map Polygon.groupId := by
      rw [Option.map_map]
      rfl
    rw [← h1, find_id_skel, c2_trace_eval]
    rfl
  · have h1 : ((cx5.polygons.find? (fun p => p.id == "Y")).map polySkel).map PolySkel.groupId =
        (cx5.polygons.find? (fun p => p.id == "Y")).map Polygon.groupId := by
      rw [Option.map_map]
      rfl
    rw [← h1, find_id_skel, c2_trace_eval]
    rfl

end GeoSurvey
